import Mathlib

/-!
NXP NFC HAL vendor extension layer: AutoCard command translator.

Shallow embedding of `snxxx/halimpl_v2/autocard/phNxpAutoCard.cc`.

Conventions of the embedding.

* A frame (`uint8_t* pData` together with `uint16_t dataLen`) is a `List Nat`
  of bytes; `dataLen` is the length of the list.
* `uint8_t` arithmetic is arithmetic on `Nat` followed by `% 256`.
* Reading `pData[i]` is `pData[i]?`; a read at or past `dataLen` has no defined
  result in C++, so every handler returns an `Option` and `none` stands for
  such a read.  The reads happen in the order of the source, with the
  short-circuit evaluation of `||`, `&&` and `?:`.
* The calls to the collaborators (`phNxpHal_NfcDataCallback`,
  `phNxpHal_EnqueueWrite`, `phNxpNciHal_send_ext_cmd`) are recorded, in order,
  in a trace; each record also holds the AutoCard singleton as it was when
  the call was made.
* The handlers are methods of the singleton, so `this` and
  `AutoCard::getInstance()` are the same object, `self` in the model.
-/

namespace AutoCardModel

/-! ## Constants -/

/-- Modelled from the spec: `phNfcNciConstants.h` is not part of the sources at
hand.  Frame header offsets, from the header layout table of the spec
(type/group at offset 0). -/
def NCI_GID_INDEX : Nat := 0

/-- Modelled from the spec: `phNfcNciConstants.h` is not part of the sources at
hand.  Offset of the opcode (spec, header layout table). -/
def NCI_OID_INDEX : Nat := 1

/-- Modelled from the spec: `phNfcNciConstants.h` is not part of the sources at
hand.  Offset of the payload length (spec, header layout table). -/
def NCI_MSG_LEN_INDEX : Nat := 2

/-- Modelled from the spec: `phNfcNciConstants.h` is not part of the sources at
hand.  Offset of the sub-feature id (spec, header layout table). -/
def NCI_MSG_INDEX_FOR_FEATURE : Nat := 3

/-- Modelled from the spec: `phNfcNciConstants.h` is not part of the sources at
hand.  Message type "command"; `NCI_MT_CMD | NCI_GID_PROP` is `0x2F`. -/
def NCI_MT_CMD : Nat := 0x20

/-- Modelled from the spec: `phNfcNciConstants.h` is not part of the sources at
hand.  Message type "response"; `NCI_MT_RSP | NCI_GID_PROP` is `0x4F`. -/
def NCI_MT_RSP : Nat := 0x40

/-- Modelled from the spec: `phNfcNciConstants.h` is not part of the sources at
hand.  Message type "notification"; `NCI_MT_NTF | NCI_GID_PROP` is `0x6F`. -/
def NCI_MT_NTF : Nat := 0x60

/-- Modelled from the spec: `phNfcNciConstants.h` is not part of the sources at
hand.  The proprietary group identifier. -/
def NCI_GID_PROP : Nat := 0x0F

/-- Modelled from the spec: `phNfcStatus.h` is not part of the sources at hand.
Status "success" is `0x00`. -/
def NFCSTATUS_SUCCESS : Nat := 0

/-- The constants of `phNfcNciConstants.h` and `phNfcStatus.h` whose values
neither the sources at hand nor the spec fix; they are parameters of the
model. -/
structure NciConstants where
  /-- The vendor dispatch opcode of host commands. -/
  NCI_ROW_PROP_OID_VAL : Nat
  /-- The opcode of the host-facing replies and notifications. -/
  NCI_ROW_MAINLINE_OID : Nat
  /-- Result "handled by this feature". -/
  NFCSTATUS_EXTN_FEATURE_SUCCESS : Nat
  /-- Result "not my feature". -/
  NFCSTATUS_EXTN_FEATURE_FAILURE : Nat
  deriving DecidableEq, Repr

/-! Constants of `phNxpAutoCard.h`. -/

def AUTOCARD_STATUS_SUCCESS : Nat := 0x00
def CNT_CONFIG_BUFF_MAX_SIZE : Nat := 0x06
def AUTOCARD_SUB_OID_IDEX : Nat := 0x04
def AUTOCARD_FEATURE_SUB_GID : Nat := 0x50
def AUTOCARD_FW_API_OID : Nat := 0x43
def AUTOCARD_FEATURE_ENABLED : Nat := 0x01
def AUTOCARD_SET_COUNTERS_SUB_OID : Nat := 0x01
def AUTOCARD_GET_COUNTERS_SUB_OID : Nat := 0x02
def AUTOCARD_SET_AID_SUB_OID : Nat := 0x03
def AUTOCARD_GET_AID_SUB_OID : Nat := 0x04
def AUTOCARD_SET_APPLET_STATUS_SUB_OID : Nat := 0x05
def AUTOCARD_SUSPEND_SUB_OID : Nat := 0x06
def AUTOCARD_SET_TIMER_SUB_OID : Nat := 0x07
def AUTOCARD_GET_TIMER_SUB_OID : Nat := 0x08
def AUTOCARD_FEATURE_ENABLE_SUB_OID : Nat := 0x07
def AUTOCARD_FEATURE_DISABLE_SUB_OID : Nat := 0x08
def AUTOCARD_STATUS_INDEX : Nat := 0x04
def AUTOCARD_PAYLOAD_LEN : Nat := 0x04
def AUTOCARD_HEADER_LEN : Nat := 0x02
def AUTOCARD_STATUS_CMD_FAIL : Nat := 0x01
def AUTOCARD_STATUS_DISABLED : Nat := 0x0B
def AUTOCARD_STATUS_NOT_CONFIGURED : Nat := 0x0C
def AUTOCARD_STATUS_FEATURE_NOT_SUPPORTED : Nat := 0x0D

/-! ## Data model -/

/-- Modelled from the spec: the chip type enumeration behind
`IS_CHIP_TYPE_NE` is not part of the sources at hand.  Only `sn220u` and
`sn300u` are named by the AutoCard code; every other hardware variant is
`other`. -/
inductive ChipType where
  | sn220u
  | sn300u
  | other (code : Nat)
  deriving DecidableEq, Repr

/-- The macro `IS_CHIP_TYPE_NE(x)`: the running chip is not `x`. -/
def IS_CHIP_TYPE_NE (running x : ChipType) : Bool := running != x

/-- The data members of `class AutoCard` (the singleton). -/
structure AutoCard where
  /-- Sub-opcode of the last host command (`autoCardCmdType`). -/
  autoCardCmdType : Nat
  /-- Mirrored enable status (`mAutoCardEnableStatus`). -/
  mAutoCardEnableStatus : Nat
  /-- Mirrored counters (`mAutoCardCounters`). -/
  mAutoCardCounters : List Nat
  deriving DecidableEq, Repr

/-- The constructor `AutoCard::AutoCard()`. -/
def AutoCard.new : AutoCard :=
  { autoCardCmdType := 0, mAutoCardEnableStatus := 0, mAutoCardCounters := [] }

/-- The collaborators a handler may call. -/
inductive Call where
  /-- Upstream sink `phNxpHal_NfcDataCallback`. -/
  | NfcDataCallback
  /-- Asynchronous writer path `phNxpHal_EnqueueWrite`. -/
  | EnqueueWrite
  /-- Synchronous send `phNxpNciHal_send_ext_cmd`. -/
  | send_ext_cmd
  deriving DecidableEq, Repr

/-- One recorded call: the collaborator, the frame handed to it, and the
singleton at the moment of the call. -/
structure Event where
  call : Call
  frame : List Nat
  self : AutoCard
  deriving DecidableEq, Repr

/-- What the handlers see of the outside world. -/
structure Env where
  /-- The running chip (`nfcFL.chipType`). -/
  chipType : ChipType
  /-- The call `GetNxpNumValue(NAME_NXP_AUTOCARD_SELECTION_PHONE_OFF, &v, 1)`:
  `none` when it returns 0 (setting absent), `some v` when it returns 1 and
  stores the byte `v`. -/
  NXP_AUTOCARD_SELECTION_PHONE_OFF : Option Nat
  /-- The status returned by `phNxpHal_EnqueueWrite` for a frame. -/
  phNxpHal_EnqueueWrite : List Nat → Nat

/-- Result of one handler call: returned status, singleton afterwards, and the
calls made, in order. -/
structure Outcome where
  ret : Nat
  self : AutoCard
  trace : List Event
  deriving DecidableEq, Repr

/-- The frames of the calls to collaborator `c`, in order. -/
def framesOf (c : Call) (trace : List Event) : List (List Nat) :=
  (trace.filter (fun e => e.call == c)).map Event.frame

/-- Frames emitted upstream. -/
def Outcome.upstream (r : Outcome) : List (List Nat) :=
  framesOf Call.NfcDataCallback r.trace

/-- Frames handed to the asynchronous writer. -/
def Outcome.enqueued (r : Outcome) : List (List Nat) :=
  framesOf Call.EnqueueWrite r.trace

/-- Frames sent synchronously to the hardware. -/
def Outcome.sent (r : Outcome) : List (List Nat) :=
  framesOf Call.send_ext_cmd r.trace

/-- The seven-byte reply built at three places of the source:
`{NCI_MT_RSP | NCI_GID_PROP, NCI_ROW_MAINLINE_OID, AUTOCARD_PAYLOAD_LEN,
AUTOCARD_FEATURE_SUB_GID, AUTOCARD_HEADER_LEN, subOid, status}`. -/
def statusReply (K : NciConstants) (subOid status : Nat) : List Nat :=
  [NCI_MT_RSP ||| NCI_GID_PROP, K.NCI_ROW_MAINLINE_OID, AUTOCARD_PAYLOAD_LEN,
   AUTOCARD_FEATURE_SUB_GID, AUTOCARD_HEADER_LEN, subOid, status]

/-! ## `AutoCard::handleVendorNciMessage` -/

/-- Lines 244-256 of `phNxpAutoCard.cc`, the common tail of
`handleVendorNciMessage`: when `autocardStatus` is not success, the status
reply carrying `autoCardCmdType` is handed to the upstream sink; the handler
returns `NFCSTATUS_EXTN_FEATURE_SUCCESS`. -/
def replyAndReturn (K : NciConstants) (self : AutoCard) (trace : List Event)
    (autocardStatus : Nat) : Outcome :=
  if autocardStatus ≠ NFCSTATUS_SUCCESS then
    { ret := K.NFCSTATUS_EXTN_FEATURE_SUCCESS
      self := self
      trace := trace ++
        [⟨Call.NfcDataCallback, statusReply K self.autoCardCmdType autocardStatus, self⟩] }
  else
    { ret := K.NFCSTATUS_EXTN_FEATURE_SUCCESS, self := self, trace := trace }

/-- Lines 236-241 followed by the common tail: the translated command is
handed to `phNxpHal_EnqueueWrite`; a status other than success turns
`autocardStatus` into `AUTOCARD_STATUS_CMD_FAIL`. -/
def enqueueAndReturn (K : NciConstants) (env : Env) (self : AutoCard)
    (autocardCmd : List Nat) : Outcome :=
  let status := env.phNxpHal_EnqueueWrite autocardCmd
  let trace : List Event := [⟨Call.EnqueueWrite, autocardCmd, self⟩]
  if status ≠ NFCSTATUS_SUCCESS then
    replyAndReturn K self trace AUTOCARD_STATUS_CMD_FAIL
  else
    replyAndReturn K self trace NFCSTATUS_SUCCESS

/-- The method `AutoCard::handleVendorNciMessage(dataLen, pData)`, lines
181-257, run on the singleton `self`. -/
def AutoCard.handleVendorNciMessage (K : NciConstants) (env : Env) (self : AutoCard)
    (pData : List Nat) : Option Outcome := do
  let dataLen := pData.length
  let notMine : Outcome :=
    { ret := K.NFCSTATUS_EXTN_FEATURE_FAILURE, self := self, trace := [] }
  -- lines 184-189
  let gid ← pData[NCI_GID_INDEX]?
  if gid ≠ (NCI_MT_CMD ||| NCI_GID_PROP) then pure notMine else do
  let oid ← pData[NCI_OID_INDEX]?
  if oid ≠ K.NCI_ROW_PROP_OID_VAL then pure notMine else do
  let subGid ← pData[NCI_MSG_INDEX_FOR_FEATURE]?
  if subGid ≠ AUTOCARD_FEATURE_SUB_GID then pure notMine else do
  let subOid ← pData[AUTOCARD_SUB_OID_IDEX]?
  if subOid > AUTOCARD_FEATURE_DISABLE_SUB_OID then pure notMine else do
  -- line 193
  let self1 : AutoCard := { self with autoCardCmdType := subOid }
  -- lines 195-208
  if IS_CHIP_TYPE_NE env.chipType ChipType.sn220u then
    pure (replyAndReturn K self1 [] AUTOCARD_STATUS_FEATURE_NOT_SUPPORTED)
  else
  match env.NXP_AUTOCARD_SELECTION_PHONE_OFF with
  | none => pure (replyAndReturn K self1 [] AUTOCARD_STATUS_NOT_CONFIGURED)
  | some autocard_selection_mode =>
  if autocard_selection_mode ≠ AUTOCARD_FEATURE_ENABLED ∨
      (self1.mAutoCardEnableStatus ≠ AUTOCARD_FEATURE_ENABLED ∧
        subOid ≠ AUTOCARD_FEATURE_ENABLE_SUB_OID) then
    pure (replyAndReturn K self1 [] AUTOCARD_STATUS_DISABLED)
  else do
  -- lines 210-213
  let autocardCmd := pData
  let autocardCmd := autocardCmd.set NCI_OID_INDEX AUTOCARD_FW_API_OID
  let len ← autocardCmd[NCI_MSG_LEN_INDEX]?
  let autocardCmd := autocardCmd.set NCI_MSG_LEN_INDEX ((len + 255) % 256)
  let autocardCmd := autocardCmd.eraseIdx NCI_MSG_INDEX_FOR_FEATURE
  -- lines 215-235
  if subOid = AUTOCARD_FEATURE_ENABLE_SUB_OID ∨
      subOid = AUTOCARD_FEATURE_DISABLE_SUB_OID then
    if subOid = AUTOCARD_FEATURE_ENABLE_SUB_OID ∧
        self1.mAutoCardEnableStatus = AUTOCARD_FEATURE_ENABLED then
      pure
        { ret := K.NFCSTATUS_EXTN_FEATURE_SUCCESS
          self := self1
          trace :=
            [⟨Call.NfcDataCallback,
              statusReply K AUTOCARD_FEATURE_ENABLE_SUB_OID AUTOCARD_STATUS_SUCCESS,
              self1⟩] }
    else do
      let autocardCmd := autocardCmd.set NCI_MSG_INDEX_FOR_FEATURE AUTOCARD_SET_COUNTERS_SUB_OID
      let len ← autocardCmd[NCI_MSG_LEN_INDEX]?
      let autocardCmd :=
        autocardCmd.set NCI_MSG_LEN_INDEX ((len + CNT_CONFIG_BUFF_MAX_SIZE) % 256)
      let last ← pData[dataLen - 1]?
      let self2 : AutoCard := { self1 with mAutoCardEnableStatus := last }
      let autocardCmd := autocardCmd ++ self2.mAutoCardCounters
      pure (enqueueAndReturn K env self2 autocardCmd)
  else
    pure (enqueueAndReturn K env self1 autocardCmd)

/-! ## `AutoCard::handleVendorNciRspNtf` -/

/-- The method `AutoCard::handleVendorNciRspNtf(dataLen, pData)`, lines
134-179, run on the singleton `self`. -/
def AutoCard.handleVendorNciRspNtf (K : NciConstants) (self : AutoCard)
    (pData : List Nat) : Option Outcome := do
  let dataLen := pData.length
  let notMine : Outcome :=
    { ret := K.NFCSTATUS_EXTN_FEATURE_FAILURE, self := self, trace := [] }
  -- lines 137-143
  let gid ← pData[NCI_GID_INDEX]?
  if gid ≠ (NCI_MT_RSP ||| NCI_GID_PROP) ∧ gid ≠ (NCI_MT_NTF ||| NCI_GID_PROP) then
    pure notMine
  else do
  let oid ← pData[NCI_OID_INDEX]?
  if oid ≠ AUTOCARD_FW_API_OID then pure notMine else do
  let outOfRange ←
    if dataLen > AUTOCARD_STATUS_INDEX then do
      let subOid ← pData[3]?
      pure (decide (subOid > AUTOCARD_SUSPEND_SUB_OID))
    else pure false
  if outOfRange then pure notMine else do
  -- lines 145-155
  if gid = (NCI_MT_NTF ||| NCI_GID_PROP) then do
    let autocardNtf : List Nat :=
      [NCI_MT_NTF ||| NCI_GID_PROP, K.NCI_ROW_MAINLINE_OID, AUTOCARD_PAYLOAD_LEN,
       AUTOCARD_FEATURE_SUB_GID]
    let len ← pData[NCI_MSG_LEN_INDEX]?
    let autocardNtf := autocardNtf.set NCI_MSG_LEN_INDEX ((len + AUTOCARD_HEADER_LEN) % 256)
    let autocardNtf := autocardNtf ++ pData.drop NCI_MSG_LEN_INDEX
    pure
      { ret := K.NFCSTATUS_EXTN_FEATURE_SUCCESS
        self := self
        trace := [⟨Call.NfcDataCallback, autocardNtf, self⟩] }
  else do
  -- lines 156-161
  let status ←
    if dataLen > AUTOCARD_STATUS_INDEX then pData[AUTOCARD_STATUS_INDEX]? else pData[3]?
  let autocardRsp : List Nat :=
    [NCI_MT_RSP ||| NCI_GID_PROP, K.NCI_ROW_MAINLINE_OID, AUTOCARD_PAYLOAD_LEN,
     AUTOCARD_FEATURE_SUB_GID]
  -- lines 163-178
  if status ≠ NFCSTATUS_SUCCESS then
    let autocardRsp := autocardRsp ++ [AUTOCARD_HEADER_LEN]
    let autocardRsp := autocardRsp ++ [self.autoCardCmdType]
    let autocardRsp := autocardRsp ++ [status]
    pure
      { ret := K.NFCSTATUS_EXTN_FEATURE_SUCCESS
        self := self
        trace := [⟨Call.NfcDataCallback, autocardRsp, self⟩] }
  else do
    let len ← pData[NCI_MSG_LEN_INDEX]?
    let autocardRsp := autocardRsp.set NCI_MSG_LEN_INDEX ((len + AUTOCARD_HEADER_LEN) % 256)
    let autocardRsp := autocardRsp ++ pData.drop NCI_MSG_LEN_INDEX
    let subOid ← autocardRsp[AUTOCARD_SUB_OID_IDEX]?
    let autocardRsp :=
      if subOid = AUTOCARD_SET_COUNTERS_SUB_OID then
        autocardRsp.set AUTOCARD_SUB_OID_IDEX self.autoCardCmdType
      else autocardRsp
    pure
      { ret := K.NFCSTATUS_EXTN_FEATURE_SUCCESS
        self := self
        trace := [⟨Call.NfcDataCallback, autocardRsp, self⟩] }

/-! ## `AutoCard::phNxpNciHal_getAutoCardConfig` -/

/-- The lookup `GetNxpByteArrayValue(name, pValue, bufflen, len)` of
`phNxpConfig.cc`, that is `CNfcConfig::getValue(name, pValue, len, readlen)`
with non-null pointers.  `param` is the outcome of `find(name)`: `none` when no
parameter of that name is loaded, `some v` with `v` the bytes of the
parameter's string value (empty for a numeric parameter).  The result is the
returned integer, the buffer afterwards and the value stored in `*len`. -/
def GetNxpByteArrayValue (param : Option (List Nat)) (pValue : List Nat) (bufflen : Int) :
    Nat × List Nat × Int :=
  if bufflen ≤ 0 then (0, pValue, -1)
  else
    match param with
    | none => (0, pValue, -1)
    | some v =>
      if v.length > 0 then
        if (v.length : Int) ≤ bufflen then
          (1, v ++ List.replicate (bufflen.toNat - v.length) 0, (v.length : Int))
        else (1, pValue, -1)
      else (0, pValue, -1)

/-- What `phNxpNciHal_getAutoCardConfig` sees of the outside world. -/
structure ConfigEnv where
  /-- The running chip (`nfcFL.chipType`). -/
  chipType : ChipType
  /-- The call `GetNxpNumValue(NAME_NXP_AUTOCARD_SELECTION_PHONE_OFF, &v, 1)`:
  `none` when it returns 0, `some v` when it returns 1 and stores the byte `v`. -/
  NXP_AUTOCARD_SELECTION_PHONE_OFF : Option Nat
  /-- The outcome of `find(NAME_NXP_AUTOCARD_COUNTERS)`, as `GetNxpByteArrayValue`
  takes it. -/
  NXP_AUTOCARD_COUNTERS : Option (List Nat)
  /-- The call `GetNxpNumValue(NAME_NXP_AUTOCARD_TIMER_VALUE, &v, 1)`. -/
  NXP_AUTOCARD_TIMER_VALUE : Option Nat
  /-- The synchronous send `phNxpNciHal_send_ext_cmd`: given the number of
  commands sent before in this run and the command, the returned status and the
  response (`rsp_len` is the length of the response). -/
  phNxpNciHal_send_ext_cmd : Nat → List Nat → Nat × List Nat

/-- Result of one run of `phNxpNciHal_getAutoCardConfig`: the singleton
afterwards and the calls made, in order. -/
structure ConfigOutcome where
  self : AutoCard
  trace : List Event
  deriving DecidableEq, Repr

/-- Commands sent synchronously to the hardware during the run. -/
def ConfigOutcome.sent (r : ConfigOutcome) : List (List Nat) :=
  framesOf Call.send_ext_cmd r.trace

/-- Lines 108-131 of `phNxpAutoCard.cc`: timer reconciliation, entered with the
singleton and the calls made by counter reconciliation. -/
def reconcileTimer (env : ConfigEnv) (self : AutoCard) (trace : List Event) :
    ConfigOutcome :=
  -- lines 108-113
  match env.NXP_AUTOCARD_TIMER_VALUE with
  | none => { self := self, trace := trace }
  | some autocard_timer_val =>
  if autocard_timer_val = 0 then { self := self, trace := trace } else
  -- lines 114-116
  let getTimerValue : List Nat := [0x2F, 0x43, 0x01, 0x08]
  let answer := env.phNxpNciHal_send_ext_cmd trace.length getTimerValue
  let status := answer.1
  let rsp := answer.2
  let trace := trace ++ [⟨Call.send_ext_cmd, getTimerValue, self⟩]
  -- lines 117-123
  let validResponse : Bool :=
    decide (status = NFCSTATUS_SUCCESS) && decide (rsp.length = 6) &&
      decide (rsp[NCI_MSG_INDEX_FOR_FEATURE]? = some AUTOCARD_GET_TIMER_SUB_OID) &&
      decide (rsp[4]? = some AUTOCARD_STATUS_SUCCESS)
  if !validResponse then { self := self, trace := trace } else
  -- line 124
  if rsp[5]? = some autocard_timer_val then { self := self, trace := trace } else
  -- lines 125-131
  let setTimerValue : List Nat := [0x2F, 0x43, 0x02, 0x07, autocard_timer_val]
  let trace := trace ++ [⟨Call.send_ext_cmd, setTimerValue, self⟩]
  { self := self, trace := trace }

/-- The method `AutoCard::phNxpNciHal_getAutoCardConfig()`, lines 45-132, run
on the singleton `self`. -/
def AutoCard.phNxpNciHal_getAutoCardConfig (env : ConfigEnv) (self : AutoCard) :
    ConfigOutcome :=
  -- line 58
  if IS_CHIP_TYPE_NE env.chipType ChipType.sn220u &&
      IS_CHIP_TYPE_NE env.chipType ChipType.sn300u then
    { self := self, trace := [] }
  else
  -- lines 60-67
  match env.NXP_AUTOCARD_SELECTION_PHONE_OFF with
  | none => { self := self, trace := [] }
  | some autocard_selection_mode =>
  if autocard_selection_mode ≠ AUTOCARD_FEATURE_ENABLED then { self := self, trace := [] } else
  -- lines 69-77
  let getAutoCardCounters : List Nat := [0x2F, 0x43, 0x01, 0x02]
  let answer := env.phNxpNciHal_send_ext_cmd 0 getAutoCardCounters
  let status := answer.1
  let rsp := answer.2
  let trace : List Event := [⟨Call.send_ext_cmd, getAutoCardCounters, self⟩]
  let validResponse : Bool :=
    decide (status = NFCSTATUS_SUCCESS) && decide (rsp.length = 12) &&
      decide (rsp[NCI_MSG_INDEX_FOR_FEATURE]? = some AUTOCARD_GET_COUNTERS_SUB_OID)
  if !validResponse then { self := self, trace := trace } else
  -- lines 79-82
  let self : AutoCard := { self with mAutoCardEnableStatus := rsp.getD 5 0 }
  let self : AutoCard := { self with mAutoCardCounters := (rsp.drop 6).take 6 }
  -- lines 84-91
  let buffer : List Nat := List.replicate CNT_CONFIG_BUFF_MAX_SIZE 0
  let lookup := GetNxpByteArrayValue env.NXP_AUTOCARD_COUNTERS buffer CNT_CONFIG_BUFF_MAX_SIZE
  let isFound := lookup.1
  let buffer := lookup.2.1
  let retlen := lookup.2.2
  if isFound > 0 ∧ retlen = 6 then
    -- lines 92-105
    let readConfCnt := buffer.take 6
    if readConfCnt ≠ self.mAutoCardCounters then
      let setAutoCardCounters : List Nat := [0x2F, 0x43, 0x08, 0x01, 0x00]
      let setAutoCardCounters := setAutoCardCounters ++ readConfCnt
      let setAutoCardCounters := setAutoCardCounters.set 4 self.mAutoCardEnableStatus
      let status := (env.phNxpNciHal_send_ext_cmd trace.length setAutoCardCounters).1
      let trace := trace ++ [⟨Call.send_ext_cmd, setAutoCardCounters, self⟩]
      if status = NFCSTATUS_SUCCESS then
        reconcileTimer env { self with mAutoCardCounters := readConfCnt } trace
      else reconcileTimer env self trace
    else reconcileTimer env self trace
  else reconcileTimer env self trace

end AutoCardModel

/-!
Observe mode: RF-state synchronisation.

Shallow embedding of `snxxx/halimpl_v2/observe_mode/ObserveMode.cc`, with the
conventions of the AutoCard model: frames are lists of bytes, a read past the
end of the frame is `none`, and the calls to the collaborators are recorded in
order.
-/

namespace ObserveModeModel

open AutoCardModel (NFCSTATUS_SUCCESS NCI_GID_INDEX NCI_OID_INDEX NCI_MSG_LEN_INDEX
  NCI_MSG_INDEX_FOR_FEATURE)

/-- Modelled from the spec: `phNfcNciConstants.h` is not part of the sources at
hand.  Offset of the feature value, byte 4 of a host command. -/
def NCI_MSG_INDEX_FEATURE_VALUE : Nat := 4

/-- The constants used by `ObserveMode.cc` whose values neither the sources at
hand nor the spec fix; they are parameters of the model. -/
structure ObserveConstants where
  NCI_RSP_OK : Nat
  NCI_RSP_FAIL : Nat
  NCI_RSP_SIZE : Nat
  NCI_RF_DISC_RSP_GID : Nat
  NCI_RF_DEACTIVATE_OID : Nat
  NCI_RF_DISC_COMMAND_OID : Nat
  OBSERVE_MODE_TECH_COMMAND_SUPPORT_FLAG_FOR_ALL_TECH : Nat
  NCI_ANDROID_PASSIVE_OBSERVE_PARAM_DISABLE : Nat
  NFCSTATUS_EXTN_FEATURE_SUCCESS : Nat
  NFCSTATUS_EXTN_FEATURE_FAILURE : Nat
  deriving DecidableEq, Repr

/-- Modelled from the spec: `NciDiscoveryCommandBuilder` is not part of the
sources at hand.  Of `NciDiscoveryCommandBuilderInstance` the model keeps the
mark "a discovery command was received" (`setRfDiscoveryReceived`,
`isRfDiscoveryCommandReceived`) and the current per-technology value
(`setObserveModePerTech`, `getCurrentObserveModeTechValue`). -/
structure NciDiscoveryCommandBuilder where
  rfDiscoveryReceived : Bool
  currentObserveModeTechValue : Nat
  deriving DecidableEq, Repr

/-- The globals of `ObserveMode.cc` together with the command builder. -/
structure ObserveState where
  gWaitingForDiscRsp : Bool
  gWaitingForRfDeActivateRsp : Bool
  bIsObserveModeEnabled : Bool
  bIsObserveChangeInProgress : Bool
  builder : NciDiscoveryCommandBuilder
  deriving DecidableEq, Repr

/-- The state at start-up: all flags false, no discovery command received. -/
def ObserveState.init : ObserveState :=
  { gWaitingForDiscRsp := false
    gWaitingForRfDeActivateRsp := false
    bIsObserveModeEnabled := false
    bIsObserveChangeInProgress := false
    builder := { rfDiscoveryReceived := false, currentObserveModeTechValue := 0 } }

/-- One recorded call to a collaborator. -/
inductive ObserveEvent where
  /-- Synchronous send `phNxpNciHal_send_ext_cmd(len, cmd, ..)`. -/
  | send_ext_cmd (cmd : List Nat)
  /-- Asynchronous writer path `phNxpHal_EnqueueWrite(cmd, len)`. -/
  | EnqueueWrite (cmd : List Nat)
  /-- Acknowledgement `phNxpNciHal_vendorSpecificCallback(oid, subGid, payload)`. -/
  | vendorSpecificCallback (oid subGid : Nat) (payload : List Nat)
  /-- The call `ReaderPollConfigParser::resetLastKnownValues()`. -/
  | resetLastKnownValues
  deriving DecidableEq, Repr

/-- What the observe-mode functions see of the outside world. -/
structure ObserveEnv where
  /-- The answer of `phNxpNciHal_isObserveModeSupported()`. -/
  phNxpNciHal_isObserveModeSupported : Bool
  /-- The status returned by `phNxpNciHal_send_ext_cmd`, given the number of
  commands sent synchronously before in this call and the command. -/
  phNxpNciHal_send_ext_cmd : Nat → List Nat → Nat
  /-- The status returned by `phNxpHal_EnqueueWrite` for a frame. -/
  phNxpHal_EnqueueWrite : List Nat → Nat
  /-- The command built by `reConfigRFDiscCmd()` (discovery with field detect). -/
  reConfigRFDiscCmd : NciDiscoveryCommandBuilder → List Nat
  /-- The command returned by `getDiscoveryCommand()` (default discovery). -/
  getDiscoveryCommand : NciDiscoveryCommandBuilder → List Nat

/-- The commands sent synchronously, in order. -/
def sentOf : List ObserveEvent → List (List Nat)
  | [] => []
  | ObserveEvent.send_ext_cmd cmd :: t => cmd :: sentOf t
  | _ :: t => sentOf t

/-- The frames handed to the asynchronous writer, in order. -/
def enqueuedOf : List ObserveEvent → List (List Nat)
  | [] => []
  | ObserveEvent.EnqueueWrite cmd :: t => cmd :: enqueuedOf t
  | _ :: t => enqueuedOf t

/-- The acknowledgements handed to `phNxpNciHal_vendorSpecificCallback`. -/
def acksOf : List ObserveEvent → List (Nat × Nat × List Nat)
  | [] => []
  | ObserveEvent.vendorSpecificCallback oid subGid payload :: t =>
    (oid, subGid, payload) :: acksOf t
  | _ :: t => acksOf t

/-- State and calls made so far, threaded through one call. -/
structure Run where
  state : ObserveState
  trace : List ObserveEvent
  deriving DecidableEq, Repr

/-- Result of one handler call. -/
structure ObserveOutcome where
  ret : Nat
  state : ObserveState
  trace : List ObserveEvent
  deriving DecidableEq, Repr

/-- The commands sent synchronously during the call. -/
def ObserveOutcome.sent (r : ObserveOutcome) : List (List Nat) := sentOf r.trace

/-- The frames enqueued during the call. -/
def ObserveOutcome.enqueued (r : ObserveOutcome) : List (List Nat) := enqueuedOf r.trace

/-- The acknowledgements made during the call. -/
def ObserveOutcome.acks (r : ObserveOutcome) : List (Nat × Nat × List Nat) := acksOf r.trace

/-- The synchronous send: the command is recorded and the hardware's status
for it returned. -/
def send_ext_cmd (env : ObserveEnv) (cmd : List Nat) (run : Run) : Nat × Run :=
  (env.phNxpNciHal_send_ext_cmd (sentOf run.trace).length cmd,
   { run with trace := run.trace ++ [ObserveEvent.send_ext_cmd cmd] })

/-- The function `setObserveModeFlag`. -/
def setObserveModeFlag (flag : Bool) (s : ObserveState) : ObserveState :=
  { s with bIsObserveModeEnabled := flag }

/-- The function `setObserveChangeInProgress`. -/
def setObserveChangeInProgress (flag : Bool) (s : ObserveState) : ObserveState :=
  { s with bIsObserveChangeInProgress := flag }

/-- The builder method `setObserveModePerTech`. -/
def setObserveModePerTech (techValue : Nat) (s : ObserveState) : ObserveState :=
  { s with builder := { s.builder with currentObserveModeTechValue := techValue } }

/-- The deactivate command `{0x21, 0x06, 0x01, 0x00}`. -/
def rf_deactivate_cmd : List Nat := [0x21, 0x06, 0x01, 0x00]

/-- The function `deactivateRfDiscovery`, lines 105-117. -/
def deactivateRfDiscovery (env : ObserveEnv) (run : Run) : Nat × Run :=
  if run.state.builder.rfDiscoveryReceived then
    send_ext_cmd env rf_deactivate_cmd
      { run with trace := run.trace ++ [ObserveEvent.resetLastKnownValues] }
  else
    (NFCSTATUS_SUCCESS, { run with state := setObserveChangeInProgress true run.state })

/-- The function `sendRfDiscoveryCommand`, lines 132-145. -/
def sendRfDiscoveryCommand (env : ObserveEnv) (isObserveModeEnable : Bool) (run : Run) :
    Nat × Run :=
  if run.state.builder.rfDiscoveryReceived then
    let discoveryCommand :=
      if isObserveModeEnable then env.reConfigRFDiscCmd run.state.builder
      else env.getDiscoveryCommand run.state.builder
    send_ext_cmd env discoveryCommand run
  else
    (NFCSTATUS_SUCCESS, run)

/-- Lines 238-277 of `handleObserveModeTechCommand`: what follows the first
deactivate.  The result is the acknowledgement status and the run. -/
def afterDeactivate (C : ObserveConstants) (env : ObserveEnv) (p_data : List Nat)
    (techValue : Nat) (flag : Bool) (nciStatus : Nat) (run : Run) : Nat × Run :=
  if nciStatus = NFCSTATUS_SUCCESS then
    -- lines 239-249
    let step2 : Nat × Run :=
      if flag ∧ techValue ≠ run.state.builder.currentObserveModeTechValue then
        send_ext_cmd env p_data { run with state := setObserveModePerTech techValue run.state }
      else (nciStatus, run)
    let nciStatus := step2.1
    let run := step2.2
    -- lines 251-253
    let step3 := sendRfDiscoveryCommand env
      (if nciStatus = NFCSTATUS_SUCCESS then flag else false) run
    let rfDiscoveryStatus := step3.1
    let run := step3.2
    -- lines 255-274
    if rfDiscoveryStatus = NFCSTATUS_SUCCESS ∧ nciStatus = NFCSTATUS_SUCCESS then
      (C.NCI_RSP_OK, { run with state := setObserveModeFlag flag run.state })
    else if rfDiscoveryStatus ≠ NFCSTATUS_SUCCESS then
      let run := (deactivateRfDiscovery env run).2
      let run := (sendRfDiscoveryCommand env false run).2
      (C.NCI_RSP_FAIL, run)
    else (C.NCI_RSP_FAIL, run)
  else (C.NCI_RSP_FAIL, run)

/-- The function `handleObserveModeTechCommand(data_len, p_data)`, lines
222-288, run in state `s`. -/
def handleObserveModeTechCommand (C : ObserveConstants) (env : ObserveEnv) (s : ObserveState)
    (p_data : List Nat) : Option ObserveOutcome := do
  -- line 225
  let techValue ← p_data[NCI_MSG_INDEX_FEATURE_VALUE]?
  let run : Run := { state := s, trace := [] }
  -- lines 229-282
  let result : Nat × Run :=
    if env.phNxpNciHal_isObserveModeSupported = true ∧
        (techValue &&& C.OBSERVE_MODE_TECH_COMMAND_SUPPORT_FLAG_FOR_ALL_TECH ≠ 0 ∨
          techValue = C.NCI_ANDROID_PASSIVE_OBSERVE_PARAM_DISABLE) then
      let flag : Bool :=
        decide (techValue &&& C.OBSERVE_MODE_TECH_COMMAND_SUPPORT_FLAG_FOR_ALL_TECH ≠ 0)
      let step1 := deactivateRfDiscovery env run
      afterDeactivate C env p_data techValue flag step1.1 step1.2
    else (C.NCI_RSP_FAIL, run)
  let status := result.1
  let run := result.2
  -- lines 284-287
  let oid ← p_data[NCI_OID_INDEX]?
  let subGid ← p_data[NCI_MSG_INDEX_FOR_FEATURE]?
  let trace := run.trace ++ [ObserveEvent.vendorSpecificCallback oid subGid [status]]
  let len ← p_data[NCI_MSG_LEN_INDEX]?
  pure { ret := len, state := run.state, trace := trace }

/-- The function `handleObserveMode(data_len, p_data)`, lines 75-94. -/
def handleObserveMode (C : ObserveConstants) (env : ObserveEnv) (s : ObserveState)
    (p_data : List Nat) : Option ObserveOutcome := do
  if p_data.length ≤ 4 then pure { ret := 0, state := s, trace := [] } else do
  let result : Nat × ObserveState ←
    if env.phNxpNciHal_isObserveModeSupported then do
      let value ← p_data[NCI_MSG_INDEX_FEATURE_VALUE]?
      let s := setObserveModeFlag (decide (value ≠ 0)) s
      let value ← p_data[NCI_MSG_INDEX_FEATURE_VALUE]?
      let s := setObserveModePerTech value s
      pure (C.NCI_RSP_OK, s)
    else pure (C.NCI_RSP_FAIL, s)
  let oid ← p_data[NCI_OID_INDEX]?
  let subGid ← p_data[NCI_MSG_INDEX_FOR_FEATURE]?
  let len ← p_data[NCI_MSG_LEN_INDEX]?
  pure
    { ret := len
      state := result.2
      trace := [ObserveEvent.vendorSpecificCallback oid subGid [result.1]] }

/-- The function `resetDiscovery()`, lines 161-171; the status returned by
`phNxpHal_EnqueueWrite` is not looked at. -/
def resetDiscovery (s : ObserveState) : Run :=
  let s : ObserveState := { s with builder := { s.builder with rfDiscoveryReceived := true } }
  if s.bIsObserveChangeInProgress then
    let s : ObserveState := { s with gWaitingForRfDeActivateRsp := true }
    let s := setObserveChangeInProgress false s
    { state := s, trace := [ObserveEvent.EnqueueWrite rf_deactivate_cmd] }
  else { state := s, trace := [] }

/-- The function `handleObserveModeRfStateRspNtf(dataLen, pData)`, lines
188-210. -/
def handleObserveModeRfStateRspNtf (C : ObserveConstants) (env : ObserveEnv)
    (s : ObserveState) (pData : List Nat) : Option ObserveOutcome := do
  let dataLen := pData.length
  -- lines 189-191
  let isDeactivateRsp : Bool ←
    if s.gWaitingForRfDeActivateRsp = true ∧ dataLen ≥ C.NCI_RSP_SIZE then do
      let gid ← pData[NCI_GID_INDEX]?
      if gid = C.NCI_RF_DISC_RSP_GID then do
        let oid ← pData[NCI_OID_INDEX]?
        pure (decide (oid = C.NCI_RF_DEACTIVATE_OID))
      else pure false
    else pure false
  if isDeactivateRsp then
    -- lines 192-200
    let s : ObserveState := { s with gWaitingForRfDeActivateRsp := false }
    let s : ObserveState := { s with gWaitingForDiscRsp := true }
    let discoveryCommand :=
      if s.bIsObserveModeEnabled then env.reConfigRFDiscCmd s.builder
      else env.getDiscoveryCommand s.builder
    pure
      { ret := C.NFCSTATUS_EXTN_FEATURE_SUCCESS
        state := s
        trace := [ObserveEvent.EnqueueWrite discoveryCommand] }
  else do
  -- lines 202-204
  let isDiscRsp : Bool ←
    if s.gWaitingForDiscRsp = true ∧ dataLen ≥ 2 then do
      let gid ← pData[NCI_GID_INDEX]?
      if gid = C.NCI_RF_DISC_RSP_GID then do
        let oid ← pData[NCI_OID_INDEX]?
        pure (decide (oid = C.NCI_RF_DISC_COMMAND_OID))
      else pure false
    else pure false
  if isDiscRsp then
    -- lines 205-206
    pure
      { ret := C.NFCSTATUS_EXTN_FEATURE_SUCCESS
        state := { s with gWaitingForDiscRsp := false }
        trace := [] }
  else
    -- line 209
    pure { ret := C.NFCSTATUS_EXTN_FEATURE_FAILURE, state := s, trace := [] }

/-- The function `handleGetObserveModeStatus(data_len, p_data)`, lines
300-316. -/
def handleGetObserveModeStatus (s : ObserveState) (p_data : List Nat) :
    Option ObserveOutcome := do
  if p_data.length < 4 then pure { ret := 0, state := s, trace := [] } else do
  let response : List Nat := [0x00]
  let response := response ++
    [if s.bIsObserveModeEnabled then s.builder.currentObserveModeTechValue else 0x00]
  let oid ← p_data[NCI_OID_INDEX]?
  let subGid ← p_data[NCI_MSG_INDEX_FOR_FEATURE]?
  let len ← p_data[NCI_MSG_LEN_INDEX]?
  pure
    { ret := len
      state := s
      trace := [ObserveEvent.vendorSpecificCallback oid subGid response] }

/-- Sample values for the constants the observe-mode model takes as
parameters; they only serve to instantiate theorems at concrete inputs. -/
def sampleObserveConstants : ObserveConstants :=
  { NCI_RSP_OK := 0x00
    NCI_RSP_FAIL := 0x03
    NCI_RSP_SIZE := 2
    NCI_RF_DISC_RSP_GID := 0x41
    NCI_RF_DEACTIVATE_OID := 0x06
    NCI_RF_DISC_COMMAND_OID := 0x03
    OBSERVE_MODE_TECH_COMMAND_SUPPORT_FLAG_FOR_ALL_TECH := 0x07
    NCI_ANDROID_PASSIVE_OBSERVE_PARAM_DISABLE := 0x00
    NFCSTATUS_EXTN_FEATURE_SUCCESS := 0x50
    NFCSTATUS_EXTN_FEATURE_FAILURE := 0x51 }

/-- A sample hardware: observe mode supported, the synchronous send answers the
`n`-th command of a call with `statuses n`, every enqueue succeeds, the
field-detect discovery command is `21 03 01 FF` and the default one
`21 03 01 00`. -/
def sampleObserveEnv (statuses : Nat → Nat) : ObserveEnv :=
  { phNxpNciHal_isObserveModeSupported := true
    phNxpNciHal_send_ext_cmd := fun n _ => statuses n
    phNxpHal_EnqueueWrite := fun _ => 0
    reConfigRFDiscCmd := fun _ => [0x21, 0x03, 0x01, 0xFF]
    getDiscoveryCommand := fun _ => [0x21, 0x03, 0x01, 0x00] }

/-- The state once a discovery command has been received: the start-up state
with the mark set. -/
def sampleActiveState : ObserveState :=
  { ObserveState.init with
    builder := { rfDiscoveryReceived := true, currentObserveModeTechValue := 0 } }

end ObserveModeModel

/-!
Outbound queue writer.

Shallow embedding of `snxxx/halimpl_v2/hal/phNxpNciHal_WriterThread.cc`.

Conventions of the embedding.

* The object is the record of its three members; `Start`, `Post` and `Stop`
  take it and give it back.  Each is modelled as run by one caller: a load of
  `thread_running` gives the value of the last store.
* The calls to the collaborators (message queue library, `pthread_create`,
  `pthread_join`, transport write, upstream callbacks) are recorded, in order,
  in a trace.  What a collaborator returns is an argument of the model.
* The worker loop `Run` is driven by a script: one entry for each pass whose
  loop test read `thread_running` as true, giving what `phDal4Nfc_msgrcv`
  delivered, what the second load of `thread_running` read and what the
  transport write returned.  The end of the script is the loop test reading
  false.
-/

namespace WriterThreadModel

open AutoCardModel (NFCSTATUS_SUCCESS)

/-- The constants of headers that are not part of the sources at hand; their
values are parameters of the model. -/
structure WriterConstants where
  PHNCI_MAX_DATA_LEN : Nat
  NCI_HAL_TML_WRITE_MSG : Nat
  HAL_CTRL_GRANTED_MSG : Nat
  NFCSTATUS_FAILED : Nat
  deriving DecidableEq, Repr

/-- Modelled from the spec: the message type `phLibNfc_Message_t` is declared
in `phNfcTypes.h`, which is not part of the sources at hand.  The fields are
those `Post` and `Run` use; `pMsgData` is `none` for `NULL`, and `data` holds
the bytes that were copied into the array. -/
structure phLibNfc_Message_t where
  eMsgType : Nat
  pMsgData : Option Nat
  Size : Nat
  data : List Nat
  w_status : Nat
  deriving DecidableEq, Repr

/-- The members of `phNxpNciHal_WriterThread`. -/
structure phNxpNciHal_WriterThread where
  thread_running : Bool
  writer_queue : Int
  writer_thread : Nat
  deriving DecidableEq, Repr

/-- The constructor, lines 25-28. -/
def phNxpNciHal_WriterThread.new : phNxpNciHal_WriterThread :=
  { thread_running := false, writer_queue := 0, writer_thread := 0 }

/-- A recorded call to a collaborator.  `phDal4Nfc_msgget` and `pthread_create`
carry what they returned, the others what they were given. -/
inductive WriterEvent where
  | phDal4Nfc_msgget (queue : Int)
  | pthread_create (val : Int)
  | phDal4Nfc_msgsnd (queue : Int) (msg : phLibNfc_Message_t)
  | phDal4Nfc_msgrelease (queue : Int)
  | pthread_join (thread : Nat)
  | phNxpNciHal_write_unlocked (data_len : Nat) (p_data : List Nat)
  | phNxpExtn_WriteCompleteStatusUpdate (status : Nat)
  | phNxpExtn_NfcHalControlGranted
  deriving DecidableEq, Repr

/-- The result of `Start` or `Stop`: the value returned, the object after the
call and the collaborator calls made. -/
structure WriterOutcome where
  ret : Bool
  self : phNxpNciHal_WriterThread
  trace : List WriterEvent
  deriving DecidableEq, Repr

/-- The result of `Post`: the value returned and the collaborator calls made;
`Post` writes no member. -/
structure PostOutcome where
  ret : Bool
  trace : List WriterEvent
  deriving DecidableEq, Repr

/-- The method `Start()`, lines 36-57.  `queue` is what `phDal4Nfc_msgget`
returns, `val` what `pthread_create` returns and `thread` the thread id it
stores on success; on failure `writer_thread` is left as it was. -/
def phNxpNciHal_WriterThread.Start (self : phNxpNciHal_WriterThread) (queue : Int)
    (val : Int) (thread : Nat) : WriterOutcome :=
  if ¬ self.thread_running then
    -- line 42
    let self := { self with thread_running := true }
    -- line 43
    let self := { self with writer_queue := queue }
    let trace := [WriterEvent.phDal4Nfc_msgget queue]
    if self.writer_queue = 0 then
      -- lines 44-47
      { ret := false, self := self, trace := trace }
    else
      -- lines 48-49
      let trace := trace ++ [WriterEvent.pthread_create val]
      if val ≠ 0 then
        -- lines 50-54
        { ret := false, self := { self with thread_running := false }, trace := trace }
      else
        { ret := true, self := { self with writer_thread := thread }, trace := trace }
  else
    -- line 56
    { ret := true, self := self, trace := [] }

/-- The method `Post(data, length)`, lines 59-74.  `data` is `none` for a null
pointer, `length` is a `uint16_t`, and `sent` is what `phDal4Nfc_msgsnd`
returns.  `phNxpNciHal_Memcpy(msg.data, length, data, length)` copies `length`
bytes of the buffer; the result is `none` if the buffer holds fewer. -/
def phNxpNciHal_WriterThread.Post (C : WriterConstants) (self : phNxpNciHal_WriterThread)
    (data : Option (List Nat)) (length : Nat) (sent : Int) : Option PostOutcome :=
  match data with
  | none => some { ret := false, trace := [] }
  | some buffer =>
    -- lines 61-64
    if length = 0 ∨ length > C.PHNCI_MAX_DATA_LEN then
      some { ret := false, trace := [] }
    else if buffer.length < length then none
    else
      -- lines 65-69
      let msg : phLibNfc_Message_t :=
        { eMsgType := C.NCI_HAL_TML_WRITE_MSG
          pMsgData := none
          Size := length
          data := buffer.take length
          w_status := 0 }
      -- lines 70-73
      let trace := [WriterEvent.phDal4Nfc_msgsnd self.writer_queue msg]
      if sent ≠ 0 then some { ret := false, trace := trace }
      else some { ret := true, trace := trace }

/-- The method `Stop()`, lines 83-96.  `joined` is what `pthread_join` returns
if it is called. -/
def phNxpNciHal_WriterThread.Stop (self : phNxpNciHal_WriterThread) (joined : Int) :
    WriterOutcome :=
  if self.thread_running then
    -- line 85
    let self := { self with thread_running := false }
    -- line 86
    let trace := [WriterEvent.phDal4Nfc_msgrelease self.writer_queue]
    -- line 87
    let self := { self with writer_queue := 0 }
    -- lines 88-92: `&&` calls `pthread_join` only if the load gives true
    if self.thread_running then
      let trace := trace ++ [WriterEvent.pthread_join self.writer_thread]
      if joined ≠ 0 then { ret := false, self := self, trace := trace }
      else { ret := true, self := { self with writer_thread := 0 }, trace := trace }
    else
      -- line 93
      { ret := true, self := { self with writer_thread := 0 }, trace := trace }
  else
    -- line 95
    { ret := true, self := self, trace := [] }

/-- One pass of the loop of `Run` whose loop test read `thread_running` as
true: `received` is the message `phDal4Nfc_msgrcv` delivered (`none` if it
returned -1), `runningAfter` what the load of line 115 read, and
`bytesWritten` the `uint32_t` the result of `phNxpNciHal_write_unlocked` is
stored in, if the write is made. -/
structure Pass where
  received : Option phLibNfc_Message_t
  runningAfter : Bool
  bytesWritten : Nat
  deriving DecidableEq, Repr

/-- The `switch` of `Run`, lines 118-136, on a dequeued message.  The length
given to the transport write is `(uint16_t)msg.Size`. -/
def dispatch (C : WriterConstants) (msg : phLibNfc_Message_t) (bytesWritten : Nat) :
    List WriterEvent :=
  if msg.eMsgType = C.NCI_HAL_TML_WRITE_MSG then
    [WriterEvent.phNxpNciHal_write_unlocked (msg.Size % 65536) msg.data,
     if bytesWritten = msg.Size then
       WriterEvent.phNxpExtn_WriteCompleteStatusUpdate NFCSTATUS_SUCCESS
     else WriterEvent.phNxpExtn_WriteCompleteStatusUpdate C.NFCSTATUS_FAILED]
  else if msg.eMsgType = C.HAL_CTRL_GRANTED_MSG then
    [WriterEvent.phNxpExtn_NfcHalControlGranted]
  else []

/-- The method `Run()`, lines 105-139: the collaborator calls of the worker
over a script of passes. -/
def phNxpNciHal_WriterThread.Run (C : WriterConstants) : List Pass → List WriterEvent
  | [] => []
  | pass :: rest =>
    match pass.received with
    | none =>
      -- lines 111-114: `continue`
      phNxpNciHal_WriterThread.Run C rest
    | some msg =>
      -- lines 115-117: `break`
      if ¬ pass.runningAfter then []
      else dispatch C msg pass.bytesWritten ++ phNxpNciHal_WriterThread.Run C rest

/-- Sample values for the constants the writer model takes as parameters; they
only serve to instantiate theorems at concrete inputs. -/
def sampleWriterConstants : WriterConstants :=
  { PHNCI_MAX_DATA_LEN := 300
    NCI_HAL_TML_WRITE_MSG := 0x415
    HAL_CTRL_GRANTED_MSG := 0x418
    NFCSTATUS_FAILED := 0xFF }

/-- A running writer: queue handle 5, worker thread 9. -/
def sampleRunningWriter : phNxpNciHal_WriterThread :=
  { thread_running := true, writer_queue := 5, writer_thread := 9 }

end WriterThreadModel

/-!
Configuration store.

Shallow embedding of the parts of `snxxx/halimpl_v2/utils/phNxpConfig.cc` that
parse a configuration file and look a parameter up.

Conventions of the embedding.

* A character is the `Nat` value of its byte; a C string or `std::string` is
  the `List Nat` of its bytes, without the terminator.
* `unsigned long` is taken as 64 bits wide (the LP64 targets of the HAL):
  arithmetic on `numValue` and `state` is arithmetic on `Nat` followed by
  `% 2 ^ 64`.
* A `const CNfcParam*` held by the list or the array is the parameter it points
  to; `CNfcConfig::add` is the only function that puts a pointer in the list
  and it refuses the null pointer, so no entry is null.
* The content of the file read by `readConfigFile` is an argument of the
  model.  The checksum members (`config_crc32_` and its two siblings) are
  written by `readConfig` and read by nothing modelled here; they are left
  out.
-/

namespace ConfigModel

/-! ## Parameters and the ordered list -/

/-- A `CNfcParam`: `name` is the content of the `std::string` base class. -/
structure CNfcParam where
  name : List Nat
  m_str_value : List Nat
  m_numValue : Nat
  deriving DecidableEq, Repr

/-- The conversion `token.c_str()` followed by the construction of a
`std::string` from it: the bytes before the first zero byte. -/
def c_str (s : List Nat) : List Nat := s.takeWhile (fun c => c ≠ 0)

/-- The constructor `CNfcParam(const char* name, const string& value)`, line
1164, with `name` non-null. -/
def CNfcParam.ofString (name : List Nat) (value : List Nat) : CNfcParam :=
  { name := name, m_str_value := value, m_numValue := 0 }

/-- The constructor `CNfcParam(const char* name, unsigned long value)`, line
1176, with `name` non-null. -/
def CNfcParam.ofNum (name : List Nat) (value : Nat) : CNfcParam :=
  { name := name, m_str_value := [], m_numValue := value }

/-- The method `str_len()`. -/
def CNfcParam.str_len (p : CNfcParam) : Nat := p.m_str_value.length

/-- The library function `strcmp` on two strings given without their
terminators, none of whose bytes is zero; the bytes are compared as
`unsigned char`, and only the sign of the result is specified: it is given as
-1, 0 or 1.  A string that ends first meets the other's byte with its
terminator, which is smaller. -/
def strcmp : List Nat → List Nat → Int
  | [], [] => 0
  | [], _ :: _ => -1
  | _ :: _, [] => 1
  | a :: as, b :: bs => if a < b then -1 else if b < a then 1 else strcmp as bs

/-- Whether `s` starts with `t`. -/
def startsWith : List Nat → List Nat → Bool
  | _, [] => true
  | [], _ :: _ => false
  | a :: as, b :: bs => decide (a = b) && startsWith as bs

/-- The test `s.find(t) != std::string::npos`. -/
def hasSubstring : List Nat → List Nat → Bool
  | [], t => startsWith [] t
  | a :: as, t => startsWith (a :: as) t || hasSubstring as t

/-- The bytes of a string literal of the source. -/
def literal (s : String) : List Nat := s.toList.map Char.toNat

/-- The method `CNfcConfig::isAllowed(name)`, lines 940-959. -/
def isAllowed (name : List Nat) : Bool :=
  hasSubstring name (literal "HOST_LISTEN_TECH_MASK") ||
  hasSubstring name (literal "UICC_LISTEN_TECH_MASK") ||
  hasSubstring name (literal "NXP_ESE_LISTEN_TECH_MASK") ||
  hasSubstring name (literal "POLLING_TECH_MASK") ||
  hasSubstring name (literal "NXP_RF_CONF_BLK") ||
  hasSubstring name (literal "NXP_CN_TRANSIT_BLK_NUM_CHECK_ENABLE") ||
  hasSubstring name (literal "NXP_FWD_FUNCTIONALITY_ENABLE") ||
  hasSubstring name (literal "NXP_MIFARE_NACK_TO_RATS_ENABLE")

/-- The members of `CNfcConfig` that the modelled functions read or write:
`array` is the `vector` base class. -/
structure CNfcConfig where
  array : List CNfcParam
  m_list : List CNfcParam
  mValidFile : Bool
  mCurrentFile : List Nat
  state : Nat
  deriving DecidableEq, Repr

/-- The constructor, lines 525-531. -/
def CNfcConfig.new : CNfcConfig :=
  { array := [], m_list := [], mValidFile := true, mCurrentFile := [], state := 0 }

/-- The loop of `CNfcConfig::find`, lines 761-781, over the entries not yet
visited. -/
def findLoop (p_name : List Nat) : List CNfcParam → Option CNfcParam
  | [] => none
  | it :: rest =>
    let cmp := strcmp it.name p_name
    if cmp < 0 then findLoop p_name rest
    else if cmp = 0 then some it
    else none

/-- The method `CNfcConfig::find(p_name)`, lines 748-783; `none` is the null
pointer, as argument and as result. -/
def CNfcConfig.find (self : CNfcConfig) (p_name : Option (List Nat)) : Option CNfcParam :=
  match p_name with
  | none => none
  | some p_name =>
    if self.array.length = 0 then none
    else findLoop p_name self.array

/-- The loop of `CNfcConfig::add`, lines 889-906, and the `push_back` of line
908 that follows it when the loop runs to the end. -/
def addLoop (pParam : CNfcParam) : List CNfcParam → List CNfcParam
  | [] => [pParam]
  | it :: rest =>
    let cmp := strcmp it.name pParam.name
    if cmp < 0 then it :: addLoop pParam rest
    else if cmp = 0 then pParam :: rest
    else pParam :: it :: rest

/-- The method `CNfcConfig::add(pParam)`, lines 863-909; `none` is the null
pointer. -/
def CNfcConfig.add (self : CNfcConfig) (pParam : Option CNfcParam) : CNfcConfig :=
  match pParam with
  | none => self
  | some pParam =>
    -- lines 877-880
    if self.m_list.length = 0 then { self with m_list := self.m_list ++ [pParam] }
    -- lines 882-887
    else if hasSubstring self.mCurrentFile (literal "libnfc-nci-update.conf") &&
        !isAllowed pParam.name then self
    else { self with m_list := addLoop pParam self.m_list }

/-- The method `CNfcConfig::moveFromList()`, lines 970-980. -/
def CNfcConfig.moveFromList (self : CNfcConfig) : CNfcConfig :=
  if self.m_list.length = 0 then self
  else { self with array := self.array ++ self.m_list, m_list := [] }

/-- The method `CNfcConfig::moveToList()`, lines 990-1009. -/
def CNfcConfig.moveToList (self : CNfcConfig) : CNfcConfig :=
  if self.array.length = 0 then self
  else { self with m_list := self.array, array := [] }

/-- The method `CNfcConfig::clean()`, lines 825-853. -/
def CNfcConfig.clean (self : CNfcConfig) : CNfcConfig :=
  { self with array := [], m_list := [] }

/-- The most recently added parameter called `n` among the calls `calls` of
`add`, the first call first. -/
def lastAdded (calls : List (Option CNfcParam)) (n : List Nat) : Option CNfcParam :=
  calls.reduceOption.reverse.find? (fun p => decide (p.name = n))

/-! ## Lookup of a byte array -/

/-- The method `CNfcConfig::getValue(name, pValue, len, readlen)`, lines
645-674, with `pValue` and `readlen` non-null and `pValue` a buffer of at
least `len` bytes.  The result is the returned boolean, the buffer afterwards
and the value of `*readlen` afterwards. -/
def CNfcConfig.getValue (self : CNfcConfig) (name : Option (List Nat)) (pValue : List Nat)
    (len : Int) : Bool × List Nat × Int :=
  -- lines 649-654
  if name = none ∨ len ≤ 0 then (false, pValue, -1)
  else
    -- lines 656-660
    match self.find name with
    | none => (false, pValue, -1)
    | some pParam =>
      -- lines 662-671
      if pParam.str_len > 0 then
        if (pParam.str_len : Int) ≤ len then
          (true,
           pParam.m_str_value ++ List.replicate (len.toNat - pParam.str_len) 0 ++
             pValue.drop len.toNat,
           (pParam.str_len : Int))
        else (true, pValue, -1)
      else (false, pValue, -1)

/-- The function `GetNxpByteArrayValue(name, pValue, bufflen, len)`, lines
1237-1242, on the loaded configuration `rConfig`: the returned integer, the
buffer afterwards and the value of `*len` afterwards. -/
def GetNxpByteArrayValue (rConfig : CNfcConfig) (name : Option (List Nat)) (pValue : List Nat)
    (bufflen : Int) : Nat × List Nat × Int :=
  let result := rConfig.getValue name pValue bufflen
  (if result.1 then 1 else 0, result.2.1, result.2.2)

/-! ## The parser of `readConfig` -/

/-- The function `isPrintable`, lines 240-243. -/
def isPrintable (c : Nat) : Bool :=
  (decide ('A'.toNat ≤ c) && decide (c ≤ 'Z'.toNat)) ||
  (decide ('a'.toNat ≤ c) && decide (c ≤ 'z'.toNat)) ||
  (decide ('0'.toNat ≤ c) && decide (c ≤ '9'.toNat)) ||
  decide (c = '/'.toNat) || decide (c = '_'.toNat) || decide (c = '-'.toNat) ||
  decide (c = '.'.toNat)

/-- The function `isDigit`, lines 254-260. -/
def isDigit (c : Nat) (base : Nat) : Bool :=
  if '0'.toNat ≤ c ∧ c ≤ '9'.toNat then true
  else if base = 16 then
    if ('A'.toNat ≤ c ∧ c ≤ 'F'.toNat) ∨ ('a'.toNat ≤ c ∧ c ≤ 'f'.toNat) then true
    else false
  else false

/-- The function `getDigitValue`, lines 271-280. -/
def getDigitValue (c : Nat) (base : Nat) : Nat :=
  if '0'.toNat ≤ c ∧ c ≤ '9'.toNat then c - '0'.toNat
  else if base = 16 then
    if 'A'.toNat ≤ c ∧ c ≤ 'F'.toNat then c - 'A'.toNat + 10
    else if 'a'.toNat ≤ c ∧ c ≤ 'f'.toNat then c - 'a'.toNat + 10
    else 0
  else 0

/-- The flag `IsStringValue`, line 77. -/
def IsStringValue : Nat := 0x80000000

/-- The states of the parser, lines 409-417. -/
def BEGIN_LINE : Nat := 1

/-- See `BEGIN_LINE`. -/
def TOKEN : Nat := 2

/-- See `BEGIN_LINE`. -/
def STR_VALUE : Nat := 3

/-- See `BEGIN_LINE`. -/
def NUM_VALUE : Nat := 4

/-- See `BEGIN_LINE`. -/
def BEGIN_HEX : Nat := 5

/-- See `BEGIN_LINE`. -/
def BEGIN_QUOTE : Nat := 6

/-- See `BEGIN_LINE`. -/
def END_LINE : Nat := 7

/-- The method `Is(f)`, line 220. -/
def CNfcConfig.Is (self : CNfcConfig) (f : Nat) : Bool := decide (self.state &&& f = f)

/-- The method `Set(f)`, line 221. -/
def CNfcConfig.Set (self : CNfcConfig) (f : Nat) : CNfcConfig :=
  { self with state := self.state ||| f }

/-- The method `Reset(f)`, line 222: `state &= ~f` on an `unsigned long`. -/
def CNfcConfig.Reset (self : CNfcConfig) (f : Nat) : CNfcConfig :=
  { self with state := self.state &&& ((2 ^ 64 - 1) ^^^ f) }

/-- The object and the local variables of `readConfig` between two passes of
its loop. -/
structure ReadState where
  self : CNfcConfig
  token : List Nat
  strValue : List Nat
  numValue : Nat
  i : Nat
  base : Nat
  bflag : Nat
  deriving DecidableEq, Repr

/-- The loop of lines 443-447, on a separator: `n` is the value of the
counter before the test `n-- > 0`.  Each pass stores the shifted value back
in `numValue` before taking its low byte.  The result is `numValue` and
`strValue` afterwards.  The shift is the one of `Nat`; it is the shift of C as
long as `n * 8 < 64`, that is for a token of at most 16 hex digits, and a
longer token makes the source shift an `unsigned long` by 64 bits or more,
which has no defined result. -/
def pushShifted : Nat → Nat → List Nat → Nat × List Nat
  | 0, numValue, strValue => (numValue, strValue)
  | n + 1, numValue, strValue =>
    let numValue := numValue >>> (n * 8)
    let chVal := numValue &&& 0xFF
    pushShifted n numValue (strValue ++ [chVal])

/-- The loop of lines 464-467, at the end of a value: `n` is the value of the
counter before the test `n-- > 0`; `numValue` is not written.  As in
`pushShifted`, the shift is the one of C for a token of at most 16 hex
digits. -/
def pushBytes : Nat → Nat → List Nat → List Nat
  | 0, _, strValue => strValue
  | n + 1, numValue, strValue =>
    pushBytes n numValue (strValue ++ [(numValue >>> (n * 8)) &&& 0xFF])

/-- The `case NUM_VALUE` of the loop, lines 432-479, also reached by falling
through from `case BEGIN_HEX`. -/
def numValueCase (s : ReadState) (c : Nat) : ReadState :=
  if isDigit c s.base then
    -- lines 433-436
    let numValue := (s.numValue * s.base) % 2 ^ 64
    let numValue := (numValue + getDigitValue c s.base) % 2 ^ 64
    { s with numValue := numValue, i := s.i + 1 }
  else if s.bflag = 1 ∧
      (c = ' '.toNat ∨ c = '\r'.toNat ∨ c = '\n'.toNat ∨ c = '\t'.toNat) then
    -- lines 437-439
    s
  else if s.base = 16 ∧
      (c = ','.toNat ∨ c = ':'.toNat ∨ c = '-'.toNat ∨ c = ' '.toNat ∨ c = '}'.toNat) then
    -- lines 440-452
    let bflag := if c = '}'.toNat then 0 else s.bflag
    let pushed :=
      if s.i > 0 then pushShifted ((s.i + 1) / 2) s.numValue s.strValue
      else (s.numValue, s.strValue)
    { s with
      self := s.self.Set IsStringValue
      bflag := bflag
      strValue := pushed.2
      numValue := 0
      i := 0 }
  else
    -- lines 454-463
    let self :=
      if c = '\n'.toNat ∨ c = '\r'.toNat then
        if s.bflag = 0 then { s.self with state := BEGIN_LINE } else s.self
      else
        if s.bflag = 0 then { s.self with state := END_LINE } else s.self
    -- lines 464-469
    let strValue :=
      if self.Is IsStringValue ∧ s.base = 16 ∧ s.i > 0 then
        pushBytes ((s.i + 1) / 2) s.numValue s.strValue
      else s.strValue
    -- lines 470-478
    let pParam :=
      if strValue.length > 0 then CNfcParam.ofString (c_str s.token) strValue
      else CNfcParam.ofNum (c_str s.token) s.numValue
    let self := self.add (some pParam)
    { s with
      self := self.Reset IsStringValue
      strValue := []
      numValue := 0 }

/-- One pass of the loop of `readConfig`, lines 366-496, on the character
`c`. -/
def readChar (s : ReadState) (c : Nat) : ReadState :=
  let st := s.self.state &&& 0xff
  if st = BEGIN_LINE then
    -- lines 369-379
    if c = '#'.toNat then { s with self := { s.self with state := END_LINE } }
    else if isPrintable c then
      { s with
        i := 0
        token := [c]
        strValue := []
        self := { s.self with state := TOKEN } }
    else s
  else if st = TOKEN then
    -- lines 380-389
    if c = '='.toNat then
      { s with token := s.token ++ [0], self := { s.self with state := BEGIN_QUOTE } }
    else if isPrintable c then { s with token := s.token ++ [c] }
    else { s with self := { s.self with state := END_LINE } }
  else if st = BEGIN_QUOTE then
    -- lines 390-410
    if c = '"'.toNat then { s with self := { s.self with state := STR_VALUE }, base := 0 }
    else if c = '0'.toNat then { s with self := { s.self with state := BEGIN_HEX } }
    else if isDigit c 10 then
      { s with
        self := { s.self with state := NUM_VALUE }
        base := 10
        numValue := getDigitValue c 10
        i := 0 }
    else if c = '{'.toNat then
      { s with
        self := CNfcConfig.Set { s.self with state := NUM_VALUE } IsStringValue
        bflag := 1
        base := 16
        i := 0 }
    else { s with self := { s.self with state := END_LINE } }
  else if st = BEGIN_HEX then
    -- lines 411-431
    if c = 'x'.toNat ∨ c = 'X'.toNat then
      { s with self := { s.self with state := NUM_VALUE }, base := 16, numValue := 0, i := 0 }
    else if isDigit c 10 then
      { s with
        self := { s.self with state := NUM_VALUE }
        base := 10
        numValue := getDigitValue c 10 }
    else if c ≠ '\n'.toNat ∧ c ≠ '\r'.toNat then
      { s with self := { s.self with state := END_LINE } }
    else numValueCase s c
  else if st = NUM_VALUE then numValueCase s c
  else if st = STR_VALUE then
    -- lines 480-489
    if c = '"'.toNat then
      let strValue := s.strValue ++ [0]
      let self : CNfcConfig := { s.self with state := END_LINE }
      let self := self.add (some (CNfcParam.ofString (c_str s.token) strValue))
      { s with strValue := strValue, self := self }
    else if isPrintable c then { s with strValue := s.strValue ++ [c] }
    else s
  else if st = END_LINE then
    -- lines 490-494
    if c = '\n'.toNat ∨ c = '\r'.toNat then { s with self := { s.self with state := BEGIN_LINE } }
    else s
  else s

/-- The function `readConfigFile`, lines 100-147, given the bytes of the file
(`none` if it cannot be opened or read): the buffer it hands over, which is
the file followed by a line feed.  An empty file makes `fread` of one item of
size 0 return 0, which is a failure. -/
def readConfigFile (file : Option (List Nat)) : Option (List Nat) :=
  match file with
  | none => none
  | some bytes => if bytes.length = 0 then none else some (bytes ++ ['\n'.toNat])

/-- The method `CNfcConfig::readConfig(name, bResetContent)`, lines 401-501;
`file` is the content of the file called `name`. -/
def CNfcConfig.readConfig (self : CNfcConfig) (name : Option (List Nat))
    (file : Option (List Nat)) (bResetContent : Bool) : Bool × CNfcConfig :=
  match name with
  | none => (false, self)
  | some name =>
    -- lines 419-425
    match readConfigFile file with
    | none => (false, if bResetContent then { self with mValidFile := false } else self)
    | some p_config =>
      -- line 436
      let self : CNfcConfig := { self with state := BEGIN_LINE }
      -- lines 447-448
      let self : CNfcConfig := { self with mValidFile := true, mCurrentFile := name }
      -- lines 450-455
      let self :=
        if self.array.length > 0 then
          if bResetContent then self.clean else self.moveToList
        else self
      -- lines 457-497
      let s := p_config.foldl readChar
        { self := self, token := [], strValue := [], numValue := 0, i := 0, base := 0,
          bflag := 0 }
      -- lines 499-500
      let self := s.self.moveFromList
      (decide (self.array.length > 0), self)

end ConfigModel

namespace ObserveModeModel

open AutoCardModel (NFCSTATUS_SUCCESS NCI_GID_INDEX NCI_OID_INDEX NCI_MSG_LEN_INDEX
  NCI_MSG_INDEX_FOR_FEATURE)

/-! ## Sequences of calls -/

/-- One call of an entry point of `ObserveMode.cc`, with the frame it is given
and the hardware it meets. -/
inductive ObserveCall where
  | handleObserveMode (env : ObserveEnv) (p_data : List Nat)
  | handleObserveModeTechCommand (env : ObserveEnv) (p_data : List Nat)
  | handleGetObserveModeStatus (p_data : List Nat)
  | resetDiscovery
  | handleObserveModeRfStateRspNtf (env : ObserveEnv) (pData : List Nat)

/-- The state after one call; `none` if the call reads past the end of its
frame. -/
def ObserveCall.run (C : ObserveConstants) (s : ObserveState) : ObserveCall → Option ObserveState
  | ObserveCall.handleObserveMode env p_data =>
    (ObserveModeModel.handleObserveMode C env s p_data).map ObserveOutcome.state
  | ObserveCall.handleObserveModeTechCommand env p_data =>
    (ObserveModeModel.handleObserveModeTechCommand C env s p_data).map ObserveOutcome.state
  | ObserveCall.handleGetObserveModeStatus p_data =>
    (ObserveModeModel.handleGetObserveModeStatus s p_data).map ObserveOutcome.state
  | ObserveCall.resetDiscovery => some (ObserveModeModel.resetDiscovery s).state
  | ObserveCall.handleObserveModeRfStateRspNtf env pData =>
    (ObserveModeModel.handleObserveModeRfStateRspNtf C env s pData).map ObserveOutcome.state

/-- The state after a sequence of calls, the first call first. -/
def runCalls (C : ObserveConstants) : ObserveState → List ObserveCall → Option ObserveState
  | s, [] => some s
  | s, call :: calls =>
    match call.run C s with
    | none => none
    | some s' => runCalls C s' calls

/-! ## The handlers on a buffer

The functions that take a frame are given a pointer and a length.  Here the
buffer is the memory from the pointer on, `p_data i` being the byte at offset
`i`, and `data_len` is the length passed along.  A read `p_data[i]` gives the
byte found there whether or not `i < data_len`: this is how a read past the
end of the frame behaves when it lands in the caller's buffer, and the byte it
gives is arbitrary.  All four functions are total in this form. -/

/-- The frame `p_data[0 .. data_len - 1]` of a buffer. -/
def frameOf (data_len : Nat) (p_data : Nat → Nat) : List Nat :=
  (List.range data_len).map p_data

/-- The function `handleObserveMode(data_len, p_data)`, lines 75-94, on a
buffer. -/
def handleObserveModeAt (C : ObserveConstants) (env : ObserveEnv) (s : ObserveState)
    (data_len : Nat) (p_data : Nat → Nat) : ObserveOutcome :=
  if data_len ≤ 4 then { ret := 0, state := s, trace := [] } else
  let result : Nat × ObserveState :=
    if env.phNxpNciHal_isObserveModeSupported then
      let s := setObserveModeFlag (decide (p_data NCI_MSG_INDEX_FEATURE_VALUE ≠ 0)) s
      let s := setObserveModePerTech (p_data NCI_MSG_INDEX_FEATURE_VALUE) s
      (C.NCI_RSP_OK, s)
    else (C.NCI_RSP_FAIL, s)
  { ret := p_data NCI_MSG_LEN_INDEX
    state := result.2
    trace :=
      [ObserveEvent.vendorSpecificCallback (p_data NCI_OID_INDEX)
        (p_data NCI_MSG_INDEX_FOR_FEATURE) [result.1]] }

/-- The function `handleObserveModeTechCommand(data_len, p_data)`, lines
222-288, on a buffer.  The source reads `p_data[4]` without a test of
`data_len`; the tech command it sends is the frame of `data_len` bytes. -/
def handleObserveModeTechCommandAt (C : ObserveConstants) (env : ObserveEnv)
    (s : ObserveState) (data_len : Nat) (p_data : Nat → Nat) : ObserveOutcome :=
  -- line 225
  let techValue := p_data NCI_MSG_INDEX_FEATURE_VALUE
  let run : Run := { state := s, trace := [] }
  -- lines 229-282
  let result : Nat × Run :=
    if env.phNxpNciHal_isObserveModeSupported = true ∧
        (techValue &&& C.OBSERVE_MODE_TECH_COMMAND_SUPPORT_FLAG_FOR_ALL_TECH ≠ 0 ∨
          techValue = C.NCI_ANDROID_PASSIVE_OBSERVE_PARAM_DISABLE) then
      let flag : Bool :=
        decide (techValue &&& C.OBSERVE_MODE_TECH_COMMAND_SUPPORT_FLAG_FOR_ALL_TECH ≠ 0)
      let step1 := deactivateRfDiscovery env run
      afterDeactivate C env (frameOf data_len p_data) techValue flag step1.1 step1.2
    else (C.NCI_RSP_FAIL, run)
  -- lines 284-287
  { ret := p_data NCI_MSG_LEN_INDEX
    state := result.2.state
    trace := result.2.trace ++
      [ObserveEvent.vendorSpecificCallback (p_data NCI_OID_INDEX)
        (p_data NCI_MSG_INDEX_FOR_FEATURE) [result.1]] }

/-- The function `handleObserveModeRfStateRspNtf(dataLen, pData)`, lines
188-210, on a buffer. -/
def handleObserveModeRfStateRspNtfAt (C : ObserveConstants) (env : ObserveEnv)
    (s : ObserveState) (dataLen : Nat) (pData : Nat → Nat) : ObserveOutcome :=
  -- lines 189-201
  if s.gWaitingForRfDeActivateRsp = true ∧ dataLen ≥ C.NCI_RSP_SIZE ∧
      pData NCI_GID_INDEX = C.NCI_RF_DISC_RSP_GID ∧
      pData NCI_OID_INDEX = C.NCI_RF_DEACTIVATE_OID then
    let s : ObserveState := { s with gWaitingForRfDeActivateRsp := false }
    let s : ObserveState := { s with gWaitingForDiscRsp := true }
    let discoveryCommand :=
      if s.bIsObserveModeEnabled then env.reConfigRFDiscCmd s.builder
      else env.getDiscoveryCommand s.builder
    { ret := C.NFCSTATUS_EXTN_FEATURE_SUCCESS
      state := s
      trace := [ObserveEvent.EnqueueWrite discoveryCommand] }
  -- lines 202-207
  else if s.gWaitingForDiscRsp = true ∧ dataLen ≥ 2 ∧
      pData NCI_GID_INDEX = C.NCI_RF_DISC_RSP_GID ∧
      pData NCI_OID_INDEX = C.NCI_RF_DISC_COMMAND_OID then
    { ret := C.NFCSTATUS_EXTN_FEATURE_SUCCESS
      state := { s with gWaitingForDiscRsp := false }
      trace := [] }
  -- line 209
  else { ret := C.NFCSTATUS_EXTN_FEATURE_FAILURE, state := s, trace := [] }

/-- The function `handleGetObserveModeStatus(data_len, p_data)`, lines
300-316, on a buffer. -/
def handleGetObserveModeStatusAt (s : ObserveState) (data_len : Nat) (p_data : Nat → Nat) :
    ObserveOutcome :=
  if data_len < 4 then { ret := 0, state := s, trace := [] } else
  let response : List Nat := [0x00]
  let response := response ++
    [if s.bIsObserveModeEnabled then s.builder.currentObserveModeTechValue else 0x00]
  { ret := p_data NCI_MSG_LEN_INDEX
    state := s
    trace :=
      [ObserveEvent.vendorSpecificCallback (p_data NCI_OID_INDEX)
        (p_data NCI_MSG_INDEX_FOR_FEATURE) response] }

/-- One call of an entry point of `ObserveMode.cc` on a buffer, with the length
it is given and the hardware it meets. -/
inductive ObserveCallAt where
  | handleObserveMode (env : ObserveEnv) (data_len : Nat) (p_data : Nat → Nat)
  | handleObserveModeTechCommand (env : ObserveEnv) (data_len : Nat) (p_data : Nat → Nat)
  | handleGetObserveModeStatus (data_len : Nat) (p_data : Nat → Nat)
  | resetDiscovery
  | handleObserveModeRfStateRspNtf (env : ObserveEnv) (dataLen : Nat) (pData : Nat → Nat)

/-- The state after one call on a buffer. -/
def ObserveCallAt.run (C : ObserveConstants) (s : ObserveState) : ObserveCallAt → ObserveState
  | ObserveCallAt.handleObserveMode env data_len p_data =>
    (handleObserveModeAt C env s data_len p_data).state
  | ObserveCallAt.handleObserveModeTechCommand env data_len p_data =>
    (handleObserveModeTechCommandAt C env s data_len p_data).state
  | ObserveCallAt.handleGetObserveModeStatus data_len p_data =>
    (handleGetObserveModeStatusAt s data_len p_data).state
  | ObserveCallAt.resetDiscovery => (ObserveModeModel.resetDiscovery s).state
  | ObserveCallAt.handleObserveModeRfStateRspNtf env dataLen pData =>
    (handleObserveModeRfStateRspNtfAt C env s dataLen pData).state

/-- The state after a sequence of calls on buffers, the first call first. -/
def runCallsAt (C : ObserveConstants) : ObserveState → List ObserveCallAt → ObserveState
  | s, [] => s
  | s, call :: calls => runCallsAt C (call.run C s) calls

/-- The buffer that holds the frame `p_data` and zeros after it. -/
def bufferOf (p_data : List Nat) : Nat → Nat := fun i => p_data.getD i 0

/-- The call on a frame as a call on the buffer that holds exactly the frame. -/
def ObserveCall.onBuffer : ObserveCall → ObserveCallAt
  | ObserveCall.handleObserveMode env p_data =>
    ObserveCallAt.handleObserveMode env p_data.length (bufferOf p_data)
  | ObserveCall.handleObserveModeTechCommand env p_data =>
    ObserveCallAt.handleObserveModeTechCommand env p_data.length (bufferOf p_data)
  | ObserveCall.handleGetObserveModeStatus p_data =>
    ObserveCallAt.handleGetObserveModeStatus p_data.length (bufferOf p_data)
  | ObserveCall.resetDiscovery => ObserveCallAt.resetDiscovery
  | ObserveCall.handleObserveModeRfStateRspNtf env pData =>
    ObserveCallAt.handleObserveModeRfStateRspNtf env pData.length (bufferOf pData)

/-- The invariant of the observe-mode state: at most one pending-response token
is set, the change-in-progress (recovery pending) flag is set only while no
discovery session has been started, and no token is set before the first
session. -/
def ObserveInvariant (s : ObserveState) : Prop :=
  ¬ (s.gWaitingForRfDeActivateRsp = true ∧ s.gWaitingForDiscRsp = true) ∧
  (s.bIsObserveChangeInProgress = true → s.builder.rfDiscoveryReceived = false) ∧
  (s.builder.rfDiscoveryReceived = false →
    s.gWaitingForRfDeActivateRsp = false ∧ s.gWaitingForDiscRsp = false)

end ObserveModeModel

namespace AutoCardModel

/-! ## Sample inputs -/

/-- Sample values for the constants the model takes as parameters; they only
serve to instantiate theorems at concrete inputs. -/
def sampleConstants : NciConstants :=
  { NCI_ROW_PROP_OID_VAL := 0x70
    NCI_ROW_MAINLINE_OID := 0x0C
    NFCSTATUS_EXTN_FEATURE_SUCCESS := 0x50
    NFCSTATUS_EXTN_FEATURE_FAILURE := 0x51 }

/-- A sample environment: chip `chip`, the selection mode configured as `mode`,
and a writer that answers every enqueue with `status`. -/
def sampleEnv (chip : ChipType) (mode : Option Nat) (status : Nat) : Env :=
  { chipType := chip
    NXP_AUTOCARD_SELECTION_PHONE_OFF := mode
    phNxpHal_EnqueueWrite := fun _ => status }

/-- A sample singleton: last sub-opcode `c`, enable status `e`, counters
`1 .. 6`. -/
def sampleCard (c e : Nat) : AutoCard :=
  { autoCardCmdType := c, mAutoCardEnableStatus := e, mAutoCardCounters := [1, 2, 3, 4, 5, 6] }

/-- The constants read off the scenario `2F 50 01 07` / `2F 50 02 50 02 07 0D`
of the spec: its byte 1, `0x50`, taken as the vendor dispatch opcode and as the
opcode of the reply. -/
def scenarioConstants : NciConstants :=
  { NCI_ROW_PROP_OID_VAL := 0x50
    NCI_ROW_MAINLINE_OID := 0x50
    NFCSTATUS_EXTN_FEATURE_SUCCESS := 0x50
    NFCSTATUS_EXTN_FEATURE_FAILURE := 0x51 }

/-- A sample hardware for reconciliation with a `sn220u` chip and the selection
mode `0x01`: get-counters answers `getRsp`, get-timer answers `timerRsp`, every
other command is answered with status `setStatus` and an empty response. -/
def sampleConfigEnv (counters : Option (List Nat)) (timer : Option Nat)
    (getRsp timerRsp : Nat × List Nat) (setStatus : Nat) : ConfigEnv :=
  { chipType := ChipType.sn220u
    NXP_AUTOCARD_SELECTION_PHONE_OFF := some 0x01
    NXP_AUTOCARD_COUNTERS := counters
    NXP_AUTOCARD_TIMER_VALUE := timer
    phNxpNciHal_send_ext_cmd := fun _ cmd =>
      if cmd = [0x2F, 0x43, 0x01, 0x02] then getRsp
      else if cmd = [0x2F, 0x43, 0x01, 0x08] then timerRsp
      else (setStatus, []) }

/-- A sample reconciliation run: hardware counters `[1,2,3,4,5,6]` and enable
status `0x01`, configured counters `[1,2,3,4,5,7]`, configured timer `0x05`,
hardware timer `0x04`, every set command accepted. -/
def sampleReconcileEnv : ConfigEnv :=
  sampleConfigEnv (some [1, 2, 3, 4, 5, 7]) (some 0x05)
    (0, [0x4F, 0x43, 0x09, 0x02, 0x00, 0x01, 1, 2, 3, 4, 5, 6])
    (0, [0x4F, 0x43, 0x03, 0x08, 0x00, 0x04]) 0

/-! ## Helper lemmas: header bytes -/

theorem cmd_prop : NCI_MT_CMD ||| NCI_GID_PROP = 0x2F := by decide

theorem rsp_prop : NCI_MT_RSP ||| NCI_GID_PROP = 0x4F := by decide

theorem ntf_prop : NCI_MT_NTF ||| NCI_GID_PROP = 0x6F := by decide

theorem statusReply_eq (K : NciConstants) (c st : Nat) :
    statusReply K c st = [0x4F, K.NCI_ROW_MAINLINE_OID, 0x04, 0x50, 0x02, c, st] := by
  simp [statusReply, rsp_prop, AUTOCARD_PAYLOAD_LEN, AUTOCARD_FEATURE_SUB_GID,
    AUTOCARD_HEADER_LEN]

/-! ## Helper lemmas: the tail of `handleVendorNciMessage` -/

theorem enqueueAndReturn_ret (K : NciConstants) (env : Env) (self : AutoCard)
    (cmd : List Nat) :
    (enqueueAndReturn K env self cmd).ret = K.NFCSTATUS_EXTN_FEATURE_SUCCESS := by
  unfold enqueueAndReturn replyAndReturn
  simp only []
  split_ifs <;> rfl

theorem enqueueAndReturn_self (K : NciConstants) (env : Env) (self : AutoCard)
    (cmd : List Nat) :
    (enqueueAndReturn K env self cmd).self = self := by
  unfold enqueueAndReturn replyAndReturn
  simp only []
  split_ifs <;> rfl

theorem enqueueAndReturn_trace (K : NciConstants) (env : Env) (self : AutoCard)
    (cmd : List Nat) :
    (enqueueAndReturn K env self cmd).trace =
      if env.phNxpHal_EnqueueWrite cmd = NFCSTATUS_SUCCESS then [⟨Call.EnqueueWrite, cmd, self⟩]
      else [⟨Call.EnqueueWrite, cmd, self⟩,
        ⟨Call.NfcDataCallback, statusReply K self.autoCardCmdType 0x01, self⟩] := by
  unfold enqueueAndReturn replyAndReturn
  by_cases h : env.phNxpHal_EnqueueWrite cmd = NFCSTATUS_SUCCESS
  · simp [h, NFCSTATUS_SUCCESS]
  · simp [h, AUTOCARD_STATUS_CMD_FAIL, show AUTOCARD_STATUS_CMD_FAIL ≠ NFCSTATUS_SUCCESS by decide,
      show (1 : Nat) ≠ NFCSTATUS_SUCCESS by decide]

theorem enqueueAndReturn_enqueued (K : NciConstants) (env : Env) (self : AutoCard)
    (cmd : List Nat) :
    (enqueueAndReturn K env self cmd).enqueued = [cmd] := by
  rw [Outcome.enqueued, enqueueAndReturn_trace]
  split_ifs <;> simp [framesOf]

theorem enqueueAndReturn_sent (K : NciConstants) (env : Env) (self : AutoCard)
    (cmd : List Nat) :
    (enqueueAndReturn K env self cmd).sent = [] := by
  rw [Outcome.sent, enqueueAndReturn_trace]
  split_ifs <;> simp [framesOf]

theorem enqueueAndReturn_upstream (K : NciConstants) (env : Env) (self : AutoCard)
    (cmd : List Nat) :
    (enqueueAndReturn K env self cmd).upstream =
      if env.phNxpHal_EnqueueWrite cmd = NFCSTATUS_SUCCESS then []
      else [[0x4F, K.NCI_ROW_MAINLINE_OID, 0x04, 0x50, 0x02, self.autoCardCmdType, 0x01]] := by
  rw [Outcome.upstream, enqueueAndReturn_trace]
  split_ifs <;> simp [framesOf, statusReply_eq]

/-! ## Helper lemmas: the paths of `handleVendorNciMessage` -/

theorem msg_reject (K : NciConstants) (env : Env) (self : AutoCard)
    (b0 b1 b2 b3 b4 : Nat) (rest : List Nat)
    (h : b0 ≠ 0x2F ∨ b1 ≠ K.NCI_ROW_PROP_OID_VAL ∨ b3 ≠ 0x50 ∨ b4 > 0x08) :
    self.handleVendorNciMessage K env (b0 :: b1 :: b2 :: b3 :: b4 :: rest) =
      some { ret := K.NFCSTATUS_EXTN_FEATURE_FAILURE, self := self, trace := [] } := by
  simp only [AutoCard.handleVendorNciMessage, cmd_prop, NCI_GID_INDEX, NCI_OID_INDEX,
    NCI_MSG_INDEX_FOR_FEATURE, AUTOCARD_SUB_OID_IDEX, AUTOCARD_FEATURE_SUB_GID,
    AUTOCARD_FEATURE_DISABLE_SUB_OID]
  simp
  intro h0 h1 h3 h4
  omega

theorem msg_unsupported (K : NciConstants) (env : Env) (self : AutoCard)
    (b2 s : Nat) (rest : List Nat) (hs : s ≤ 0x08) (hchip : env.chipType ≠ ChipType.sn220u) :
    self.handleVendorNciMessage K env
        (0x2F :: K.NCI_ROW_PROP_OID_VAL :: b2 :: 0x50 :: s :: rest) =
      some
        { ret := K.NFCSTATUS_EXTN_FEATURE_SUCCESS
          self := { self with autoCardCmdType := s }
          trace := [⟨Call.NfcDataCallback, statusReply K s 0x0D,
            { self with autoCardCmdType := s }⟩] } := by
  have hs' : ¬ 8 < s := by omega
  simp [AutoCard.handleVendorNciMessage, cmd_prop, NCI_GID_INDEX, NCI_OID_INDEX,
    NCI_MSG_INDEX_FOR_FEATURE, AUTOCARD_SUB_OID_IDEX, AUTOCARD_FEATURE_SUB_GID,
    AUTOCARD_FEATURE_DISABLE_SUB_OID, IS_CHIP_TYPE_NE, hchip, hs', replyAndReturn,
    AUTOCARD_STATUS_FEATURE_NOT_SUPPORTED, NFCSTATUS_SUCCESS]

theorem msg_not_configured (K : NciConstants) (env : Env) (self : AutoCard)
    (b2 s : Nat) (rest : List Nat) (hs : s ≤ 0x08) (hchip : env.chipType = ChipType.sn220u)
    (hcfg : env.NXP_AUTOCARD_SELECTION_PHONE_OFF = none) :
    self.handleVendorNciMessage K env
        (0x2F :: K.NCI_ROW_PROP_OID_VAL :: b2 :: 0x50 :: s :: rest) =
      some
        { ret := K.NFCSTATUS_EXTN_FEATURE_SUCCESS
          self := { self with autoCardCmdType := s }
          trace := [⟨Call.NfcDataCallback, statusReply K s 0x0C,
            { self with autoCardCmdType := s }⟩] } := by
  have hs' : ¬ 8 < s := by omega
  simp [AutoCard.handleVendorNciMessage, cmd_prop, NCI_GID_INDEX, NCI_OID_INDEX,
    NCI_MSG_INDEX_FOR_FEATURE, AUTOCARD_SUB_OID_IDEX, AUTOCARD_FEATURE_SUB_GID,
    AUTOCARD_FEATURE_DISABLE_SUB_OID, IS_CHIP_TYPE_NE, hchip, hcfg, hs', replyAndReturn,
    AUTOCARD_STATUS_NOT_CONFIGURED, NFCSTATUS_SUCCESS]

theorem msg_disabled (K : NciConstants) (env : Env) (self : AutoCard)
    (b2 s mode : Nat) (rest : List Nat) (hs : s ≤ 0x08)
    (hchip : env.chipType = ChipType.sn220u)
    (hcfg : env.NXP_AUTOCARD_SELECTION_PHONE_OFF = some mode)
    (hdis : mode ≠ 0x01 ∨ (self.mAutoCardEnableStatus ≠ 0x01 ∧ s ≠ 0x07)) :
    self.handleVendorNciMessage K env
        (0x2F :: K.NCI_ROW_PROP_OID_VAL :: b2 :: 0x50 :: s :: rest) =
      some
        { ret := K.NFCSTATUS_EXTN_FEATURE_SUCCESS
          self := { self with autoCardCmdType := s }
          trace := [⟨Call.NfcDataCallback, statusReply K s 0x0B,
            { self with autoCardCmdType := s }⟩] } := by
  have hs' : ¬ 8 < s := by omega
  simp only [ne_eq] at hdis
  simp [AutoCard.handleVendorNciMessage, cmd_prop, NCI_GID_INDEX, NCI_OID_INDEX,
    NCI_MSG_INDEX_FOR_FEATURE, AUTOCARD_SUB_OID_IDEX, AUTOCARD_FEATURE_SUB_GID,
    AUTOCARD_FEATURE_DISABLE_SUB_OID, IS_CHIP_TYPE_NE, hchip, hcfg, hs', replyAndReturn,
    AUTOCARD_STATUS_DISABLED, NFCSTATUS_SUCCESS, AUTOCARD_FEATURE_ENABLED,
    AUTOCARD_FEATURE_ENABLE_SUB_OID, hdis]

theorem msg_already_enabled (K : NciConstants) (env : Env) (self : AutoCard)
    (b2 : Nat) (rest : List Nat)
    (hchip : env.chipType = ChipType.sn220u)
    (hcfg : env.NXP_AUTOCARD_SELECTION_PHONE_OFF = some 0x01)
    (hen : self.mAutoCardEnableStatus = 0x01) :
    self.handleVendorNciMessage K env
        (0x2F :: K.NCI_ROW_PROP_OID_VAL :: b2 :: 0x50 :: 0x07 :: rest) =
      some
        { ret := K.NFCSTATUS_EXTN_FEATURE_SUCCESS
          self := { self with autoCardCmdType := 0x07 }
          trace := [⟨Call.NfcDataCallback, statusReply K 0x07 0x00,
            { self with autoCardCmdType := 0x07 }⟩] } := by
  simp [AutoCard.handleVendorNciMessage, cmd_prop, NCI_GID_INDEX, NCI_OID_INDEX,
    NCI_MSG_INDEX_FOR_FEATURE, AUTOCARD_SUB_OID_IDEX, AUTOCARD_FEATURE_SUB_GID,
    AUTOCARD_FEATURE_DISABLE_SUB_OID, IS_CHIP_TYPE_NE, hchip, hcfg, NCI_MSG_LEN_INDEX,
    AUTOCARD_STATUS_SUCCESS, AUTOCARD_FEATURE_ENABLED,
    AUTOCARD_FEATURE_ENABLE_SUB_OID, hen]

theorem msg_plain (K : NciConstants) (env : Env) (self : AutoCard)
    (b2 s : Nat) (rest : List Nat) (hs : s ≤ 0x08) (h7 : s ≠ 0x07) (h8 : s ≠ 0x08)
    (hchip : env.chipType = ChipType.sn220u)
    (hcfg : env.NXP_AUTOCARD_SELECTION_PHONE_OFF = some 0x01)
    (hen : self.mAutoCardEnableStatus = 0x01) :
    self.handleVendorNciMessage K env
        (0x2F :: K.NCI_ROW_PROP_OID_VAL :: b2 :: 0x50 :: s :: rest) =
      some (enqueueAndReturn K env { self with autoCardCmdType := s }
        (0x2F :: 0x43 :: (b2 + 255) % 256 :: s :: rest)) := by
  have hs' : ¬ 8 < s := by omega
  simp [AutoCard.handleVendorNciMessage, cmd_prop, NCI_GID_INDEX, NCI_OID_INDEX,
    NCI_MSG_INDEX_FOR_FEATURE, AUTOCARD_SUB_OID_IDEX, AUTOCARD_FEATURE_SUB_GID,
    AUTOCARD_FEATURE_DISABLE_SUB_OID, IS_CHIP_TYPE_NE, hchip, hcfg, hs', NCI_MSG_LEN_INDEX,
    AUTOCARD_FEATURE_ENABLED, AUTOCARD_FW_API_OID,
    AUTOCARD_FEATURE_ENABLE_SUB_OID, hen, h7, h8]

theorem msg_enable_disable (K : NciConstants) (env : Env) (self : AutoCard)
    (b2 s : Nat) (rest : List Nat)
    (hchip : env.chipType = ChipType.sn220u)
    (hcfg : env.NXP_AUTOCARD_SELECTION_PHONE_OFF = some 0x01)
    (hs : (s = 0x07 ∧ self.mAutoCardEnableStatus ≠ 0x01) ∨
      (s = 0x08 ∧ self.mAutoCardEnableStatus = 0x01)) :
    self.handleVendorNciMessage K env
        (0x2F :: K.NCI_ROW_PROP_OID_VAL :: b2 :: 0x50 :: s :: rest) =
      some (enqueueAndReturn K env
        { autoCardCmdType := s
          mAutoCardEnableStatus :=
            (0x2F :: K.NCI_ROW_PROP_OID_VAL :: b2 :: 0x50 :: s :: rest).getLast
              (List.cons_ne_nil _ _)
          mAutoCardCounters := self.mAutoCardCounters }
        (0x2F :: 0x43 :: ((b2 + 255) % 256 + 6) % 256 :: 0x01 ::
          (rest ++ self.mAutoCardCounters))) := by
  have hl : (0x2F :: K.NCI_ROW_PROP_OID_VAL :: b2 :: 0x50 :: s :: rest).getLast
      (List.cons_ne_nil _ _) = (s :: rest)[rest.length] := by
    rw [List.getLast_eq_getElem]; simp
  rw [hl]
  rcases hs with ⟨rfl, hen⟩ | ⟨rfl, hen⟩ <;>
    simp [AutoCard.handleVendorNciMessage, cmd_prop, NCI_GID_INDEX, NCI_OID_INDEX,
      NCI_MSG_INDEX_FOR_FEATURE, AUTOCARD_SUB_OID_IDEX, AUTOCARD_FEATURE_SUB_GID,
      AUTOCARD_FEATURE_DISABLE_SUB_OID, IS_CHIP_TYPE_NE, hchip, hcfg, NCI_MSG_LEN_INDEX,
      AUTOCARD_FEATURE_ENABLED, AUTOCARD_FW_API_OID, AUTOCARD_SET_COUNTERS_SUB_OID,
      CNT_CONFIG_BUFF_MAX_SIZE, AUTOCARD_FEATURE_ENABLE_SUB_OID, hen]

/-- Line 193: every recognized command records its sub-opcode in
`autoCardCmdType`, whatever path is taken afterwards. -/
theorem msg_records_sub_opcode (K : NciConstants) (env : Env) (self : AutoCard)
    (b2 s : Nat) (rest : List Nat) (hs : s ≤ 0x08) :
    ∃ r, self.handleVendorNciMessage K env
        (0x2F :: K.NCI_ROW_PROP_OID_VAL :: b2 :: 0x50 :: s :: rest) = some r ∧
      r.self.autoCardCmdType = s := by
  by_cases hchip : env.chipType = ChipType.sn220u
  · cases hcfg : env.NXP_AUTOCARD_SELECTION_PHONE_OFF with
    | none => exact ⟨_, msg_not_configured K env self b2 s rest hs hchip hcfg, rfl⟩
    | some mode =>
      by_cases hdis : mode ≠ 0x01 ∨ (self.mAutoCardEnableStatus ≠ 0x01 ∧ s ≠ 0x07)
      · exact ⟨_, msg_disabled K env self b2 s mode rest hs hchip hcfg hdis, rfl⟩
      · simp only [not_or, not_and_or, not_not, ne_eq] at hdis
        obtain ⟨rfl, hen⟩ := hdis
        by_cases h7 : s = 0x07
        · subst h7
          by_cases he : self.mAutoCardEnableStatus = 0x01
          · exact ⟨_, msg_already_enabled K env self b2 rest hchip hcfg he, rfl⟩
          · refine ⟨_, msg_enable_disable K env self b2 7 rest hchip hcfg
              (Or.inl ⟨rfl, he⟩), ?_⟩
            rw [enqueueAndReturn_self]
        · have he : self.mAutoCardEnableStatus = 0x01 := by
            rcases hen with he | he
            · exact he
            · exact absurd he h7
          by_cases h8 : s = 0x08
          · subst h8
            refine ⟨_, msg_enable_disable K env self b2 8 rest hchip hcfg
              (Or.inr ⟨rfl, he⟩), ?_⟩
            rw [enqueueAndReturn_self]
          · refine ⟨_, msg_plain K env self b2 s rest hs h7 h8 hchip hcfg he, ?_⟩
            rw [enqueueAndReturn_self]
  · exact ⟨_, msg_unsupported K env self b2 s rest hs hchip, rfl⟩

/-! ## Helper lemmas: the paths of `handleVendorNciRspNtf` -/

theorem rsp_reject (K : NciConstants) (self : AutoCard)
    (b0 b1 b2 b3 : Nat) (rest : List Nat)
    (h : (b0 ≠ 0x4F ∧ b0 ≠ 0x6F) ∨ b1 ≠ 0x43 ∨
      ((b0 :: b1 :: b2 :: b3 :: rest).length > 4 ∧ b3 > 0x06)) :
    self.handleVendorNciRspNtf K (b0 :: b1 :: b2 :: b3 :: rest) =
      some { ret := K.NFCSTATUS_EXTN_FEATURE_FAILURE, self := self, trace := [] } := by
  simp only [AutoCard.handleVendorNciRspNtf, rsp_prop, ntf_prop, NCI_GID_INDEX, NCI_OID_INDEX,
    AUTOCARD_FW_API_OID, AUTOCARD_STATUS_INDEX, AUTOCARD_SUSPEND_SUB_OID]
  cases rest with
  | nil =>
    simp at h
    simp
    intro h0 h1
    omega
  | cons b4 rest =>
    simp at h
    simp
    intro h0 h1 h3
    omega

theorem rsp_ntf (K : NciConstants) (self : AutoCard) (b2 b3 : Nat) (rest : List Nat)
    (hacc : rest ≠ [] → b3 ≤ 0x06) :
    self.handleVendorNciRspNtf K (0x6F :: 0x43 :: b2 :: b3 :: rest) =
      some
        { ret := K.NFCSTATUS_EXTN_FEATURE_SUCCESS
          self := self
          trace := [⟨Call.NfcDataCallback,
            0x6F :: K.NCI_ROW_MAINLINE_OID :: (b2 + 2) % 256 :: 0x50 :: b2 :: b3 :: rest,
            self⟩] } := by
  cases rest with
  | nil =>
    simp [AutoCard.handleVendorNciRspNtf, rsp_prop, ntf_prop, NCI_GID_INDEX, NCI_OID_INDEX,
      AUTOCARD_FW_API_OID, AUTOCARD_STATUS_INDEX, AUTOCARD_SUSPEND_SUB_OID, NCI_MSG_LEN_INDEX,
      AUTOCARD_HEADER_LEN, AUTOCARD_FEATURE_SUB_GID, AUTOCARD_PAYLOAD_LEN]
  | cons b4 rest =>
    have h3 : ¬ 6 < b3 := by
      have := hacc (List.cons_ne_nil _ _)
      omega
    simp [AutoCard.handleVendorNciRspNtf, rsp_prop, ntf_prop, NCI_GID_INDEX, NCI_OID_INDEX,
      AUTOCARD_FW_API_OID, AUTOCARD_STATUS_INDEX, AUTOCARD_SUSPEND_SUB_OID, NCI_MSG_LEN_INDEX,
      AUTOCARD_HEADER_LEN, AUTOCARD_FEATURE_SUB_GID, AUTOCARD_PAYLOAD_LEN, h3]

theorem rsp_failure (K : NciConstants) (self : AutoCard) (b2 b3 status : Nat)
    (rest : List Nat) (hacc : rest ≠ [] → b3 ≤ 0x06)
    (hst : (0x4F :: 0x43 :: b2 :: b3 :: rest)[
      if (0x4F :: 0x43 :: b2 :: b3 :: rest).length > 4 then 4 else 3]? = some status)
    (hnz : status ≠ 0x00) :
    self.handleVendorNciRspNtf K (0x4F :: 0x43 :: b2 :: b3 :: rest) =
      some
        { ret := K.NFCSTATUS_EXTN_FEATURE_SUCCESS
          self := self
          trace := [⟨Call.NfcDataCallback, statusReply K self.autoCardCmdType status, self⟩] } := by
  cases rest with
  | nil =>
    simp at hst
    subst hst
    simp [AutoCard.handleVendorNciRspNtf, rsp_prop, ntf_prop, NCI_GID_INDEX, NCI_OID_INDEX,
      AUTOCARD_FW_API_OID, AUTOCARD_STATUS_INDEX, AUTOCARD_SUSPEND_SUB_OID, NCI_MSG_LEN_INDEX,
      AUTOCARD_HEADER_LEN, AUTOCARD_FEATURE_SUB_GID, AUTOCARD_PAYLOAD_LEN, NFCSTATUS_SUCCESS,
      statusReply, hnz]
  | cons b4 rest =>
    have h3 : ¬ 6 < b3 := by
      have := hacc (List.cons_ne_nil _ _)
      omega
    simp at hst
    subst hst
    simp [AutoCard.handleVendorNciRspNtf, rsp_prop, ntf_prop, NCI_GID_INDEX, NCI_OID_INDEX,
      AUTOCARD_FW_API_OID, AUTOCARD_STATUS_INDEX, AUTOCARD_SUSPEND_SUB_OID, NCI_MSG_LEN_INDEX,
      AUTOCARD_HEADER_LEN, AUTOCARD_FEATURE_SUB_GID, AUTOCARD_PAYLOAD_LEN, NFCSTATUS_SUCCESS,
      statusReply, hnz, h3]

theorem rsp_success (K : NciConstants) (self : AutoCard) (b2 b3 : Nat)
    (rest : List Nat) (hacc : rest ≠ [] → b3 ≤ 0x06)
    (hst : (0x4F :: 0x43 :: b2 :: b3 :: rest)[
      if (0x4F :: 0x43 :: b2 :: b3 :: rest).length > 4 then 4 else 3]? = some 0x00) :
    self.handleVendorNciRspNtf K (0x4F :: 0x43 :: b2 :: b3 :: rest) =
      some
        { ret := K.NFCSTATUS_EXTN_FEATURE_SUCCESS
          self := self
          trace := [⟨Call.NfcDataCallback,
            0x4F :: K.NCI_ROW_MAINLINE_OID :: (b2 + 2) % 256 :: 0x50 ::
              (if b2 = 0x01 then self.autoCardCmdType else b2) :: b3 :: rest,
            self⟩] } := by
  cases rest with
  | nil =>
    simp at hst
    subst hst
    by_cases hb : b2 = 1 <;>
    simp [AutoCard.handleVendorNciRspNtf, rsp_prop, ntf_prop, NCI_GID_INDEX, NCI_OID_INDEX,
      AUTOCARD_FW_API_OID, AUTOCARD_STATUS_INDEX, AUTOCARD_SUSPEND_SUB_OID, NCI_MSG_LEN_INDEX,
      AUTOCARD_HEADER_LEN, AUTOCARD_FEATURE_SUB_GID, AUTOCARD_PAYLOAD_LEN, NFCSTATUS_SUCCESS,
      AUTOCARD_SUB_OID_IDEX, AUTOCARD_SET_COUNTERS_SUB_OID, hb]
  | cons b4 rest =>
    have h3 : ¬ 6 < b3 := by
      have := hacc (List.cons_ne_nil _ _)
      omega
    simp at hst
    subst hst
    by_cases hb : b2 = 1 <;>
    simp [AutoCard.handleVendorNciRspNtf, rsp_prop, ntf_prop, NCI_GID_INDEX, NCI_OID_INDEX,
      AUTOCARD_FW_API_OID, AUTOCARD_STATUS_INDEX, AUTOCARD_SUSPEND_SUB_OID, NCI_MSG_LEN_INDEX,
      AUTOCARD_HEADER_LEN, AUTOCARD_FEATURE_SUB_GID, AUTOCARD_PAYLOAD_LEN, NFCSTATUS_SUCCESS,
      AUTOCARD_SUB_OID_IDEX, AUTOCARD_SET_COUNTERS_SUB_OID, hb, h3]

/-! ## Helper lemmas: `phNxpNciHal_getAutoCardConfig` -/

theorem reconcileTimer_self (env : ConfigEnv) (self : AutoCard) (trace : List Event) :
    (reconcileTimer env self trace).self = self := by
  unfold reconcileTimer
  cases env.NXP_AUTOCARD_TIMER_VALUE with
  | none => rfl
  | some v =>
    simp only []
    split_ifs <;> rfl

theorem reconcileTimer_absent (env : ConfigEnv) (self : AutoCard) (trace : List Event)
    (h : env.NXP_AUTOCARD_TIMER_VALUE = none ∨ env.NXP_AUTOCARD_TIMER_VALUE = some 0) :
    reconcileTimer env self trace = { self := self, trace := trace } := by
  unfold reconcileTimer
  rcases h with h | h <;> simp [h]

theorem reconcileTimer_sent (env : ConfigEnv) (self : AutoCard) (trace : List Event)
    (v : Nat) (h : env.NXP_AUTOCARD_TIMER_VALUE = some v) (hv : v ≠ 0) :
    (reconcileTimer env self trace).sent =
      framesOf Call.send_ext_cmd trace ++
        [0x2F, 0x43, 0x01, 0x08] ::
          (if (env.phNxpNciHal_send_ext_cmd trace.length [0x2F, 0x43, 0x01, 0x08]).1 =
                NFCSTATUS_SUCCESS ∧
              (env.phNxpNciHal_send_ext_cmd trace.length [0x2F, 0x43, 0x01, 0x08]).2.length = 6 ∧
              (env.phNxpNciHal_send_ext_cmd trace.length [0x2F, 0x43, 0x01, 0x08]).2[3]? =
                some 0x08 ∧
              (env.phNxpNciHal_send_ext_cmd trace.length [0x2F, 0x43, 0x01, 0x08]).2[4]? =
                some 0x00 ∧
              (env.phNxpNciHal_send_ext_cmd trace.length [0x2F, 0x43, 0x01, 0x08]).2[5]? ≠
                some v
            then [[0x2F, 0x43, 0x02, 0x07, v]] else []) := by
  unfold reconcileTimer ConfigOutcome.sent
  simp only [h, hv, if_false, NCI_MSG_INDEX_FOR_FEATURE, AUTOCARD_GET_TIMER_SUB_OID,
    AUTOCARD_STATUS_SUCCESS]
  generalize env.phNxpNciHal_send_ext_cmd trace.length [0x2F, 0x43, 0x01, 0x08] = answer
  by_cases h1 : answer.1 = NFCSTATUS_SUCCESS <;>
  by_cases h2 : answer.2.length = 6 <;>
  by_cases h3 : answer.2[3]? = some 8 <;>
  by_cases h4 : answer.2[4]? = some 0 <;>
  by_cases h5 : answer.2[5]? = some v <;>
  simp_all [framesOf]

theorem config_gated (env : ConfigEnv) (self : AutoCard)
    (h : (env.chipType ≠ ChipType.sn220u ∧ env.chipType ≠ ChipType.sn300u) ∨
      env.NXP_AUTOCARD_SELECTION_PHONE_OFF = none ∨
      ∃ m, env.NXP_AUTOCARD_SELECTION_PHONE_OFF = some m ∧ m ≠ 0x01) :
    self.phNxpNciHal_getAutoCardConfig env = { self := self, trace := [] } := by
  unfold AutoCard.phNxpNciHal_getAutoCardConfig
  rcases h with ⟨h1, h2⟩ | h | ⟨m, h, hm⟩
  · simp [IS_CHIP_TYPE_NE, h1, h2]
  · simp [h]
  · simp [h, hm, AUTOCARD_FEATURE_ENABLED]

theorem config_counters_kept (env : ConfigEnv) (self : AutoCard)
    (h0 h1 h2 st e c1 c2 c3 c4 c5 c6 : Nat)
    (hchip : env.chipType = ChipType.sn220u ∨ env.chipType = ChipType.sn300u)
    (hsel : env.NXP_AUTOCARD_SELECTION_PHONE_OFF = some 0x01)
    (hget : env.phNxpNciHal_send_ext_cmd 0 [0x2F, 0x43, 0x01, 0x02] =
      (NFCSTATUS_SUCCESS, [h0, h1, h2, 0x02, st, e, c1, c2, c3, c4, c5, c6]))
    (hcfg : env.NXP_AUTOCARD_COUNTERS = some [c1, c2, c3, c4, c5, c6]) :
    self.phNxpNciHal_getAutoCardConfig env =
      reconcileTimer env
        { autoCardCmdType := self.autoCardCmdType
          mAutoCardEnableStatus := e
          mAutoCardCounters := [c1, c2, c3, c4, c5, c6] }
        [⟨Call.send_ext_cmd, [0x2F, 0x43, 0x01, 0x02], self⟩] := by
  unfold AutoCard.phNxpNciHal_getAutoCardConfig
  rcases hchip with hc | hc <;>
    simp [IS_CHIP_TYPE_NE, hc, hsel, hget, hcfg, AUTOCARD_FEATURE_ENABLED, NFCSTATUS_SUCCESS,
      NCI_MSG_INDEX_FOR_FEATURE, AUTOCARD_GET_COUNTERS_SUB_OID, GetNxpByteArrayValue,
      CNT_CONFIG_BUFF_MAX_SIZE]

theorem config_counters_pushed (env : ConfigEnv) (self : AutoCard)
    (h0 h1 h2 st e c1 c2 c3 c4 c5 c6 : Nat) (cfg : List Nat)
    (hchip : env.chipType = ChipType.sn220u ∨ env.chipType = ChipType.sn300u)
    (hsel : env.NXP_AUTOCARD_SELECTION_PHONE_OFF = some 0x01)
    (hget : env.phNxpNciHal_send_ext_cmd 0 [0x2F, 0x43, 0x01, 0x02] =
      (NFCSTATUS_SUCCESS, [h0, h1, h2, 0x02, st, e, c1, c2, c3, c4, c5, c6]))
    (hcfg : env.NXP_AUTOCARD_COUNTERS = some cfg) (hlen : cfg.length = 6)
    (hne : cfg ≠ [c1, c2, c3, c4, c5, c6]) :
    self.phNxpNciHal_getAutoCardConfig env =
      reconcileTimer env
        { autoCardCmdType := self.autoCardCmdType
          mAutoCardEnableStatus := e
          mAutoCardCounters :=
            if (env.phNxpNciHal_send_ext_cmd 1 ([0x2F, 0x43, 0x08, 0x01, e] ++ cfg)).1 =
                NFCSTATUS_SUCCESS then cfg
            else [c1, c2, c3, c4, c5, c6] }
        [⟨Call.send_ext_cmd, [0x2F, 0x43, 0x01, 0x02], self⟩,
         ⟨Call.send_ext_cmd, [0x2F, 0x43, 0x08, 0x01, e] ++ cfg,
          { autoCardCmdType := self.autoCardCmdType
            mAutoCardEnableStatus := e
            mAutoCardCounters := [c1, c2, c3, c4, c5, c6] }⟩] := by
  unfold AutoCard.phNxpNciHal_getAutoCardConfig
  have htake : cfg.take 6 = cfg := List.take_of_length_le (by omega)
  rcases hchip with hc | hc <;>
    by_cases hst :
      (env.phNxpNciHal_send_ext_cmd 1 (0x2F :: 0x43 :: 0x08 :: 0x01 :: e :: cfg)).1 = 0 <;>
    simp [IS_CHIP_TYPE_NE, hc, hsel, hget, hcfg, AUTOCARD_FEATURE_ENABLED, NFCSTATUS_SUCCESS,
      NCI_MSG_INDEX_FOR_FEATURE, AUTOCARD_GET_COUNTERS_SUB_OID, GetNxpByteArrayValue,
      CNT_CONFIG_BUFF_MAX_SIZE, hlen, htake, hne, hst]

theorem config_timer_split (env : ConfigEnv) (self : AutoCard) (rsp : List Nat)
    (hchip : env.chipType = ChipType.sn220u ∨ env.chipType = ChipType.sn300u)
    (hsel : env.NXP_AUTOCARD_SELECTION_PHONE_OFF = some 0x01)
    (hget : env.phNxpNciHal_send_ext_cmd 0 [0x2F, 0x43, 0x01, 0x02] = (NFCSTATUS_SUCCESS, rsp))
    (hlen : rsp.length = 12) (hsub : rsp[3]? = some 0x02) :
    self.phNxpNciHal_getAutoCardConfig env =
      reconcileTimer env
        (self.phNxpNciHal_getAutoCardConfig { env with NXP_AUTOCARD_TIMER_VALUE := none }).self
        (self.phNxpNciHal_getAutoCardConfig { env with NXP_AUTOCARD_TIMER_VALUE := none }).trace := by
  unfold AutoCard.phNxpNciHal_getAutoCardConfig
  have hnot : ¬ (IS_CHIP_TYPE_NE env.chipType ChipType.sn220u &&
      IS_CHIP_TYPE_NE env.chipType ChipType.sn300u) = true := by
    rcases hchip with hc | hc <;> simp [IS_CHIP_TYPE_NE, hc]
  simp only [hnot, hsel, hget, hlen, hsub, AUTOCARD_FEATURE_ENABLED, NFCSTATUS_SUCCESS,
    NCI_MSG_INDEX_FOR_FEATURE, AUTOCARD_GET_COUNTERS_SUB_OID, if_false, ne_eq, not_true,
    decide_True, Bool.and_self, Bool.not_true, Bool.false_eq_true, not_false_eq_true]
  split_ifs <;> simp [reconcileTimer]

theorem reconcileTimer_set_counters (env : ConfigEnv) (self : AutoCard) (trace : List Event) :
    (reconcileTimer env self trace).sent.filter (fun f => f[3]? == some 0x01) =
      (framesOf Call.send_ext_cmd trace).filter (fun f => f[3]? == some 0x01) := by
  cases h : env.NXP_AUTOCARD_TIMER_VALUE with
  | none => rw [reconcileTimer_absent env self trace (Or.inl h)]; rfl
  | some v =>
    by_cases hv : v = 0
    · subst hv
      rw [reconcileTimer_absent env self trace (Or.inr h)]; rfl
    · rw [reconcileTimer_sent env self trace v h hv]
      split_ifs <;> simp

theorem config_counter_phase (env : ConfigEnv) (self : AutoCard) (rsp : List Nat)
    (hchip : env.chipType = ChipType.sn220u ∨ env.chipType = ChipType.sn300u)
    (hsel : env.NXP_AUTOCARD_SELECTION_PHONE_OFF = some 0x01)
    (hget : env.phNxpNciHal_send_ext_cmd 0 [0x2F, 0x43, 0x01, 0x02] = (NFCSTATUS_SUCCESS, rsp))
    (hlen : rsp.length = 12) (hsub : rsp[3]? = some 0x02) :
    (self.phNxpNciHal_getAutoCardConfig
        { env with NXP_AUTOCARD_TIMER_VALUE := none }).sent.length =
      (self.phNxpNciHal_getAutoCardConfig
        { env with NXP_AUTOCARD_TIMER_VALUE := none }).trace.length ∧
    ∀ f ∈ (self.phNxpNciHal_getAutoCardConfig
        { env with NXP_AUTOCARD_TIMER_VALUE := none }).sent,
      f[3]? = some 0x02 ∨ f[3]? = some 0x01 := by
  unfold AutoCard.phNxpNciHal_getAutoCardConfig ConfigOutcome.sent
  have hnot : ¬ (IS_CHIP_TYPE_NE env.chipType ChipType.sn220u &&
      IS_CHIP_TYPE_NE env.chipType ChipType.sn300u) = true := by
    rcases hchip with hc | hc <;> simp [IS_CHIP_TYPE_NE, hc]
  simp only [hnot, hsel, hget, hlen, hsub, AUTOCARD_FEATURE_ENABLED, NFCSTATUS_SUCCESS,
    NCI_MSG_INDEX_FOR_FEATURE, AUTOCARD_GET_COUNTERS_SUB_OID, if_false, ne_eq, not_true,
    decide_True, Bool.and_self, Bool.not_true, Bool.false_eq_true, not_false_eq_true]
  split_ifs <;> simp [reconcileTimer, framesOf]

/-! ## Claims about `AutoCard::handleVendorNciMessage` -/

/-- C1: for every frame of at least five bytes, if byte 0 is not `0x2F`
(`NCI_MT_CMD | NCI_GID_PROP`), or byte 1 is not `NCI_ROW_PROP_OID_VAL`, or
byte 3 is not `0x50`, or byte 4 is greater than `0x08`, then
`handleVendorNciMessage` returns `NFCSTATUS_EXTN_FEATURE_FAILURE`, calls no
collaborator (nothing upstream, nothing enqueued) and leaves the whole
singleton unchanged; for every other frame of at least five bytes it returns
`NFCSTATUS_EXTN_FEATURE_SUCCESS`. -/
theorem C1_handleVendorNciMessage_recognition
    (K : NciConstants) (env : Env) (self : AutoCard)
    (b0 b1 b2 b3 b4 : Nat) (rest : List Nat) :
    ((b0 ≠ 0x2F ∨ b1 ≠ K.NCI_ROW_PROP_OID_VAL ∨ b3 ≠ 0x50 ∨ b4 > 0x08) →
      self.handleVendorNciMessage K env (b0 :: b1 :: b2 :: b3 :: b4 :: rest) =
        some { ret := K.NFCSTATUS_EXTN_FEATURE_FAILURE, self := self, trace := [] }) ∧
    (¬ (b0 ≠ 0x2F ∨ b1 ≠ K.NCI_ROW_PROP_OID_VAL ∨ b3 ≠ 0x50 ∨ b4 > 0x08) →
      ∃ r, self.handleVendorNciMessage K env (b0 :: b1 :: b2 :: b3 :: b4 :: rest) = some r ∧
        r.ret = K.NFCSTATUS_EXTN_FEATURE_SUCCESS) := by
  refine ⟨msg_reject K env self b0 b1 b2 b3 b4 rest, ?_⟩
  intro h
  simp only [not_or, not_not, not_lt, gt_iff_lt] at h
  obtain ⟨rfl, rfl, rfl, hs⟩ := h
  by_cases hchip : env.chipType = ChipType.sn220u
  · cases hcfg : env.NXP_AUTOCARD_SELECTION_PHONE_OFF with
    | none => exact ⟨_, msg_not_configured K env self b2 b4 rest hs hchip hcfg, rfl⟩
    | some mode =>
      by_cases hdis : mode ≠ 0x01 ∨ (self.mAutoCardEnableStatus ≠ 0x01 ∧ b4 ≠ 0x07)
      · exact ⟨_, msg_disabled K env self b2 b4 mode rest hs hchip hcfg hdis, rfl⟩
      · simp only [not_or, not_and_or, not_not, ne_eq] at hdis
        obtain ⟨rfl, hen⟩ := hdis
        by_cases h7 : b4 = 0x07
        · subst h7
          by_cases he : self.mAutoCardEnableStatus = 0x01
          · exact ⟨_, msg_already_enabled K env self b2 rest hchip hcfg he, rfl⟩
          · exact ⟨_, msg_enable_disable K env self b2 7 rest hchip hcfg (Or.inl ⟨rfl, he⟩),
              enqueueAndReturn_ret _ _ _ _⟩
        · have he : self.mAutoCardEnableStatus = 0x01 := by
            rcases hen with he | he
            · exact he
            · exact absurd he h7
          by_cases h8 : b4 = 0x08
          · subst h8
            exact ⟨_, msg_enable_disable K env self b2 8 rest hchip hcfg (Or.inr ⟨rfl, he⟩),
              enqueueAndReturn_ret _ _ _ _⟩
          · exact ⟨_, msg_plain K env self b2 b4 rest hs h7 h8 hchip hcfg he,
              enqueueAndReturn_ret _ _ _ _⟩
  · exact ⟨_, msg_unsupported K env self b2 b4 rest hs hchip, rfl⟩

/-- Witness of C1: a frame whose byte 0 is `0x20` is rejected, and the enable
command `2F 70 03 50 07 01` is handled. -/
theorem C1_handleVendorNciMessage_recognition_witness :
    ((0x20 ≠ 0x2F ∨ 0x70 ≠ sampleConstants.NCI_ROW_PROP_OID_VAL ∨ 0x50 ≠ 0x50 ∨ 0x07 > 0x08) ∧
      (sampleCard 0 0).handleVendorNciMessage sampleConstants
          (sampleEnv ChipType.sn220u (some 1) 0) [0x20, 0x70, 0x03, 0x50, 0x07, 0x01] =
        some { ret := sampleConstants.NFCSTATUS_EXTN_FEATURE_FAILURE, self := sampleCard 0 0,
               trace := [] }) ∧
    (¬ (0x2F ≠ 0x2F ∨ 0x70 ≠ sampleConstants.NCI_ROW_PROP_OID_VAL ∨ 0x50 ≠ 0x50 ∨ 0x07 > 0x08) ∧
      ∃ r, (sampleCard 0 0).handleVendorNciMessage sampleConstants
          (sampleEnv ChipType.sn220u (some 1) 0) [0x2F, 0x70, 0x03, 0x50, 0x07, 0x01] = some r ∧
        r.ret = sampleConstants.NFCSTATUS_EXTN_FEATURE_SUCCESS) :=
  ⟨⟨by decide,
    (C1_handleVendorNciMessage_recognition sampleConstants
      (sampleEnv ChipType.sn220u (some 1) 0) (sampleCard 0 0) 0x20 0x70 0x03 0x50 0x07 [0x01]).1
      (by decide)⟩,
   ⟨by decide,
    (C1_handleVendorNciMessage_recognition sampleConstants
      (sampleEnv ChipType.sn220u (some 1) 0) (sampleCard 0 0) 0x2F 0x70 0x03 0x50 0x07 [0x01]).2
      (by decide)⟩⟩

/-- C2: for every recognized AutoCard host command (sub-opcode `s ≤ 0x08`), if
the chip is not the supported variant the handler emits upstream exactly the
frame `[0x4F, NCI_ROW_MAINLINE_OID, 0x04, 0x50, 0x02, s, 0x0D]`; otherwise, if
the selection-mode setting is absent, it emits exactly
`[0x4F, NCI_ROW_MAINLINE_OID, 0x04, 0x50, 0x02, s, 0x0C]`.  In both cases
nothing is enqueued or sent to the hardware and the mirrored enable status and
counters are unchanged. -/
theorem C2_unsupported_or_not_configured_reply
    (K : NciConstants) (env : Env) (self : AutoCard) (b2 s : Nat) (rest : List Nat)
    (hs : s ≤ 0x08) :
    (env.chipType ≠ ChipType.sn220u →
      ∃ r, self.handleVendorNciMessage K env
          (0x2F :: K.NCI_ROW_PROP_OID_VAL :: b2 :: 0x50 :: s :: rest) = some r ∧
        r.upstream = [[0x4F, K.NCI_ROW_MAINLINE_OID, 0x04, 0x50, 0x02, s, 0x0D]] ∧
        r.enqueued = [] ∧ r.sent = [] ∧
        r.self.mAutoCardEnableStatus = self.mAutoCardEnableStatus ∧
        r.self.mAutoCardCounters = self.mAutoCardCounters) ∧
    (env.chipType = ChipType.sn220u → env.NXP_AUTOCARD_SELECTION_PHONE_OFF = none →
      ∃ r, self.handleVendorNciMessage K env
          (0x2F :: K.NCI_ROW_PROP_OID_VAL :: b2 :: 0x50 :: s :: rest) = some r ∧
        r.upstream = [[0x4F, K.NCI_ROW_MAINLINE_OID, 0x04, 0x50, 0x02, s, 0x0C]] ∧
        r.enqueued = [] ∧ r.sent = [] ∧
        r.self.mAutoCardEnableStatus = self.mAutoCardEnableStatus ∧
        r.self.mAutoCardCounters = self.mAutoCardCounters) := by
  constructor
  · intro hchip
    refine ⟨_, msg_unsupported K env self b2 s rest hs hchip, ?_, ?_, ?_, rfl, rfl⟩ <;>
      simp [Outcome.upstream, Outcome.enqueued, Outcome.sent, framesOf, statusReply_eq]
  · intro hchip hcfg
    refine ⟨_, msg_not_configured K env self b2 s rest hs hchip hcfg, ?_, ?_, ?_, rfl, rfl⟩ <;>
      simp [Outcome.upstream, Outcome.enqueued, Outcome.sent, framesOf, statusReply_eq]

/-- Witness of C2: the get-counters command `2F 70 02 50 02` on an `sn300u`
chip, and on an `sn220u` chip without the selection-mode setting. -/
theorem C2_unsupported_or_not_configured_reply_witness :
    (0x02 ≤ 0x08 ∧
      (sampleEnv ChipType.sn300u (some 1) 0).chipType ≠ ChipType.sn220u ∧
      ∃ r, (sampleCard 0 1).handleVendorNciMessage sampleConstants
          (sampleEnv ChipType.sn300u (some 1) 0)
          (0x2F :: sampleConstants.NCI_ROW_PROP_OID_VAL :: 0x02 :: 0x50 :: 0x02 :: []) = some r ∧
        r.upstream =
          [[0x4F, sampleConstants.NCI_ROW_MAINLINE_OID, 0x04, 0x50, 0x02, 0x02, 0x0D]] ∧
        r.enqueued = [] ∧ r.sent = [] ∧
        r.self.mAutoCardEnableStatus = (sampleCard 0 1).mAutoCardEnableStatus ∧
        r.self.mAutoCardCounters = (sampleCard 0 1).mAutoCardCounters) ∧
    ((sampleEnv ChipType.sn220u none 0).chipType = ChipType.sn220u ∧
      (sampleEnv ChipType.sn220u none 0).NXP_AUTOCARD_SELECTION_PHONE_OFF = none ∧
      ∃ r, (sampleCard 0 1).handleVendorNciMessage sampleConstants
          (sampleEnv ChipType.sn220u none 0)
          (0x2F :: sampleConstants.NCI_ROW_PROP_OID_VAL :: 0x02 :: 0x50 :: 0x02 :: []) = some r ∧
        r.upstream =
          [[0x4F, sampleConstants.NCI_ROW_MAINLINE_OID, 0x04, 0x50, 0x02, 0x02, 0x0C]] ∧
        r.enqueued = [] ∧ r.sent = [] ∧
        r.self.mAutoCardEnableStatus = (sampleCard 0 1).mAutoCardEnableStatus ∧
        r.self.mAutoCardCounters = (sampleCard 0 1).mAutoCardCounters) :=
  ⟨⟨by decide, by decide,
    (C2_unsupported_or_not_configured_reply sampleConstants
      (sampleEnv ChipType.sn300u (some 1) 0) (sampleCard 0 1) 0x02 0x02 [] (by decide)).1
      (by decide)⟩,
   ⟨rfl, rfl,
    (C2_unsupported_or_not_configured_reply sampleConstants
      (sampleEnv ChipType.sn220u none 0) (sampleCard 0 1) 0x02 0x02 [] (by decide)).2 rfl rfl⟩⟩

/-- C3 as stated fails: on a supported chip with the selection mode configured
as `0x00`, the enable request `2F 70 03 50 07 01` is answered with the
'disabled' reply `4F 0C 04 50 02 07 0B`, although the claimed condition
(feature disabled and sub-opcode other than `0x07`) is false. -/
theorem C3_enable_request_answered_disabled :
    ∃ r, (sampleCard 0 1).handleVendorNciMessage sampleConstants
        (sampleEnv ChipType.sn220u (some 0x00) 0) [0x2F, 0x70, 0x03, 0x50, 0x07, 0x01] = some r ∧
      r.upstream = [[0x4F, 0x0C, 0x04, 0x50, 0x02, 0x07, 0x0B]] ∧
      ¬ (((0x00 : Nat) ≠ 0x01 ∨ (sampleCard 0 1).mAutoCardEnableStatus ≠ 0x01) ∧
          (0x07 : Nat) ≠ 0x07) :=
  ⟨_, rfl, by decide, by decide⟩

/-- C3, amended: for every recognized AutoCard host command on a supported
chip with the selection mode configured as `mode`, a reply with status `0x0B`
(disabled) is emitted if and only if `mode` is not `0x01`, or the mirrored
enable status is not `0x01` and the sub-opcode is not the enable sub-opcode
`0x07`; when it is emitted it is the only frame emitted and it is
`[0x4F, NCI_ROW_MAINLINE_OID, 0x04, 0x50, 0x02, s, 0x0B]`.  Hence an enable
request is answered with 'disabled' exactly when `mode` is not `0x01`. -/
theorem C3_disabled_reply_iff
    (K : NciConstants) (env : Env) (self : AutoCard) (b2 s mode : Nat) (rest : List Nat)
    (hs : s ≤ 0x08) (hchip : env.chipType = ChipType.sn220u)
    (hcfg : env.NXP_AUTOCARD_SELECTION_PHONE_OFF = some mode) :
    ∃ r, self.handleVendorNciMessage K env
        (0x2F :: K.NCI_ROW_PROP_OID_VAL :: b2 :: 0x50 :: s :: rest) = some r ∧
      ((∃ f ∈ r.upstream, f[6]? = some 0x0B) ↔
        (mode ≠ 0x01 ∨ (self.mAutoCardEnableStatus ≠ 0x01 ∧ s ≠ 0x07))) ∧
      ((mode ≠ 0x01 ∨ (self.mAutoCardEnableStatus ≠ 0x01 ∧ s ≠ 0x07)) →
        r.upstream = [[0x4F, K.NCI_ROW_MAINLINE_OID, 0x04, 0x50, 0x02, s, 0x0B]]) := by
  by_cases hdis : mode ≠ 0x01 ∨ (self.mAutoCardEnableStatus ≠ 0x01 ∧ s ≠ 0x07)
  · refine ⟨_, msg_disabled K env self b2 s mode rest hs hchip hcfg hdis, ?_, ?_⟩
    · simp [Outcome.upstream, framesOf, statusReply_eq, hdis]
    · intro _
      simp [Outcome.upstream, framesOf, statusReply_eq]
  · have hdis' := hdis
    simp only [not_or, not_and_or, not_not, ne_eq] at hdis'
    obtain ⟨rfl, hen⟩ := hdis'
    by_cases h7 : s = 0x07
    · subst h7
      by_cases he : self.mAutoCardEnableStatus = 0x01
      · refine ⟨_, msg_already_enabled K env self b2 rest hchip hcfg he, ?_, ?_⟩
        · simp [Outcome.upstream, framesOf, statusReply_eq, he]
        · intro h
          exact absurd h hdis
      · refine ⟨_, msg_enable_disable K env self b2 7 rest hchip hcfg (Or.inl ⟨rfl, he⟩), ?_, ?_⟩
        · rw [enqueueAndReturn_upstream]
          split_ifs <;> simp
        · intro h
          exact absurd h hdis
    · have he : self.mAutoCardEnableStatus = 0x01 := by
        rcases hen with he | he
        · exact he
        · exact absurd he h7
      by_cases h8 : s = 0x08
      · subst h8
        refine ⟨_, msg_enable_disable K env self b2 8 rest hchip hcfg (Or.inr ⟨rfl, he⟩), ?_, ?_⟩
        · rw [enqueueAndReturn_upstream]
          split_ifs <;> simp [he]
        · intro h
          exact absurd h hdis
      · refine ⟨_, msg_plain K env self b2 s rest hs h7 h8 hchip hcfg he, ?_, ?_⟩
        · rw [enqueueAndReturn_upstream]
          split_ifs <;> simp [he]
        · intro h
          exact absurd h hdis

/-- Witness of the amended C3: the get-counters command `2F 70 02 50 02` with
the selection mode configured as `0x00`. -/
theorem C3_disabled_reply_iff_witness :
    0x02 ≤ 0x08 ∧
    (sampleEnv ChipType.sn220u (some 0x00) 0).chipType = ChipType.sn220u ∧
    (sampleEnv ChipType.sn220u (some 0x00) 0).NXP_AUTOCARD_SELECTION_PHONE_OFF = some 0x00 ∧
    ∃ r, (sampleCard 0 1).handleVendorNciMessage sampleConstants
        (sampleEnv ChipType.sn220u (some 0x00) 0)
        (0x2F :: sampleConstants.NCI_ROW_PROP_OID_VAL :: 0x02 :: 0x50 :: 0x02 :: []) = some r ∧
      ((∃ f ∈ r.upstream, f[6]? = some 0x0B) ↔
        (0x00 ≠ 0x01 ∨ ((sampleCard 0 1).mAutoCardEnableStatus ≠ 0x01 ∧ 0x02 ≠ 0x07))) ∧
      ((0x00 ≠ 0x01 ∨ ((sampleCard 0 1).mAutoCardEnableStatus ≠ 0x01 ∧ 0x02 ≠ 0x07)) →
        r.upstream =
          [[0x4F, sampleConstants.NCI_ROW_MAINLINE_OID, 0x04, 0x50, 0x02, 0x02, 0x0B]]) :=
  ⟨by decide, rfl, rfl,
    C3_disabled_reply_iff sampleConstants (sampleEnv ChipType.sn220u (some 0x00) 0)
      (sampleCard 0 1) 0x02 0x02 0x00 [] (by decide) rfl rfl⟩

/-- C4: enable-when-already-enabled is idempotent.  For every recognized
AutoCard host command with sub-opcode `0x07`, on a supported chip with the
selection mode configured as `0x01` and mirrored enable status `0x01`, the
handler emits upstream exactly `[0x4F, NCI_ROW_MAINLINE_OID, 0x04, 0x50, 0x02,
0x07, 0x00]`, enqueues and sends nothing, leaves the mirrored enable status
and counters unchanged and returns `NFCSTATUS_EXTN_FEATURE_SUCCESS`. -/
theorem C4_enable_when_enabled_idempotent
    (K : NciConstants) (env : Env) (self : AutoCard) (b2 : Nat) (rest : List Nat)
    (hchip : env.chipType = ChipType.sn220u)
    (hcfg : env.NXP_AUTOCARD_SELECTION_PHONE_OFF = some 0x01)
    (hen : self.mAutoCardEnableStatus = 0x01) :
    ∃ r, self.handleVendorNciMessage K env
        (0x2F :: K.NCI_ROW_PROP_OID_VAL :: b2 :: 0x50 :: 0x07 :: rest) = some r ∧
      r.upstream = [[0x4F, K.NCI_ROW_MAINLINE_OID, 0x04, 0x50, 0x02, 0x07, 0x00]] ∧
      r.enqueued = [] ∧ r.sent = [] ∧
      r.self.mAutoCardEnableStatus = self.mAutoCardEnableStatus ∧
      r.self.mAutoCardCounters = self.mAutoCardCounters ∧
      r.ret = K.NFCSTATUS_EXTN_FEATURE_SUCCESS := by
  refine ⟨_, msg_already_enabled K env self b2 rest hchip hcfg hen, ?_, ?_, ?_, rfl, rfl, rfl⟩ <;>
    simp [Outcome.upstream, Outcome.enqueued, Outcome.sent, framesOf, statusReply_eq]

/-- Witness of C4: the enable command `2F 70 03 50 07 01` while enabled. -/
theorem C4_enable_when_enabled_idempotent_witness :
    (sampleEnv ChipType.sn220u (some 0x01) 0).chipType = ChipType.sn220u ∧
    (sampleEnv ChipType.sn220u (some 0x01) 0).NXP_AUTOCARD_SELECTION_PHONE_OFF = some 0x01 ∧
    (sampleCard 0 1).mAutoCardEnableStatus = 0x01 ∧
    ∃ r, (sampleCard 0 1).handleVendorNciMessage sampleConstants
        (sampleEnv ChipType.sn220u (some 0x01) 0)
        (0x2F :: sampleConstants.NCI_ROW_PROP_OID_VAL :: 0x03 :: 0x50 :: 0x07 :: [0x01]) =
          some r ∧
      r.upstream = [[0x4F, sampleConstants.NCI_ROW_MAINLINE_OID, 0x04, 0x50, 0x02, 0x07, 0x00]] ∧
      r.enqueued = [] ∧ r.sent = [] ∧
      r.self.mAutoCardEnableStatus = (sampleCard 0 1).mAutoCardEnableStatus ∧
      r.self.mAutoCardCounters = (sampleCard 0 1).mAutoCardCounters ∧
      r.ret = sampleConstants.NFCSTATUS_EXTN_FEATURE_SUCCESS :=
  ⟨rfl, rfl, rfl,
    C4_enable_when_enabled_idempotent sampleConstants (sampleEnv ChipType.sn220u (some 0x01) 0)
      (sampleCard 0 1) 0x03 [0x01] rfl rfl rfl⟩

/-- C5, the code at the failing input: after the host enable command
`2F <prop> 03 50 07 01` (translated to the set-counters command
`2F 43 08 01 01 c1 .. c6`, last sub-opcode recorded as `0x07`), the successful
firmware response `4F 43 02 01 00` with sub-opcode `0x01` is emitted upstream
as `4F <mainline> 04 50 02 01 00`: the relabelling test looks at index 4 of
the rebuilt frame, which holds the copied length byte `0x02`, so the firmware
sub-opcode `0x01` at index 5 reaches the host and `0x07` appears nowhere. -/
theorem C5_set_counters_sub_opcode_not_relabelled (K : NciConstants) :
    ∃ r1 r2,
      (sampleCard 0 0).handleVendorNciMessage K (sampleEnv ChipType.sn220u (some 0x01) 0)
          [0x2F, K.NCI_ROW_PROP_OID_VAL, 0x03, 0x50, 0x07, 0x01] = some r1 ∧
      r1.enqueued = [[0x2F, 0x43, 0x08, 0x01, 0x01, 1, 2, 3, 4, 5, 6]] ∧
      r1.self.autoCardCmdType = 0x07 ∧
      r1.self.handleVendorNciRspNtf K [0x4F, 0x43, 0x02, 0x01, 0x00] = some r2 ∧
      r2.upstream = [[0x4F, K.NCI_ROW_MAINLINE_OID, 0x04, 0x50, 0x02, 0x01, 0x00]] := by
  refine ⟨_, _,
    msg_enable_disable K (sampleEnv ChipType.sn220u (some 0x01) 0) (sampleCard 0 0) 0x03 0x07
      [0x01] rfl rfl (Or.inl ⟨rfl, by decide⟩),
    ?_, ?_, rsp_success K _ 0x02 0x01 [0x00] (fun _ => by decide) rfl, ?_⟩
  · rw [enqueueAndReturn_enqueued]
    rfl
  · rw [enqueueAndReturn_self]
  · simp [Outcome.upstream, framesOf]

/-- C6: plain command translation.  For every recognized AutoCard host command
whose sub-opcode is neither `0x07` nor `0x08`, on a supported chip with the
selection mode `0x01` and the feature enabled, the handler enqueues exactly one
frame: the input with byte 1 replaced by `0x43`, byte 2 decremented by one
(as a `uint8_t`, so `b2 - 1` for `1 ≤ b2 ≤ 255`) and byte 3 removed, hence one
byte shorter with the other bytes in their order.  Nothing is sent
synchronously, the mirrored enable status and counters are unchanged, and when
the enqueue succeeds nothing is emitted upstream. -/
theorem C6_plain_command_translation
    (K : NciConstants) (env : Env) (self : AutoCard) (b2 s : Nat) (rest : List Nat)
    (hs : s ≤ 0x08) (h7 : s ≠ 0x07) (h8 : s ≠ 0x08)
    (hchip : env.chipType = ChipType.sn220u)
    (hcfg : env.NXP_AUTOCARD_SELECTION_PHONE_OFF = some 0x01)
    (hen : self.mAutoCardEnableStatus = 0x01) :
    ∃ r, self.handleVendorNciMessage K env
        (0x2F :: K.NCI_ROW_PROP_OID_VAL :: b2 :: 0x50 :: s :: rest) = some r ∧
      r.enqueued = [0x2F :: 0x43 :: (b2 + 255) % 256 :: s :: rest] ∧
      (1 ≤ b2 → b2 ≤ 255 → (b2 + 255) % 256 = b2 - 1) ∧
      (0x2F :: 0x43 :: (b2 + 255) % 256 :: s :: rest).length + 1 =
        (0x2F :: K.NCI_ROW_PROP_OID_VAL :: b2 :: 0x50 :: s :: rest).length ∧
      r.sent = [] ∧
      r.self.mAutoCardEnableStatus = self.mAutoCardEnableStatus ∧
      r.self.mAutoCardCounters = self.mAutoCardCounters ∧
      (env.phNxpHal_EnqueueWrite (0x2F :: 0x43 :: (b2 + 255) % 256 :: s :: rest) =
          NFCSTATUS_SUCCESS → r.upstream = []) := by
  refine ⟨_, msg_plain K env self b2 s rest hs h7 h8 hchip hcfg hen,
    enqueueAndReturn_enqueued _ _ _ _, ?_, ?_, enqueueAndReturn_sent _ _ _ _, ?_, ?_, ?_⟩
  · intro h1 h2
    omega
  · simp
  · rw [enqueueAndReturn_self]
  · rw [enqueueAndReturn_self]
  · intro hok
    rw [enqueueAndReturn_upstream, if_pos hok]

/-- Witness of C6: the get-counters command `2F 70 02 50 02` is enqueued as
`2F 43 01 02`. -/
theorem C6_plain_command_translation_witness :
    0x02 ≤ 0x08 ∧ 0x02 ≠ 0x07 ∧ 0x02 ≠ 0x08 ∧
    (sampleEnv ChipType.sn220u (some 0x01) 0).chipType = ChipType.sn220u ∧
    (sampleEnv ChipType.sn220u (some 0x01) 0).NXP_AUTOCARD_SELECTION_PHONE_OFF = some 0x01 ∧
    (sampleCard 0 1).mAutoCardEnableStatus = 0x01 ∧
    ∃ r, (sampleCard 0 1).handleVendorNciMessage sampleConstants
        (sampleEnv ChipType.sn220u (some 0x01) 0)
        (0x2F :: sampleConstants.NCI_ROW_PROP_OID_VAL :: 0x02 :: 0x50 :: 0x02 :: []) = some r ∧
      r.enqueued = [0x2F :: 0x43 :: (0x02 + 255) % 256 :: 0x02 :: []] ∧
      (1 ≤ 0x02 → 0x02 ≤ 255 → (0x02 + 255) % 256 = 0x02 - 1) ∧
      (0x2F :: 0x43 :: (0x02 + 255) % 256 :: 0x02 :: []).length + 1 =
        (0x2F :: sampleConstants.NCI_ROW_PROP_OID_VAL :: 0x02 :: 0x50 :: 0x02 :: []).length ∧
      r.sent = [] ∧
      r.self.mAutoCardEnableStatus = (sampleCard 0 1).mAutoCardEnableStatus ∧
      r.self.mAutoCardCounters = (sampleCard 0 1).mAutoCardCounters ∧
      ((sampleEnv ChipType.sn220u (some 0x01) 0).phNxpHal_EnqueueWrite
          (0x2F :: 0x43 :: (0x02 + 255) % 256 :: 0x02 :: []) = NFCSTATUS_SUCCESS →
        r.upstream = []) :=
  ⟨by decide, by decide, by decide, rfl, rfl, rfl,
    C6_plain_command_translation sampleConstants (sampleEnv ChipType.sn220u (some 0x01) 0)
      (sampleCard 0 1) 0x02 0x02 [] (by decide) (by decide) (by decide) rfl rfl rfl⟩

/-- C7: enable/disable translation.  For every accepted AutoCard host command
with sub-opcode `0x07` or `0x08` that is not the already-enabled short-circuit,
the handler makes exactly one enqueue and no synchronous send; the enqueued
frame is `[byte0, 0x43, byte2 - 1 + 6, 0x01]` (length byte in `uint8_t`
arithmetic) followed by the input bytes from index 5 on and then the mirrored
counters.  The enqueue is the first call made, and at that moment the singleton
already holds the input's last byte as enable status and the host sub-opcode as
last sub-opcode; both are still there when the handler returns. -/
theorem C7_enable_disable_translation
    (K : NciConstants) (env : Env) (self : AutoCard) (b2 s : Nat) (rest : List Nat)
    (hs : s = 0x07 ∨ s = 0x08)
    (hchip : env.chipType = ChipType.sn220u)
    (hcfg : env.NXP_AUTOCARD_SELECTION_PHONE_OFF = some 0x01)
    (hacc : self.mAutoCardEnableStatus = 0x01 ∨ s = 0x07)
    (hnsc : ¬ (s = 0x07 ∧ self.mAutoCardEnableStatus = 0x01)) :
    ∃ r, self.handleVendorNciMessage K env
        (0x2F :: K.NCI_ROW_PROP_OID_VAL :: b2 :: 0x50 :: s :: rest) = some r ∧
      r.enqueued =
        [0x2F :: 0x43 :: ((b2 + 255) % 256 + 6) % 256 :: 0x01 ::
          (rest ++ self.mAutoCardCounters)] ∧
      (1 ≤ b2 → b2 ≤ 250 → ((b2 + 255) % 256 + 6) % 256 = b2 - 1 + 6) ∧
      r.sent = [] ∧
      r.trace.head? = some
        { call := Call.EnqueueWrite
          frame := 0x2F :: 0x43 :: ((b2 + 255) % 256 + 6) % 256 :: 0x01 ::
            (rest ++ self.mAutoCardCounters)
          self :=
            { autoCardCmdType := s
              mAutoCardEnableStatus :=
                (0x2F :: K.NCI_ROW_PROP_OID_VAL :: b2 :: 0x50 :: s :: rest).getLast
                  (List.cons_ne_nil _ _)
              mAutoCardCounters := self.mAutoCardCounters } } ∧
      r.self.mAutoCardEnableStatus =
        (0x2F :: K.NCI_ROW_PROP_OID_VAL :: b2 :: 0x50 :: s :: rest).getLast
          (List.cons_ne_nil _ _) ∧
      r.self.autoCardCmdType = s := by
  have hs' : (s = 0x07 ∧ self.mAutoCardEnableStatus ≠ 0x01) ∨
      (s = 0x08 ∧ self.mAutoCardEnableStatus = 0x01) := by
    rcases hs with h | h
    · exact Or.inl ⟨h, fun he => hnsc ⟨h, he⟩⟩
    · rcases hacc with he | h7
      · exact Or.inr ⟨h, he⟩
      · omega
  refine ⟨_, msg_enable_disable K env self b2 s rest hchip hcfg hs',
    enqueueAndReturn_enqueued _ _ _ _, ?_, enqueueAndReturn_sent _ _ _ _, ?_, ?_, ?_⟩
  · intro h1 h2
    omega
  · rw [enqueueAndReturn_trace]
    split_ifs <;> rfl
  · rw [enqueueAndReturn_self]
  · rw [enqueueAndReturn_self]

/-- Witness of C7: the enable command `2F 70 03 50 07 01` while disabled is
enqueued as `2F 43 08 01 01 c1 .. c6`. -/
theorem C7_enable_disable_translation_witness :
    (0x07 = 0x07 ∨ 0x07 = 0x08) ∧
    (sampleEnv ChipType.sn220u (some 0x01) 0).chipType = ChipType.sn220u ∧
    (sampleEnv ChipType.sn220u (some 0x01) 0).NXP_AUTOCARD_SELECTION_PHONE_OFF = some 0x01 ∧
    ((sampleCard 0 0).mAutoCardEnableStatus = 0x01 ∨ 0x07 = 0x07) ∧
    ¬ (0x07 = 0x07 ∧ (sampleCard 0 0).mAutoCardEnableStatus = 0x01) ∧
    ∃ r, (sampleCard 0 0).handleVendorNciMessage sampleConstants
        (sampleEnv ChipType.sn220u (some 0x01) 0)
        (0x2F :: sampleConstants.NCI_ROW_PROP_OID_VAL :: 0x03 :: 0x50 :: 0x07 :: [0x01]) =
          some r ∧
      r.enqueued =
        [0x2F :: 0x43 :: ((0x03 + 255) % 256 + 6) % 256 :: 0x01 ::
          ([0x01] ++ (sampleCard 0 0).mAutoCardCounters)] ∧
      (1 ≤ 0x03 → 0x03 ≤ 250 → ((0x03 + 255) % 256 + 6) % 256 = 0x03 - 1 + 6) ∧
      r.sent = [] ∧
      r.trace.head? = some
        { call := Call.EnqueueWrite
          frame := 0x2F :: 0x43 :: ((0x03 + 255) % 256 + 6) % 256 :: 0x01 ::
            ([0x01] ++ (sampleCard 0 0).mAutoCardCounters)
          self :=
            { autoCardCmdType := 0x07
              mAutoCardEnableStatus :=
                (0x2F :: sampleConstants.NCI_ROW_PROP_OID_VAL :: 0x03 :: 0x50 :: 0x07 ::
                  [0x01]).getLast (List.cons_ne_nil _ _)
              mAutoCardCounters := (sampleCard 0 0).mAutoCardCounters } } ∧
      r.self.mAutoCardEnableStatus =
        (0x2F :: sampleConstants.NCI_ROW_PROP_OID_VAL :: 0x03 :: 0x50 :: 0x07 ::
          [0x01]).getLast (List.cons_ne_nil _ _) ∧
      r.self.autoCardCmdType = 0x07 :=
  ⟨by decide, rfl, rfl, by decide, by decide,
    C7_enable_disable_translation sampleConstants (sampleEnv ChipType.sn220u (some 0x01) 0)
      (sampleCard 0 0) 0x03 0x07 [0x01] (by decide) rfl rfl (by decide) (by decide)⟩

/-- C8: for every accepted AutoCard host command that reaches the enqueue step,
exactly one command `cmd` is enqueued and the handler returns
`NFCSTATUS_EXTN_FEATURE_SUCCESS`; if the enqueue fails it emits upstream exactly
`[0x4F, NCI_ROW_MAINLINE_OID, 0x04, 0x50, 0x02, s, 0x01]` with `s` the host
sub-opcode, and if the enqueue succeeds it emits nothing upstream. -/
theorem C8_enqueue_failure_reply
    (K : NciConstants) (env : Env) (self : AutoCard) (b2 s : Nat) (rest : List Nat)
    (hs : s ≤ 0x08)
    (hchip : env.chipType = ChipType.sn220u)
    (hcfg : env.NXP_AUTOCARD_SELECTION_PHONE_OFF = some 0x01)
    (hacc : self.mAutoCardEnableStatus = 0x01 ∨ s = 0x07)
    (hnsc : ¬ (s = 0x07 ∧ self.mAutoCardEnableStatus = 0x01)) :
    ∃ r cmd, self.handleVendorNciMessage K env
        (0x2F :: K.NCI_ROW_PROP_OID_VAL :: b2 :: 0x50 :: s :: rest) = some r ∧
      r.enqueued = [cmd] ∧
      r.ret = K.NFCSTATUS_EXTN_FEATURE_SUCCESS ∧
      (env.phNxpHal_EnqueueWrite cmd ≠ NFCSTATUS_SUCCESS →
        r.upstream = [[0x4F, K.NCI_ROW_MAINLINE_OID, 0x04, 0x50, 0x02, s, 0x01]]) ∧
      (env.phNxpHal_EnqueueWrite cmd = NFCSTATUS_SUCCESS → r.upstream = []) := by
  by_cases h7 : s = 0x07
  · have he : self.mAutoCardEnableStatus ≠ 0x01 := fun he => hnsc ⟨h7, he⟩
    refine ⟨_, _, msg_enable_disable K env self b2 s rest hchip hcfg (Or.inl ⟨h7, he⟩),
      enqueueAndReturn_enqueued _ _ _ _, enqueueAndReturn_ret _ _ _ _, ?_, ?_⟩
    · intro hfail
      rw [enqueueAndReturn_upstream, if_neg hfail]
    · intro hok
      rw [enqueueAndReturn_upstream, if_pos hok]
  · have he : self.mAutoCardEnableStatus = 0x01 := by
      rcases hacc with he | h
      · exact he
      · exact absurd h h7
    by_cases h8 : s = 0x08
    · refine ⟨_, _, msg_enable_disable K env self b2 s rest hchip hcfg (Or.inr ⟨h8, he⟩),
        enqueueAndReturn_enqueued _ _ _ _, enqueueAndReturn_ret _ _ _ _, ?_, ?_⟩
      · intro hfail
        rw [enqueueAndReturn_upstream, if_neg hfail]
      · intro hok
        rw [enqueueAndReturn_upstream, if_pos hok]
    · refine ⟨_, _, msg_plain K env self b2 s rest hs h7 h8 hchip hcfg he,
        enqueueAndReturn_enqueued _ _ _ _, enqueueAndReturn_ret _ _ _ _, ?_, ?_⟩
      · intro hfail
        rw [enqueueAndReturn_upstream, if_neg hfail]
      · intro hok
        rw [enqueueAndReturn_upstream, if_pos hok]

/-- Witness of C8: the disable command `2F 70 03 50 08 00` while enabled, with
a writer that refuses every enqueue (status 1). -/
theorem C8_enqueue_failure_reply_witness :
    0x08 ≤ 0x08 ∧
    (sampleEnv ChipType.sn220u (some 0x01) 1).chipType = ChipType.sn220u ∧
    (sampleEnv ChipType.sn220u (some 0x01) 1).NXP_AUTOCARD_SELECTION_PHONE_OFF = some 0x01 ∧
    ((sampleCard 0 1).mAutoCardEnableStatus = 0x01 ∨ 0x08 = 0x07) ∧
    ¬ (0x08 = 0x07 ∧ (sampleCard 0 1).mAutoCardEnableStatus = 0x01) ∧
    ∃ r cmd, (sampleCard 0 1).handleVendorNciMessage sampleConstants
        (sampleEnv ChipType.sn220u (some 0x01) 1)
        (0x2F :: sampleConstants.NCI_ROW_PROP_OID_VAL :: 0x03 :: 0x50 :: 0x08 :: [0x00]) =
          some r ∧
      r.enqueued = [cmd] ∧
      r.ret = sampleConstants.NFCSTATUS_EXTN_FEATURE_SUCCESS ∧
      ((sampleEnv ChipType.sn220u (some 0x01) 1).phNxpHal_EnqueueWrite cmd ≠ NFCSTATUS_SUCCESS →
        r.upstream =
          [[0x4F, sampleConstants.NCI_ROW_MAINLINE_OID, 0x04, 0x50, 0x02, 0x08, 0x01]]) ∧
      ((sampleEnv ChipType.sn220u (some 0x01) 1).phNxpHal_EnqueueWrite cmd = NFCSTATUS_SUCCESS →
        r.upstream = []) :=
  ⟨by decide, rfl, rfl, by decide, by decide,
    C8_enqueue_failure_reply sampleConstants (sampleEnv ChipType.sn220u (some 0x01) 1)
      (sampleCard 0 1) 0x03 0x08 [0x00] (by decide) rfl rfl (by decide) (by decide)⟩

/-! ## Claims about `AutoCard::handleVendorNciRspNtf` -/

/-- C9: for every frame of at least four bytes, `handleVendorNciRspNtf` returns
`NFCSTATUS_EXTN_FEATURE_FAILURE` and calls no collaborator if byte 0 is neither
`0x4F` nor `0x6F`, or byte 1 is not `0x43`, or the frame is longer than four
bytes and byte 3 is greater than `0x06`; in every other case it returns
`NFCSTATUS_EXTN_FEATURE_SUCCESS` and emits exactly one frame upstream. -/
theorem C9_handleVendorNciRspNtf_recognition
    (K : NciConstants) (self : AutoCard) (b0 b1 b2 b3 : Nat) (rest : List Nat) :
    (((b0 ≠ 0x4F ∧ b0 ≠ 0x6F) ∨ b1 ≠ 0x43 ∨
        ((b0 :: b1 :: b2 :: b3 :: rest).length > 4 ∧ b3 > 0x06)) →
      self.handleVendorNciRspNtf K (b0 :: b1 :: b2 :: b3 :: rest) =
        some { ret := K.NFCSTATUS_EXTN_FEATURE_FAILURE, self := self, trace := [] }) ∧
    (¬ ((b0 ≠ 0x4F ∧ b0 ≠ 0x6F) ∨ b1 ≠ 0x43 ∨
        ((b0 :: b1 :: b2 :: b3 :: rest).length > 4 ∧ b3 > 0x06)) →
      ∃ r f, self.handleVendorNciRspNtf K (b0 :: b1 :: b2 :: b3 :: rest) = some r ∧
        r.ret = K.NFCSTATUS_EXTN_FEATURE_SUCCESS ∧ r.upstream = [f]) := by
  refine ⟨rsp_reject K self b0 b1 b2 b3 rest, ?_⟩
  intro h
  simp only [not_or, not_and_or, not_not, not_lt, gt_iff_lt, ne_eq] at h
  obtain ⟨h0, rfl, h3⟩ := h
  have hacc : rest ≠ [] → b3 ≤ 0x06 := by
    intro hne
    rcases h3 with hl | hb
    · cases rest with
      | nil => exact absurd rfl hne
      | cons b4 rest => simp at hl
    · exact hb
  rcases h0 with rfl | rfl
  · obtain ⟨status, hst⟩ : ∃ status, (0x4F :: 0x43 :: b2 :: b3 :: rest)[
        if (0x4F :: 0x43 :: b2 :: b3 :: rest).length > 4 then 4 else 3]? = some status := by
      cases rest with
      | nil => exact ⟨b3, by simp⟩
      | cons b4 rest => exact ⟨b4, by simp⟩
    by_cases hz : status = 0x00
    · subst hz
      exact ⟨_, _, rsp_success K self b2 b3 rest hacc hst, rfl, rfl⟩
    · exact ⟨_, _, rsp_failure K self b2 b3 status rest hacc hst hz, rfl, rfl⟩
  · exact ⟨_, _, rsp_ntf K self b2 b3 rest hacc, rfl, rfl⟩

/-- Witness of C9: a response with sub-opcode `0x07` in a five-byte frame is
rejected, and the get-counters response `4F 43 09 02 00 01 c1 .. c6` is
handled. -/
theorem C9_handleVendorNciRspNtf_recognition_witness :
    ((((0x4F ≠ 0x4F ∧ 0x4F ≠ 0x6F) ∨ 0x43 ≠ 0x43 ∨
        ((0x4F :: 0x43 :: 0x02 :: 0x07 :: [0x00]).length > 4 ∧ 0x07 > 0x06)) ∧
      (sampleCard 2 1).handleVendorNciRspNtf sampleConstants
          (0x4F :: 0x43 :: 0x02 :: 0x07 :: [0x00]) =
        some { ret := sampleConstants.NFCSTATUS_EXTN_FEATURE_FAILURE, self := sampleCard 2 1,
               trace := [] })) ∧
    (¬ ((0x4F ≠ 0x4F ∧ 0x4F ≠ 0x6F) ∨ 0x43 ≠ 0x43 ∨
        ((0x4F :: 0x43 :: 0x09 :: 0x02 :: [0x00, 0x01, 1, 2, 3, 4, 5, 6]).length > 4 ∧
          0x02 > 0x06)) ∧
      ∃ r f, (sampleCard 2 1).handleVendorNciRspNtf sampleConstants
          (0x4F :: 0x43 :: 0x09 :: 0x02 :: [0x00, 0x01, 1, 2, 3, 4, 5, 6]) = some r ∧
        r.ret = sampleConstants.NFCSTATUS_EXTN_FEATURE_SUCCESS ∧ r.upstream = [f]) :=
  ⟨⟨by decide,
    (C9_handleVendorNciRspNtf_recognition sampleConstants (sampleCard 2 1)
      0x4F 0x43 0x02 0x07 [0x00]).1 (by decide)⟩,
   ⟨by decide,
    (C9_handleVendorNciRspNtf_recognition sampleConstants (sampleCard 2 1)
      0x4F 0x43 0x09 0x02 [0x00, 0x01, 1, 2, 3, 4, 5, 6]).2 (by decide)⟩⟩

/-- C10: failure response translation.  For every accepted firmware response
(byte 0 `0x4F`, byte 1 `0x43`, and byte 3 at most `0x06` when the frame is
longer than four bytes) whose status is non-zero, the status being byte 4 if
the frame is longer than four bytes and byte 3 otherwise,
`handleVendorNciRspNtf` emits upstream exactly
`[0x4F, NCI_ROW_MAINLINE_OID, 0x04, 0x50, 0x02, c, status]` with `c` the
singleton's `autoCardCmdType`; and `autoCardCmdType` is the sub-opcode that
`handleVendorNciMessage` records for every recognized host command. -/
theorem C10_failure_response_translation
    (K : NciConstants) (self : AutoCard) (b2 b3 status : Nat) (rest : List Nat)
    (hacc : (0x4F :: 0x43 :: b2 :: b3 :: rest).length > 4 → b3 ≤ 0x06)
    (hst : (0x4F :: 0x43 :: b2 :: b3 :: rest)[
      if (0x4F :: 0x43 :: b2 :: b3 :: rest).length > 4 then 4 else 3]? = some status)
    (hnz : status ≠ 0x00) :
    (∃ r, self.handleVendorNciRspNtf K (0x4F :: 0x43 :: b2 :: b3 :: rest) = some r ∧
      r.upstream =
        [[0x4F, K.NCI_ROW_MAINLINE_OID, 0x04, 0x50, 0x02, self.autoCardCmdType, status]]) ∧
    (∀ (env : Env) (prev : AutoCard) (l c : Nat) (tail : List Nat), c ≤ 0x08 →
      ∃ r, prev.handleVendorNciMessage K env
          (0x2F :: K.NCI_ROW_PROP_OID_VAL :: l :: 0x50 :: c :: tail) = some r ∧
        r.self.autoCardCmdType = c) := by
  have hacc' : rest ≠ [] → b3 ≤ 0x06 := by
    intro hne
    apply hacc
    cases rest with
    | nil => exact absurd rfl hne
    | cons b4 rest => simp
  refine ⟨⟨_, rsp_failure K self b2 b3 status rest hacc' hst hnz, ?_⟩, ?_⟩
  · simp [Outcome.upstream, framesOf, statusReply_eq]
  · intro env prev l c tail hc
    exact msg_records_sub_opcode K env prev l c tail hc

/-- Witness of C10: after an enable command (last sub-opcode `0x07`), the
firmware response `4F 43 02 01 05` with status `0x05` is answered upstream with
`4F 0C 04 50 02 07 05`. -/
theorem C10_failure_response_translation_witness :
    ((0x4F :: 0x43 :: 0x02 :: 0x01 :: [0x05]).length > 4 → 0x01 ≤ 0x06) ∧
    (0x4F :: 0x43 :: 0x02 :: 0x01 :: [0x05])[
      if (0x4F :: 0x43 :: 0x02 :: 0x01 :: [0x05]).length > 4 then 4 else 3]? = some 0x05 ∧
    0x05 ≠ 0x00 ∧
    (∃ r, (sampleCard 7 1).handleVendorNciRspNtf sampleConstants
        (0x4F :: 0x43 :: 0x02 :: 0x01 :: [0x05]) = some r ∧
      r.upstream =
        [[0x4F, sampleConstants.NCI_ROW_MAINLINE_OID, 0x04, 0x50, 0x02,
          (sampleCard 7 1).autoCardCmdType, 0x05]]) ∧
    (∀ (env : Env) (prev : AutoCard) (l c : Nat) (tail : List Nat), c ≤ 0x08 →
      ∃ r, prev.handleVendorNciMessage sampleConstants env
          (0x2F :: sampleConstants.NCI_ROW_PROP_OID_VAL :: l :: 0x50 :: c :: tail) = some r ∧
        r.self.autoCardCmdType = c) :=
  ⟨fun _ => by decide, rfl, by decide,
    C10_failure_response_translation sampleConstants (sampleCard 7 1) 0x02 0x01 0x05 [0x05]
      (fun _ => by decide) rfl (by decide)⟩

/-! ## Claims about short frames and the concrete scenario -/

/-- C11: notification re-wrapping.  For every accepted firmware notification
(byte 0 `0x6F`, byte 1 `0x43`, and byte 3 at most `0x06` when the frame is
longer than four bytes) `handleVendorNciRspNtf` emits upstream exactly one
frame: `[0x6F, NCI_ROW_MAINLINE_OID, (byte2 + 2) mod 256, 0x50]` followed by the
input bytes from index 2 to the end, so that the emitted bytes from index 5 on
are the input bytes from index 3 on; nothing is enqueued or sent and the
singleton is not modified. -/
theorem C11_notification_rewrapping
    (K : NciConstants) (self : AutoCard) (b2 : Nat) (rest : List Nat)
    (hacc : ∀ b3, (0x6F :: 0x43 :: b2 :: rest).length > 4 →
      (0x6F :: 0x43 :: b2 :: rest)[3]? = some b3 → b3 ≤ 0x06) :
    ∃ r, self.handleVendorNciRspNtf K (0x6F :: 0x43 :: b2 :: rest) = some r ∧
      r.upstream =
        [[0x6F, K.NCI_ROW_MAINLINE_OID, (b2 + 2) % 256, 0x50] ++
          (0x6F :: 0x43 :: b2 :: rest).drop 2] ∧
      ([0x6F, K.NCI_ROW_MAINLINE_OID, (b2 + 2) % 256, 0x50] ++
          (0x6F :: 0x43 :: b2 :: rest).drop 2).drop 5 =
        (0x6F :: 0x43 :: b2 :: rest).drop 3 ∧
      r.enqueued = [] ∧ r.sent = [] ∧ r.self = self ∧
      r.ret = K.NFCSTATUS_EXTN_FEATURE_SUCCESS := by
  cases rest with
  | nil =>
    refine ⟨{ ret := K.NFCSTATUS_EXTN_FEATURE_SUCCESS, self := self,
              trace := [⟨Call.NfcDataCallback,
                [0x6F, K.NCI_ROW_MAINLINE_OID, (b2 + 2) % 256, 0x50, b2], self⟩] },
      ?_, ?_, ?_, ?_, ?_, rfl, rfl⟩
    · simp [AutoCard.handleVendorNciRspNtf, rsp_prop, ntf_prop, NCI_GID_INDEX, NCI_OID_INDEX,
        AUTOCARD_FW_API_OID, AUTOCARD_STATUS_INDEX, NCI_MSG_LEN_INDEX,
        AUTOCARD_HEADER_LEN, AUTOCARD_FEATURE_SUB_GID, AUTOCARD_PAYLOAD_LEN]
    · simp [Outcome.upstream, framesOf]
    · simp
    · simp [Outcome.enqueued, framesOf]
    · simp [Outcome.sent, framesOf]
  | cons b3 rest =>
    have hacc' : rest ≠ [] → b3 ≤ 0x06 := by
      intro hne
      apply hacc b3
      · cases rest with
        | nil => exact absurd rfl hne
        | cons b4 rest => simp
      · simp
    refine ⟨_, rsp_ntf K self b2 b3 rest hacc', ?_, ?_, ?_, ?_, rfl, rfl⟩
    · simp [Outcome.upstream, framesOf]
    · simp
    · simp [Outcome.enqueued, framesOf]
    · simp [Outcome.sent, framesOf]

/-- Witness of C11: the notification `6F 43 03 05 AA BB` is forwarded as
`6F 0C 05 50 03 05 AA BB`. -/
theorem C11_notification_rewrapping_witness :
    (∀ b3, (0x6F :: 0x43 :: 0x03 :: [0x05, 0xAA, 0xBB]).length > 4 →
      (0x6F :: 0x43 :: 0x03 :: [0x05, 0xAA, 0xBB])[3]? = some b3 → b3 ≤ 0x06) ∧
    ∃ r, (sampleCard 7 1).handleVendorNciRspNtf sampleConstants
        (0x6F :: 0x43 :: 0x03 :: [0x05, 0xAA, 0xBB]) = some r ∧
      r.upstream =
        [[0x6F, sampleConstants.NCI_ROW_MAINLINE_OID, (0x03 + 2) % 256, 0x50] ++
          (0x6F :: 0x43 :: 0x03 :: [0x05, 0xAA, 0xBB]).drop 2] ∧
      ([0x6F, sampleConstants.NCI_ROW_MAINLINE_OID, (0x03 + 2) % 256, 0x50] ++
          (0x6F :: 0x43 :: 0x03 :: [0x05, 0xAA, 0xBB]).drop 2).drop 5 =
        (0x6F :: 0x43 :: 0x03 :: [0x05, 0xAA, 0xBB]).drop 3 ∧
      r.enqueued = [] ∧ r.sent = [] ∧ r.self = sampleCard 7 1 ∧
      r.ret = sampleConstants.NFCSTATUS_EXTN_FEATURE_SUCCESS :=
  ⟨fun b3 _ h => by simp at h; omega,
    C11_notification_rewrapping sampleConstants (sampleCard 7 1) 0x03 [0x05, 0xAA, 0xBB]
      (fun b3 _ h => by simp at h; omega)⟩

/-- C12, the code on frames of three bytes: `handleVendorNciMessage` on
`2F <prop> 00` passes the tests on bytes 0 and 1 and then reads byte 3, past
the end of the frame; `handleVendorNciRspNtf` on the response `4F 43 00` passes
its validation and then reads byte 3, past the end of the frame; and on the
notification `6F 43 00` it does not reject: it returns
`NFCSTATUS_EXTN_FEATURE_SUCCESS` and emits `6F <mainline> 02 50 00` upstream. -/
theorem C12_short_frames_not_rejected (K : NciConstants) (env : Env) (self : AutoCard) :
    self.handleVendorNciMessage K env [0x2F, K.NCI_ROW_PROP_OID_VAL, 0x00] = none ∧
    self.handleVendorNciRspNtf K [0x4F, 0x43, 0x00] = none ∧
    self.handleVendorNciRspNtf K [0x6F, 0x43, 0x00] =
      some
        { ret := K.NFCSTATUS_EXTN_FEATURE_SUCCESS
          self := self
          trace := [⟨Call.NfcDataCallback, [0x6F, K.NCI_ROW_MAINLINE_OID, 0x02, 0x50, 0x00],
            self⟩] } := by
  refine ⟨?_, ?_, ?_⟩
  · simp [AutoCard.handleVendorNciMessage, cmd_prop, NCI_GID_INDEX, NCI_OID_INDEX,
      NCI_MSG_INDEX_FOR_FEATURE]
  · simp [AutoCard.handleVendorNciRspNtf, rsp_prop, ntf_prop, NCI_GID_INDEX, NCI_OID_INDEX,
      AUTOCARD_FW_API_OID, AUTOCARD_STATUS_INDEX]
  · simp [AutoCard.handleVendorNciRspNtf, rsp_prop, ntf_prop, NCI_GID_INDEX, NCI_OID_INDEX,
      AUTOCARD_FW_API_OID, AUTOCARD_STATUS_INDEX, NCI_MSG_LEN_INDEX,
      AUTOCARD_HEADER_LEN, AUTOCARD_FEATURE_SUB_GID, AUTOCARD_PAYLOAD_LEN]

/-- C13 as stated fails: with byte 1 `0x50` taken as the vendor dispatch opcode
and an unsupported chip, the frame `2F 50 01 07` is rejected, because its byte 3
is `0x07` and not the sub-feature id `0x50`; nothing is emitted upstream. -/
theorem C13_scenario_frame_rejected :
    (sampleCard 0 0).handleVendorNciMessage scenarioConstants
        (sampleEnv (ChipType.other 0) (some 0x01) 0) [0x2F, 0x50, 0x01, 0x07] =
      some { ret := scenarioConstants.NFCSTATUS_EXTN_FEATURE_FAILURE, self := sampleCard 0 0,
             trace := [] } := by
  decide

/-- C13, amended: on a chip where the AutoCard feature is unsupported, the
five-byte host frame `2F <prop> 02 50 07` (sub-feature id `0x50`, enable, no
trailing status byte) makes the handler emit upstream exactly
`4F <mainline> 04 50 02 07 0D`; the four-byte frame `2F 50 01 07` is rejected
as not handled, whatever the vendor dispatch opcode is, and nothing is
emitted. -/
theorem C13_unsupported_enable_scenario
    (K : NciConstants) (env : Env) (self : AutoCard)
    (hchip : env.chipType ≠ ChipType.sn220u) :
    (∃ r, self.handleVendorNciMessage K env [0x2F, K.NCI_ROW_PROP_OID_VAL, 0x02, 0x50, 0x07] =
        some r ∧
      r.upstream = [[0x4F, K.NCI_ROW_MAINLINE_OID, 0x04, 0x50, 0x02, 0x07, 0x0D]] ∧
      r.enqueued = [] ∧ r.sent = []) ∧
    self.handleVendorNciMessage K env [0x2F, 0x50, 0x01, 0x07] =
      some { ret := K.NFCSTATUS_EXTN_FEATURE_FAILURE, self := self, trace := [] } := by
  constructor
  · refine ⟨_, msg_unsupported K env self 0x02 0x07 [] (by decide) hchip, ?_, ?_, ?_⟩ <;>
      simp [Outcome.upstream, Outcome.enqueued, Outcome.sent, framesOf, statusReply_eq]
  · simp [AutoCard.handleVendorNciMessage, cmd_prop, NCI_GID_INDEX, NCI_OID_INDEX,
      NCI_MSG_INDEX_FOR_FEATURE, AUTOCARD_FEATURE_SUB_GID]

/-- Witness of the amended C13, on an `sn300u` chip. -/
theorem C13_unsupported_enable_scenario_witness :
    (sampleEnv ChipType.sn300u (some 0x01) 0).chipType ≠ ChipType.sn220u ∧
    (∃ r, (sampleCard 0 0).handleVendorNciMessage sampleConstants
        (sampleEnv ChipType.sn300u (some 0x01) 0)
        [0x2F, sampleConstants.NCI_ROW_PROP_OID_VAL, 0x02, 0x50, 0x07] = some r ∧
      r.upstream = [[0x4F, sampleConstants.NCI_ROW_MAINLINE_OID, 0x04, 0x50, 0x02, 0x07, 0x0D]] ∧
      r.enqueued = [] ∧ r.sent = []) ∧
    (sampleCard 0 0).handleVendorNciMessage sampleConstants
        (sampleEnv ChipType.sn300u (some 0x01) 0) [0x2F, 0x50, 0x01, 0x07] =
      some { ret := sampleConstants.NFCSTATUS_EXTN_FEATURE_FAILURE, self := sampleCard 0 0,
             trace := [] } :=
  ⟨by decide,
    C13_unsupported_enable_scenario sampleConstants (sampleEnv ChipType.sn300u (some 0x01) 0)
      (sampleCard 0 0) (by decide)⟩

/-! ## Claims about `AutoCard::phNxpNciHal_getAutoCardConfig` -/

/-- C14: startup reconciliation, when enabled (supported chip, selection mode
`0x01`), with a valid get-counters response (status success, 12 bytes, byte 3
`0x02`) and a configured counter target of 6 bytes: the number of set-counters
commands (sent frames with sub-opcode `0x01` at byte 3) is 0 if the fetched
counters (response bytes 6..11) equal the configured ones and exactly 1 if
they differ; in the equal case the mirrored counters are the fetched ones. -/
theorem C14_set_counters_issued_iff_differ
    (env : ConfigEnv) (self : AutoCard) (h0 h1 h2 st e c1 c2 c3 c4 c5 c6 : Nat)
    (cfg : List Nat)
    (hchip : env.chipType = ChipType.sn220u ∨ env.chipType = ChipType.sn300u)
    (hsel : env.NXP_AUTOCARD_SELECTION_PHONE_OFF = some 0x01)
    (hget : env.phNxpNciHal_send_ext_cmd 0 [0x2F, 0x43, 0x01, 0x02] =
      (NFCSTATUS_SUCCESS, [h0, h1, h2, 0x02, st, e, c1, c2, c3, c4, c5, c6]))
    (hcfg : env.NXP_AUTOCARD_COUNTERS = some cfg) (hlen : cfg.length = 6) :
    (([c1, c2, c3, c4, c5, c6] = cfg →
        ((self.phNxpNciHal_getAutoCardConfig env).sent.filter
          (fun f => f[3]? == some 0x01)).length = 0 ∧
        (self.phNxpNciHal_getAutoCardConfig env).self.mAutoCardCounters =
          [c1, c2, c3, c4, c5, c6]) ∧
      ([c1, c2, c3, c4, c5, c6] ≠ cfg →
        ((self.phNxpNciHal_getAutoCardConfig env).sent.filter
          (fun f => f[3]? == some 0x01)).length = 1)) := by
  constructor
  · intro heq
    subst heq
    rw [config_counters_kept env self h0 h1 h2 st e c1 c2 c3 c4 c5 c6 hchip hsel hget hcfg,
      reconcileTimer_set_counters, reconcileTimer_self]
    simp [framesOf]
  · intro hne
    rw [config_counters_pushed env self h0 h1 h2 st e c1 c2 c3 c4 c5 c6 cfg hchip hsel hget
      hcfg hlen (fun h => hne h.symm), reconcileTimer_set_counters]
    simp [framesOf]

/-- Witness of C14: fetched counters `[1,2,3,4,5,6]` with configured
`[1,2,3,4,5,6]` issue zero set-counters commands. -/
theorem C14_set_counters_issued_iff_differ_witness :
    ((sampleConfigEnv (some [1, 2, 3, 4, 5, 6]) none
          (0, [0x4F, 0x43, 0x09, 0x02, 0x00, 0x01, 1, 2, 3, 4, 5, 6]) (0, []) 0).chipType =
        ChipType.sn220u ∨
      (sampleConfigEnv (some [1, 2, 3, 4, 5, 6]) none
          (0, [0x4F, 0x43, 0x09, 0x02, 0x00, 0x01, 1, 2, 3, 4, 5, 6]) (0, []) 0).chipType =
        ChipType.sn300u) ∧
    (sampleConfigEnv (some [1, 2, 3, 4, 5, 6]) none
        (0, [0x4F, 0x43, 0x09, 0x02, 0x00, 0x01, 1, 2, 3, 4, 5, 6]) (0, []) 0
      ).NXP_AUTOCARD_SELECTION_PHONE_OFF = some 0x01 ∧
    (sampleConfigEnv (some [1, 2, 3, 4, 5, 6]) none
        (0, [0x4F, 0x43, 0x09, 0x02, 0x00, 0x01, 1, 2, 3, 4, 5, 6]) (0, []) 0
      ).phNxpNciHal_send_ext_cmd 0 [0x2F, 0x43, 0x01, 0x02] =
      (NFCSTATUS_SUCCESS, [0x4F, 0x43, 0x09, 0x02, 0x00, 0x01, 1, 2, 3, 4, 5, 6]) ∧
    (sampleConfigEnv (some [1, 2, 3, 4, 5, 6]) none
        (0, [0x4F, 0x43, 0x09, 0x02, 0x00, 0x01, 1, 2, 3, 4, 5, 6]) (0, []) 0
      ).NXP_AUTOCARD_COUNTERS = some [1, 2, 3, 4, 5, 6] ∧
    [1, 2, 3, 4, 5, 6].length = 6 ∧
    (([1, 2, 3, 4, 5, 6] = [1, 2, 3, 4, 5, 6] →
        ((AutoCard.new.phNxpNciHal_getAutoCardConfig
            (sampleConfigEnv (some [1, 2, 3, 4, 5, 6]) none
              (0, [0x4F, 0x43, 0x09, 0x02, 0x00, 0x01, 1, 2, 3, 4, 5, 6]) (0, []) 0)).sent.filter
          (fun f => f[3]? == some 0x01)).length = 0 ∧
        (AutoCard.new.phNxpNciHal_getAutoCardConfig
            (sampleConfigEnv (some [1, 2, 3, 4, 5, 6]) none
              (0, [0x4F, 0x43, 0x09, 0x02, 0x00, 0x01, 1, 2, 3, 4, 5, 6]) (0, []) 0)
          ).self.mAutoCardCounters = [1, 2, 3, 4, 5, 6]) ∧
      ([1, 2, 3, 4, 5, 6] ≠ [1, 2, 3, 4, 5, 6] →
        ((AutoCard.new.phNxpNciHal_getAutoCardConfig
            (sampleConfigEnv (some [1, 2, 3, 4, 5, 6]) none
              (0, [0x4F, 0x43, 0x09, 0x02, 0x00, 0x01, 1, 2, 3, 4, 5, 6]) (0, []) 0)).sent.filter
          (fun f => f[3]? == some 0x01)).length = 1)) :=
  ⟨Or.inl rfl, rfl, rfl, rfl, rfl,
    C14_set_counters_issued_iff_differ
      (sampleConfigEnv (some [1, 2, 3, 4, 5, 6]) none
        (0, [0x4F, 0x43, 0x09, 0x02, 0x00, 0x01, 1, 2, 3, 4, 5, 6]) (0, []) 0)
      AutoCard.new 0x4F 0x43 0x09 0x00 0x01 1 2 3 4 5 6 [1, 2, 3, 4, 5, 6]
      (Or.inl rfl) rfl rfl rfl rfl⟩

/-- C15: startup reconciliation with differing counters.  The one set-counters
command sent is the 11-byte frame `[0x2F, 0x43, 0x08, 0x01, e]` followed by the
6 configured counter bytes, with `e` the enable status fetched in the
get-counters response (byte 5); it is the second command of the run.  If it
succeeds the mirrored counters become the configured ones, if it fails they
remain the fetched ones; in both cases the mirrored enable status is `e`. -/
theorem C15_set_counters_command
    (env : ConfigEnv) (self : AutoCard) (h0 h1 h2 st e c1 c2 c3 c4 c5 c6 : Nat)
    (cfg : List Nat)
    (hchip : env.chipType = ChipType.sn220u ∨ env.chipType = ChipType.sn300u)
    (hsel : env.NXP_AUTOCARD_SELECTION_PHONE_OFF = some 0x01)
    (hget : env.phNxpNciHal_send_ext_cmd 0 [0x2F, 0x43, 0x01, 0x02] =
      (NFCSTATUS_SUCCESS, [h0, h1, h2, 0x02, st, e, c1, c2, c3, c4, c5, c6]))
    (hcfg : env.NXP_AUTOCARD_COUNTERS = some cfg) (hlen : cfg.length = 6)
    (hne : [c1, c2, c3, c4, c5, c6] ≠ cfg) :
    (self.phNxpNciHal_getAutoCardConfig env).sent.filter (fun f => f[3]? == some 0x01) =
      [[0x2F, 0x43, 0x08, 0x01, e] ++ cfg] ∧
    (self.phNxpNciHal_getAutoCardConfig env).sent[1]? = some ([0x2F, 0x43, 0x08, 0x01, e] ++ cfg) ∧
    ([0x2F, 0x43, 0x08, 0x01, e] ++ cfg).length = 11 ∧
    ((env.phNxpNciHal_send_ext_cmd 1 ([0x2F, 0x43, 0x08, 0x01, e] ++ cfg)).1 =
        NFCSTATUS_SUCCESS →
      (self.phNxpNciHal_getAutoCardConfig env).self.mAutoCardCounters = cfg) ∧
    ((env.phNxpNciHal_send_ext_cmd 1 ([0x2F, 0x43, 0x08, 0x01, e] ++ cfg)).1 ≠
        NFCSTATUS_SUCCESS →
      (self.phNxpNciHal_getAutoCardConfig env).self.mAutoCardCounters =
        [c1, c2, c3, c4, c5, c6]) ∧
    (self.phNxpNciHal_getAutoCardConfig env).self.mAutoCardEnableStatus = e := by
  have hrun := config_counters_pushed env self h0 h1 h2 st e c1 c2 c3 c4 c5 c6 cfg hchip hsel
    hget hcfg hlen (fun h => hne h.symm)
  refine ⟨?_, ?_, ?_, ?_, ?_, ?_⟩
  · rw [hrun, reconcileTimer_set_counters]
    simp [framesOf]
  · rw [hrun]
    cases h : env.NXP_AUTOCARD_TIMER_VALUE with
    | none => rw [reconcileTimer_absent _ _ _ (Or.inl h)]; rfl
    | some v =>
      by_cases hv : v = 0
      · subst hv
        rw [reconcileTimer_absent _ _ _ (Or.inr h)]; rfl
      · rw [reconcileTimer_sent _ _ _ v h hv]
        simp [framesOf]
  · simp [hlen]
  · intro hok
    rw [hrun, reconcileTimer_self]
    simp only [if_pos hok]
  · intro hfail
    rw [hrun, reconcileTimer_self]
    simp only [if_neg hfail]
  · rw [hrun, reconcileTimer_self]

/-- Witness of C15: hardware counters `[1,2,3,4,5,6]`, configured counters
`[1,2,3,4,5,7]`; the command `2F 43 08 01 01 01 02 03 04 05 07` is sent. -/
theorem C15_set_counters_command_witness :
    (sampleReconcileEnv.chipType = ChipType.sn220u ∨
      sampleReconcileEnv.chipType = ChipType.sn300u) ∧
    sampleReconcileEnv.NXP_AUTOCARD_SELECTION_PHONE_OFF = some 0x01 ∧
    sampleReconcileEnv.phNxpNciHal_send_ext_cmd 0 [0x2F, 0x43, 0x01, 0x02] =
      (NFCSTATUS_SUCCESS, [0x4F, 0x43, 0x09, 0x02, 0x00, 0x01, 1, 2, 3, 4, 5, 6]) ∧
    sampleReconcileEnv.NXP_AUTOCARD_COUNTERS = some [1, 2, 3, 4, 5, 7] ∧
    [1, 2, 3, 4, 5, 7].length = 6 ∧
    [1, 2, 3, 4, 5, 6] ≠ [1, 2, 3, 4, 5, 7] ∧
    (AutoCard.new.phNxpNciHal_getAutoCardConfig sampleReconcileEnv).sent.filter
        (fun f => f[3]? == some 0x01) =
      [[0x2F, 0x43, 0x08, 0x01, 0x01] ++ [1, 2, 3, 4, 5, 7]] ∧
    (AutoCard.new.phNxpNciHal_getAutoCardConfig sampleReconcileEnv).sent[1]? =
      some ([0x2F, 0x43, 0x08, 0x01, 0x01] ++ [1, 2, 3, 4, 5, 7]) ∧
    ([0x2F, 0x43, 0x08, 0x01, 0x01] ++ [1, 2, 3, 4, 5, 7]).length = 11 ∧
    ((sampleReconcileEnv.phNxpNciHal_send_ext_cmd 1
          ([0x2F, 0x43, 0x08, 0x01, 0x01] ++ [1, 2, 3, 4, 5, 7])).1 = NFCSTATUS_SUCCESS →
      (AutoCard.new.phNxpNciHal_getAutoCardConfig sampleReconcileEnv).self.mAutoCardCounters =
        [1, 2, 3, 4, 5, 7]) ∧
    ((sampleReconcileEnv.phNxpNciHal_send_ext_cmd 1
          ([0x2F, 0x43, 0x08, 0x01, 0x01] ++ [1, 2, 3, 4, 5, 7])).1 ≠ NFCSTATUS_SUCCESS →
      (AutoCard.new.phNxpNciHal_getAutoCardConfig sampleReconcileEnv).self.mAutoCardCounters =
        [1, 2, 3, 4, 5, 6]) ∧
    (AutoCard.new.phNxpNciHal_getAutoCardConfig sampleReconcileEnv).self.mAutoCardEnableStatus =
      0x01 :=
  ⟨Or.inl rfl, rfl, rfl, rfl, rfl, by decide,
    C15_set_counters_command sampleReconcileEnv AutoCard.new 0x4F 0x43 0x09 0x00 0x01
      1 2 3 4 5 6 [1, 2, 3, 4, 5, 7] (Or.inl rfl) rfl rfl rfl rfl (by decide)⟩

/-- C16: reconciliation gating.  If the chip is neither `sn220u` nor `sn300u`,
or the selection-mode setting is absent, or its value is not `0x01`, then
`phNxpNciHal_getAutoCardConfig` makes no call at all (zero hardware commands)
and leaves the singleton, in particular the mirrored enable status and
counters, unchanged. -/
theorem C16_reconciliation_gating (env : ConfigEnv) (self : AutoCard)
    (h : (env.chipType ≠ ChipType.sn220u ∧ env.chipType ≠ ChipType.sn300u) ∨
      env.NXP_AUTOCARD_SELECTION_PHONE_OFF = none ∨
      ∃ m, env.NXP_AUTOCARD_SELECTION_PHONE_OFF = some m ∧ m ≠ 0x01) :
    (self.phNxpNciHal_getAutoCardConfig env).sent = [] ∧
    (self.phNxpNciHal_getAutoCardConfig env).trace = [] ∧
    (self.phNxpNciHal_getAutoCardConfig env).self.mAutoCardEnableStatus =
      self.mAutoCardEnableStatus ∧
    (self.phNxpNciHal_getAutoCardConfig env).self.mAutoCardCounters =
      self.mAutoCardCounters := by
  rw [config_gated env self h]
  exact ⟨rfl, rfl, rfl, rfl⟩

/-- Witness of C16: the sample run on a chip that is neither `sn220u` nor
`sn300u`. -/
theorem C16_reconciliation_gating_witness :
    (({ sampleReconcileEnv with chipType := ChipType.other 0 }.chipType ≠ ChipType.sn220u ∧
        { sampleReconcileEnv with chipType := ChipType.other 0 }.chipType ≠ ChipType.sn300u) ∨
      { sampleReconcileEnv with chipType := ChipType.other 0
        }.NXP_AUTOCARD_SELECTION_PHONE_OFF = none ∨
      ∃ m, { sampleReconcileEnv with chipType := ChipType.other 0
        }.NXP_AUTOCARD_SELECTION_PHONE_OFF = some m ∧ m ≠ 0x01) ∧
    ((sampleCard 0 1).phNxpNciHal_getAutoCardConfig
        { sampleReconcileEnv with chipType := ChipType.other 0 }).sent = [] ∧
    ((sampleCard 0 1).phNxpNciHal_getAutoCardConfig
        { sampleReconcileEnv with chipType := ChipType.other 0 }).trace = [] ∧
    ((sampleCard 0 1).phNxpNciHal_getAutoCardConfig
        { sampleReconcileEnv with chipType := ChipType.other 0 }).self.mAutoCardEnableStatus =
      (sampleCard 0 1).mAutoCardEnableStatus ∧
    ((sampleCard 0 1).phNxpNciHal_getAutoCardConfig
        { sampleReconcileEnv with chipType := ChipType.other 0 }).self.mAutoCardCounters =
      (sampleCard 0 1).mAutoCardCounters :=
  ⟨Or.inl ⟨by decide, by decide⟩,
    C16_reconciliation_gating { sampleReconcileEnv with chipType := ChipType.other 0 }
      (sampleCard 0 1) (Or.inl ⟨by decide, by decide⟩)⟩

/-- C17: timer reconciliation, once counter reconciliation has run (supported
chip, selection mode `0x01`, valid get-counters response).  Compared with the
same run without a configured timer, whose commands are all counter commands:
the singleton is the same, so no timer command changes mirrored state; if no
timer value is configured or it is zero, no further command is sent; otherwise
exactly one get-timer command `[0x2F, 0x43, 0x01, 0x08]` follows, and after it
the set-timer command `[0x2F, 0x43, 0x02, 0x07, v]` if and only if the
get-timer response is valid (status success, 6 bytes, byte 3 `0x08`, byte 4
`0x00`) and its byte 5 differs from `v`. -/
theorem C17_timer_reconciliation
    (env : ConfigEnv) (self : AutoCard) (rsp : List Nat)
    (hchip : env.chipType = ChipType.sn220u ∨ env.chipType = ChipType.sn300u)
    (hsel : env.NXP_AUTOCARD_SELECTION_PHONE_OFF = some 0x01)
    (hget : env.phNxpNciHal_send_ext_cmd 0 [0x2F, 0x43, 0x01, 0x02] = (NFCSTATUS_SUCCESS, rsp))
    (hlen : rsp.length = 12) (hsub : rsp[3]? = some 0x02) :
    (self.phNxpNciHal_getAutoCardConfig env).self =
      (self.phNxpNciHal_getAutoCardConfig { env with NXP_AUTOCARD_TIMER_VALUE := none }).self ∧
    (∀ f ∈ (self.phNxpNciHal_getAutoCardConfig
          { env with NXP_AUTOCARD_TIMER_VALUE := none }).sent,
      f[3]? = some 0x02 ∨ f[3]? = some 0x01) ∧
    ((env.NXP_AUTOCARD_TIMER_VALUE = none ∨ env.NXP_AUTOCARD_TIMER_VALUE = some 0) →
      (self.phNxpNciHal_getAutoCardConfig env).sent =
        (self.phNxpNciHal_getAutoCardConfig
          { env with NXP_AUTOCARD_TIMER_VALUE := none }).sent) ∧
    (∀ v, env.NXP_AUTOCARD_TIMER_VALUE = some v → v ≠ 0 →
      ∃ answer,
        answer = env.phNxpNciHal_send_ext_cmd
          (self.phNxpNciHal_getAutoCardConfig
            { env with NXP_AUTOCARD_TIMER_VALUE := none }).sent.length
          [0x2F, 0x43, 0x01, 0x08] ∧
        (self.phNxpNciHal_getAutoCardConfig env).sent =
          (self.phNxpNciHal_getAutoCardConfig
              { env with NXP_AUTOCARD_TIMER_VALUE := none }).sent ++
            [0x2F, 0x43, 0x01, 0x08] ::
              (if answer.1 = NFCSTATUS_SUCCESS ∧ answer.2.length = 6 ∧
                    answer.2[3]? = some 0x08 ∧ answer.2[4]? = some 0x00 ∧
                    answer.2[5]? ≠ some v
                then [[0x2F, 0x43, 0x02, 0x07, v]] else [])) := by
  have hsplit := config_timer_split env self rsp hchip hsel hget hlen hsub
  have hphase := config_counter_phase env self rsp hchip hsel hget hlen hsub
  refine ⟨?_, hphase.2, ?_, ?_⟩
  · rw [hsplit, reconcileTimer_self]
  · intro habs
    rw [hsplit, reconcileTimer_absent env _ _ habs]
  · intro v hv hv0
    refine ⟨_, rfl, ?_⟩
    rw [hsplit, reconcileTimer_sent env _ _ v hv hv0, hphase.1]
    rfl

/-- Witness of C17: the sample run (configured timer `0x05`, hardware timer
`0x04`). -/
theorem C17_timer_reconciliation_witness :
    (sampleReconcileEnv.chipType = ChipType.sn220u ∨
      sampleReconcileEnv.chipType = ChipType.sn300u) ∧
    sampleReconcileEnv.NXP_AUTOCARD_SELECTION_PHONE_OFF = some 0x01 ∧
    sampleReconcileEnv.phNxpNciHal_send_ext_cmd 0 [0x2F, 0x43, 0x01, 0x02] =
      (NFCSTATUS_SUCCESS, [0x4F, 0x43, 0x09, 0x02, 0x00, 0x01, 1, 2, 3, 4, 5, 6]) ∧
    [0x4F, 0x43, 0x09, 0x02, 0x00, 0x01, 1, 2, 3, 4, 5, 6].length = 12 ∧
    [0x4F, 0x43, 0x09, 0x02, 0x00, 0x01, 1, 2, 3, 4, 5, 6][3]? = some 0x02 ∧
    (AutoCard.new.phNxpNciHal_getAutoCardConfig sampleReconcileEnv).self =
      (AutoCard.new.phNxpNciHal_getAutoCardConfig
        { sampleReconcileEnv with NXP_AUTOCARD_TIMER_VALUE := none }).self ∧
    (∀ f ∈ (AutoCard.new.phNxpNciHal_getAutoCardConfig
          { sampleReconcileEnv with NXP_AUTOCARD_TIMER_VALUE := none }).sent,
      f[3]? = some 0x02 ∨ f[3]? = some 0x01) ∧
    ((sampleReconcileEnv.NXP_AUTOCARD_TIMER_VALUE = none ∨
        sampleReconcileEnv.NXP_AUTOCARD_TIMER_VALUE = some 0) →
      (AutoCard.new.phNxpNciHal_getAutoCardConfig sampleReconcileEnv).sent =
        (AutoCard.new.phNxpNciHal_getAutoCardConfig
          { sampleReconcileEnv with NXP_AUTOCARD_TIMER_VALUE := none }).sent) ∧
    (∀ v, sampleReconcileEnv.NXP_AUTOCARD_TIMER_VALUE = some v → v ≠ 0 →
      ∃ answer,
        answer = sampleReconcileEnv.phNxpNciHal_send_ext_cmd
          (AutoCard.new.phNxpNciHal_getAutoCardConfig
            { sampleReconcileEnv with NXP_AUTOCARD_TIMER_VALUE := none }).sent.length
          [0x2F, 0x43, 0x01, 0x08] ∧
        (AutoCard.new.phNxpNciHal_getAutoCardConfig sampleReconcileEnv).sent =
          (AutoCard.new.phNxpNciHal_getAutoCardConfig
              { sampleReconcileEnv with NXP_AUTOCARD_TIMER_VALUE := none }).sent ++
            [0x2F, 0x43, 0x01, 0x08] ::
              (if answer.1 = NFCSTATUS_SUCCESS ∧ answer.2.length = 6 ∧
                    answer.2[3]? = some 0x08 ∧ answer.2[4]? = some 0x00 ∧
                    answer.2[5]? ≠ some v
                then [[0x2F, 0x43, 0x02, 0x07, v]] else [])) :=
  ⟨Or.inl rfl, rfl, rfl, rfl, rfl,
    C17_timer_reconciliation sampleReconcileEnv AutoCard.new
      [0x4F, 0x43, 0x09, 0x02, 0x00, 0x01, 1, 2, 3, 4, 5, 6] (Or.inl rfl) rfl rfl rfl rfl⟩

end AutoCardModel

namespace ObserveModeModel

open AutoCardModel (NFCSTATUS_SUCCESS NCI_GID_INDEX NCI_OID_INDEX NCI_MSG_LEN_INDEX
  NCI_MSG_INDEX_FOR_FEATURE)

/-! ## Helper lemmas: traces -/

theorem sentOf_append (a b : List ObserveEvent) : sentOf (a ++ b) = sentOf a ++ sentOf b := by
  induction a with
  | nil => rfl
  | cons e t ih => cases e <;> simp [sentOf, ih]

theorem enqueuedOf_append (a b : List ObserveEvent) :
    enqueuedOf (a ++ b) = enqueuedOf a ++ enqueuedOf b := by
  induction a with
  | nil => rfl
  | cons e t ih => cases e <;> simp [enqueuedOf, ih]

theorem acksOf_append (a b : List ObserveEvent) : acksOf (a ++ b) = acksOf a ++ acksOf b := by
  induction a with
  | nil => rfl
  | cons e t ih => cases e <;> simp [acksOf, ih]

/-- The frame reads of `handleObserveModeTechCommand` on a frame of at least
five bytes: the handler is the acknowledgement appended to the run of lines
229-282. -/
theorem tech_command_frame5 (C : ObserveConstants) (env : ObserveEnv) (s : ObserveState)
    (b0 b1 b2 b3 t : Nat) (rest : List Nat)
    (hsup : env.phNxpNciHal_isObserveModeSupported = true)
    (hvalid : t &&& C.OBSERVE_MODE_TECH_COMMAND_SUPPORT_FLAG_FOR_ALL_TECH ≠ 0 ∨
      t = C.NCI_ANDROID_PASSIVE_OBSERVE_PARAM_DISABLE) :
    handleObserveModeTechCommand C env s (b0 :: b1 :: b2 :: b3 :: t :: rest) =
      some
        { ret := b2
          state := (afterDeactivate C env (b0 :: b1 :: b2 :: b3 :: t :: rest) t
            (decide (t &&& C.OBSERVE_MODE_TECH_COMMAND_SUPPORT_FLAG_FOR_ALL_TECH ≠ 0))
            (deactivateRfDiscovery env { state := s, trace := [] }).1
            (deactivateRfDiscovery env { state := s, trace := [] }).2).2.state
          trace := (afterDeactivate C env (b0 :: b1 :: b2 :: b3 :: t :: rest) t
            (decide (t &&& C.OBSERVE_MODE_TECH_COMMAND_SUPPORT_FLAG_FOR_ALL_TECH ≠ 0))
            (deactivateRfDiscovery env { state := s, trace := [] }).1
            (deactivateRfDiscovery env { state := s, trace := [] }).2).2.trace ++
            [ObserveEvent.vendorSpecificCallback b1 b3
              [(afterDeactivate C env (b0 :: b1 :: b2 :: b3 :: t :: rest) t
                (decide (t &&& C.OBSERVE_MODE_TECH_COMMAND_SUPPORT_FLAG_FOR_ALL_TECH ≠ 0))
                (deactivateRfDiscovery env { state := s, trace := [] }).1
                (deactivateRfDiscovery env { state := s, trace := [] }).2).1]] } := by
  have hv : (¬ t &&& C.OBSERVE_MODE_TECH_COMMAND_SUPPORT_FLAG_FOR_ALL_TECH = 0) ∨
      t = C.NCI_ANDROID_PASSIVE_OBSERVE_PARAM_DISABLE := hvalid
  simp [handleObserveModeTechCommand, NCI_MSG_INDEX_FEATURE_VALUE, NCI_OID_INDEX,
    NCI_MSG_INDEX_FOR_FEATURE, NCI_MSG_LEN_INDEX, hsup, hv]

/-! ## Claims about `handleObserveModeTechCommand` -/

/-- The command sequence of `handleObserveModeTechCommand` with an active
session, the deactivate command written as the constant `rf_deactivate_cmd`. -/
theorem tech_command_sequence_of_constant
    (C : ObserveConstants) (env : ObserveEnv) (s : ObserveState)
    (b0 b1 b2 b3 t : Nat) (rest : List Nat)
    (hsup : env.phNxpNciHal_isObserveModeSupported = true)
    (hvalid : t &&& C.OBSERVE_MODE_TECH_COMMAND_SUPPORT_FLAG_FOR_ALL_TECH ≠ 0 ∨
      t = C.NCI_ANDROID_PASSIVE_OBSERVE_PARAM_DISABLE)
    (hactive : s.builder.rfDiscoveryReceived = true) :
    ∃ r, handleObserveModeTechCommand C env s (b0 :: b1 :: b2 :: b3 :: t :: rest) = some r ∧
      (env.phNxpNciHal_send_ext_cmd 0 rf_deactivate_cmd ≠ NFCSTATUS_SUCCESS →
        r.sent = [rf_deactivate_cmd] ∧
        r.state.bIsObserveModeEnabled = s.bIsObserveModeEnabled) ∧
      (env.phNxpNciHal_send_ext_cmd 0 rf_deactivate_cmd = NFCSTATUS_SUCCESS →
        (t &&& C.OBSERVE_MODE_TECH_COMMAND_SUPPORT_FLAG_FOR_ALL_TECH ≠ 0 ∧
          t ≠ s.builder.currentObserveModeTechValue) →
        ∃ disc recovery,
          disc =
            (if env.phNxpNciHal_send_ext_cmd 1 (b0 :: b1 :: b2 :: b3 :: t :: rest) =
                NFCSTATUS_SUCCESS
              then env.reConfigRFDiscCmd { s.builder with currentObserveModeTechValue := t }
              else env.getDiscoveryCommand { s.builder with currentObserveModeTechValue := t }) ∧
          r.sent = rf_deactivate_cmd :: (b0 :: b1 :: b2 :: b3 :: t :: rest) :: disc :: recovery ∧
          r.state.bIsObserveModeEnabled =
            (if env.phNxpNciHal_send_ext_cmd 1 (b0 :: b1 :: b2 :: b3 :: t :: rest) =
                  NFCSTATUS_SUCCESS ∧
                env.phNxpNciHal_send_ext_cmd 2 disc = NFCSTATUS_SUCCESS
              then true else s.bIsObserveModeEnabled)) ∧
      (env.phNxpNciHal_send_ext_cmd 0 rf_deactivate_cmd = NFCSTATUS_SUCCESS →
        ¬ (t &&& C.OBSERVE_MODE_TECH_COMMAND_SUPPORT_FLAG_FOR_ALL_TECH ≠ 0 ∧
          t ≠ s.builder.currentObserveModeTechValue) →
        ∃ disc recovery,
          disc =
            (if t &&& C.OBSERVE_MODE_TECH_COMMAND_SUPPORT_FLAG_FOR_ALL_TECH ≠ 0
              then env.reConfigRFDiscCmd s.builder
              else env.getDiscoveryCommand s.builder) ∧
          r.sent = rf_deactivate_cmd :: disc :: recovery ∧
          r.state.bIsObserveModeEnabled =
            (if env.phNxpNciHal_send_ext_cmd 1 disc = NFCSTATUS_SUCCESS
              then decide (t &&& C.OBSERVE_MODE_TECH_COMMAND_SUPPORT_FLAG_FOR_ALL_TECH ≠ 0)
              else s.bIsObserveModeEnabled)) := by
  refine ⟨_, tech_command_frame5 C env s b0 b1 b2 b3 t rest hsup hvalid, ?_, ?_, ?_⟩
  · intro hd
    simp [ObserveOutcome.sent, afterDeactivate, deactivateRfDiscovery, send_ext_cmd, hactive,
      sentOf, sentOf_append, hd]
  · intro hd htech
    obtain ⟨w1, w2, en, cip, ⟨recv, cur⟩⟩ := s
    simp only at hactive
    subst hactive
    by_cases h1 : env.phNxpNciHal_send_ext_cmd 1 (b0 :: b1 :: b2 :: b3 :: t :: rest) =
        NFCSTATUS_SUCCESS
    · by_cases h2 : env.phNxpNciHal_send_ext_cmd 2
          (env.reConfigRFDiscCmd { rfDiscoveryReceived := true, currentObserveModeTechValue := t }) =
          NFCSTATUS_SUCCESS
      · refine ⟨_, [], rfl, ?_, ?_⟩ <;>
          simp_all [ObserveOutcome.sent, afterDeactivate, deactivateRfDiscovery,
            sendRfDiscoveryCommand, send_ext_cmd, setObserveModePerTech, setObserveModeFlag,
            sentOf, sentOf_append]
      · refine ⟨_, [rf_deactivate_cmd,
            env.getDiscoveryCommand
              { rfDiscoveryReceived := true, currentObserveModeTechValue := t }],
          rfl, ?_, ?_⟩ <;>
          simp_all [ObserveOutcome.sent, afterDeactivate, deactivateRfDiscovery,
            sendRfDiscoveryCommand, send_ext_cmd, setObserveModePerTech, setObserveModeFlag,
            sentOf, sentOf_append]
    · by_cases h2 : env.phNxpNciHal_send_ext_cmd 2
          (env.getDiscoveryCommand
            { rfDiscoveryReceived := true, currentObserveModeTechValue := t }) =
          NFCSTATUS_SUCCESS
      · refine ⟨_, [], rfl, ?_, ?_⟩ <;>
          simp_all [ObserveOutcome.sent, afterDeactivate, deactivateRfDiscovery,
            sendRfDiscoveryCommand, send_ext_cmd, setObserveModePerTech, setObserveModeFlag,
            sentOf, sentOf_append]
      · refine ⟨_, [rf_deactivate_cmd,
            env.getDiscoveryCommand
              { rfDiscoveryReceived := true, currentObserveModeTechValue := t }],
          rfl, ?_, ?_⟩ <;>
          simp_all [ObserveOutcome.sent, afterDeactivate, deactivateRfDiscovery,
            sendRfDiscoveryCommand, send_ext_cmd, setObserveModePerTech, setObserveModeFlag,
            sentOf, sentOf_append]
  · intro hd htech
    obtain ⟨w1, w2, en, cip, ⟨recv, cur⟩⟩ := s
    simp only at hactive
    subst hactive
    by_cases hflag : t &&& C.OBSERVE_MODE_TECH_COMMAND_SUPPORT_FLAG_FOR_ALL_TECH = 0
    · by_cases h2 : env.phNxpNciHal_send_ext_cmd 1
          (env.getDiscoveryCommand
            { rfDiscoveryReceived := true, currentObserveModeTechValue := cur }) =
          NFCSTATUS_SUCCESS
      · refine ⟨_, [], rfl, ?_, ?_⟩ <;>
          simp_all [ObserveOutcome.sent, afterDeactivate, deactivateRfDiscovery,
            sendRfDiscoveryCommand, send_ext_cmd, setObserveModePerTech, setObserveModeFlag,
            sentOf, sentOf_append]
      · refine ⟨_, [rf_deactivate_cmd,
            env.getDiscoveryCommand
              { rfDiscoveryReceived := true, currentObserveModeTechValue := cur }],
          rfl, ?_, ?_⟩ <;>
          simp_all [ObserveOutcome.sent, afterDeactivate, deactivateRfDiscovery,
            sendRfDiscoveryCommand, send_ext_cmd, setObserveModePerTech, setObserveModeFlag,
            sentOf, sentOf_append]
    · by_cases h2 : env.phNxpNciHal_send_ext_cmd 1
          (env.reConfigRFDiscCmd
            { rfDiscoveryReceived := true, currentObserveModeTechValue := cur }) =
          NFCSTATUS_SUCCESS
      · refine ⟨_, [], rfl, ?_, ?_⟩ <;>
          simp_all [ObserveOutcome.sent, afterDeactivate, deactivateRfDiscovery,
            sendRfDiscoveryCommand, send_ext_cmd, setObserveModePerTech, setObserveModeFlag,
            sentOf, sentOf_append]
      · refine ⟨_, [rf_deactivate_cmd,
            env.getDiscoveryCommand
              { rfDiscoveryReceived := true, currentObserveModeTechValue := cur }],
          rfl, ?_, ?_⟩ <;>
          simp_all [ObserveOutcome.sent, afterDeactivate, deactivateRfDiscovery,
            sendRfDiscoveryCommand, send_ext_cmd, setObserveModePerTech, setObserveModeFlag,
            sentOf, sentOf_append]

/-- C18: `handleObserveModeTechCommand` with an active discovery session and a
valid supported request.  The first synchronous command is the deactivate
`[0x21, 0x06, 0x01, 0x00]`; if it fails nothing else is sent.  If it succeeds,
the tech command (the original frame) follows exactly when the request enables
and its tech value differs from the current one, and then the discovery-start
command (whatever is sent after it belongs to the recovery).  The enabled flag
becomes the requested value if the deactivate, the tech command (when sent) and
the discovery-start all returned success, and keeps its prior value in every
other case. -/
theorem C18_tech_command_sequence
    (C : ObserveConstants) (env : ObserveEnv) (s : ObserveState)
    (b0 b1 b2 b3 t : Nat) (rest : List Nat)
    (hsup : env.phNxpNciHal_isObserveModeSupported = true)
    (hvalid : t &&& C.OBSERVE_MODE_TECH_COMMAND_SUPPORT_FLAG_FOR_ALL_TECH ≠ 0 ∨
      t = C.NCI_ANDROID_PASSIVE_OBSERVE_PARAM_DISABLE)
    (hactive : s.builder.rfDiscoveryReceived = true) :
    ∃ r, handleObserveModeTechCommand C env s (b0 :: b1 :: b2 :: b3 :: t :: rest) = some r ∧
      (env.phNxpNciHal_send_ext_cmd 0 [0x21, 0x06, 0x01, 0x00] ≠ NFCSTATUS_SUCCESS →
        r.sent = [[0x21, 0x06, 0x01, 0x00]] ∧
        r.state.bIsObserveModeEnabled = s.bIsObserveModeEnabled) ∧
      (env.phNxpNciHal_send_ext_cmd 0 [0x21, 0x06, 0x01, 0x00] = NFCSTATUS_SUCCESS →
        (t &&& C.OBSERVE_MODE_TECH_COMMAND_SUPPORT_FLAG_FOR_ALL_TECH ≠ 0 ∧
          t ≠ s.builder.currentObserveModeTechValue) →
        ∃ disc recovery,
          disc =
            (if env.phNxpNciHal_send_ext_cmd 1 (b0 :: b1 :: b2 :: b3 :: t :: rest) =
                NFCSTATUS_SUCCESS
              then env.reConfigRFDiscCmd { s.builder with currentObserveModeTechValue := t }
              else env.getDiscoveryCommand { s.builder with currentObserveModeTechValue := t }) ∧
          r.sent = [0x21, 0x06, 0x01, 0x00] :: (b0 :: b1 :: b2 :: b3 :: t :: rest) :: disc :: recovery ∧
          r.state.bIsObserveModeEnabled =
            (if env.phNxpNciHal_send_ext_cmd 1 (b0 :: b1 :: b2 :: b3 :: t :: rest) =
                  NFCSTATUS_SUCCESS ∧
                env.phNxpNciHal_send_ext_cmd 2 disc = NFCSTATUS_SUCCESS
              then true else s.bIsObserveModeEnabled)) ∧
      (env.phNxpNciHal_send_ext_cmd 0 [0x21, 0x06, 0x01, 0x00] = NFCSTATUS_SUCCESS →
        ¬ (t &&& C.OBSERVE_MODE_TECH_COMMAND_SUPPORT_FLAG_FOR_ALL_TECH ≠ 0 ∧
          t ≠ s.builder.currentObserveModeTechValue) →
        ∃ disc recovery,
          disc =
            (if t &&& C.OBSERVE_MODE_TECH_COMMAND_SUPPORT_FLAG_FOR_ALL_TECH ≠ 0
              then env.reConfigRFDiscCmd s.builder
              else env.getDiscoveryCommand s.builder) ∧
          r.sent = [0x21, 0x06, 0x01, 0x00] :: disc :: recovery ∧
          r.state.bIsObserveModeEnabled =
            (if env.phNxpNciHal_send_ext_cmd 1 disc = NFCSTATUS_SUCCESS
              then decide (t &&& C.OBSERVE_MODE_TECH_COMMAND_SUPPORT_FLAG_FOR_ALL_TECH ≠ 0)
              else s.bIsObserveModeEnabled)) :=
  tech_command_sequence_of_constant C env s b0 b1 b2 b3 t rest hsup hvalid hactive

/-- Witness of C18: the enable request `2F 0C 02 05 07` with an active session
and a hardware that accepts every command. -/
theorem C18_tech_command_sequence_witness :
    (sampleObserveEnv (fun _ => 0)).phNxpNciHal_isObserveModeSupported = true ∧
    (0x07 &&& sampleObserveConstants.OBSERVE_MODE_TECH_COMMAND_SUPPORT_FLAG_FOR_ALL_TECH ≠ 0 ∨
      0x07 = sampleObserveConstants.NCI_ANDROID_PASSIVE_OBSERVE_PARAM_DISABLE) ∧
    sampleActiveState.builder.rfDiscoveryReceived = true ∧
    ∃ r, handleObserveModeTechCommand sampleObserveConstants (sampleObserveEnv (fun _ => 0))
        sampleActiveState (0x2F :: 0x0C :: 0x02 :: 0x05 :: 0x07 :: []) = some r ∧
      ((sampleObserveEnv (fun _ => 0)).phNxpNciHal_send_ext_cmd 0 [0x21, 0x06, 0x01, 0x00] ≠
          NFCSTATUS_SUCCESS →
        r.sent = [[0x21, 0x06, 0x01, 0x00]] ∧
        r.state.bIsObserveModeEnabled = sampleActiveState.bIsObserveModeEnabled) ∧
      ((sampleObserveEnv (fun _ => 0)).phNxpNciHal_send_ext_cmd 0 [0x21, 0x06, 0x01, 0x00] =
          NFCSTATUS_SUCCESS →
        (0x07 &&& sampleObserveConstants.OBSERVE_MODE_TECH_COMMAND_SUPPORT_FLAG_FOR_ALL_TECH ≠ 0 ∧
          0x07 ≠ sampleActiveState.builder.currentObserveModeTechValue) →
        ∃ disc recovery,
          disc =
            (if (sampleObserveEnv (fun _ => 0)).phNxpNciHal_send_ext_cmd 1
                  (0x2F :: 0x0C :: 0x02 :: 0x05 :: 0x07 :: []) = NFCSTATUS_SUCCESS
              then (sampleObserveEnv (fun _ => 0)).reConfigRFDiscCmd
                { sampleActiveState.builder with currentObserveModeTechValue := 0x07 }
              else (sampleObserveEnv (fun _ => 0)).getDiscoveryCommand
                { sampleActiveState.builder with currentObserveModeTechValue := 0x07 }) ∧
          r.sent =
            [0x21, 0x06, 0x01, 0x00] :: (0x2F :: 0x0C :: 0x02 :: 0x05 :: 0x07 :: []) :: disc ::
              recovery ∧
          r.state.bIsObserveModeEnabled =
            (if (sampleObserveEnv (fun _ => 0)).phNxpNciHal_send_ext_cmd 1
                    (0x2F :: 0x0C :: 0x02 :: 0x05 :: 0x07 :: []) = NFCSTATUS_SUCCESS ∧
                (sampleObserveEnv (fun _ => 0)).phNxpNciHal_send_ext_cmd 2 disc =
                  NFCSTATUS_SUCCESS
              then true else sampleActiveState.bIsObserveModeEnabled)) ∧
      ((sampleObserveEnv (fun _ => 0)).phNxpNciHal_send_ext_cmd 0 [0x21, 0x06, 0x01, 0x00] =
          NFCSTATUS_SUCCESS →
        ¬ (0x07 &&& sampleObserveConstants.OBSERVE_MODE_TECH_COMMAND_SUPPORT_FLAG_FOR_ALL_TECH ≠ 0 ∧
          0x07 ≠ sampleActiveState.builder.currentObserveModeTechValue) →
        ∃ disc recovery,
          disc =
            (if 0x07 &&& sampleObserveConstants.OBSERVE_MODE_TECH_COMMAND_SUPPORT_FLAG_FOR_ALL_TECH
                  ≠ 0
              then (sampleObserveEnv (fun _ => 0)).reConfigRFDiscCmd sampleActiveState.builder
              else (sampleObserveEnv (fun _ => 0)).getDiscoveryCommand
                sampleActiveState.builder) ∧
          r.sent = [0x21, 0x06, 0x01, 0x00] :: disc :: recovery ∧
          r.state.bIsObserveModeEnabled =
            (if (sampleObserveEnv (fun _ => 0)).phNxpNciHal_send_ext_cmd 1 disc =
                  NFCSTATUS_SUCCESS
              then decide (0x07 &&&
                sampleObserveConstants.OBSERVE_MODE_TECH_COMMAND_SUPPORT_FLAG_FOR_ALL_TECH ≠ 0)
              else sampleActiveState.bIsObserveModeEnabled)) :=
  ⟨rfl, Or.inl (by decide), rfl,
    C18_tech_command_sequence sampleObserveConstants (sampleObserveEnv (fun _ => 0))
      sampleActiveState 0x2F 0x0C 0x02 0x05 0x07 [] rfl (Or.inl (by decide)) rfl⟩

/-- C19 as stated fails: with no discovery session ever started, the enable
request `2F 0C 02 05 07` (tech value `0x07`, current value `0x00`) sends the
tech command to the hardware; and when that command fails (status 1) the host
is acknowledged with `NCI_RSP_FAIL`. -/
theorem C19_tech_command_sent_without_session :
    handleObserveModeTechCommand sampleObserveConstants (sampleObserveEnv (fun _ => 0))
        ObserveState.init [0x2F, 0x0C, 0x02, 0x05, 0x07] =
      some
        { ret := 0x02
          state :=
            { gWaitingForDiscRsp := false
              gWaitingForRfDeActivateRsp := false
              bIsObserveModeEnabled := true
              bIsObserveChangeInProgress := true
              builder := { rfDiscoveryReceived := false, currentObserveModeTechValue := 0x07 } }
          trace :=
            [ObserveEvent.send_ext_cmd [0x2F, 0x0C, 0x02, 0x05, 0x07],
             ObserveEvent.vendorSpecificCallback 0x0C 0x05
               [sampleObserveConstants.NCI_RSP_OK]] } ∧
    handleObserveModeTechCommand sampleObserveConstants (sampleObserveEnv (fun _ => 1))
        ObserveState.init [0x2F, 0x0C, 0x02, 0x05, 0x07] =
      some
        { ret := 0x02
          state :=
            { gWaitingForDiscRsp := false
              gWaitingForRfDeActivateRsp := false
              bIsObserveModeEnabled := false
              bIsObserveChangeInProgress := true
              builder := { rfDiscoveryReceived := false, currentObserveModeTechValue := 0x07 } }
          trace :=
            [ObserveEvent.send_ext_cmd [0x2F, 0x0C, 0x02, 0x05, 0x07],
             ObserveEvent.vendorSpecificCallback 0x0C 0x05
               [sampleObserveConstants.NCI_RSP_FAIL]] } := by
  constructor <;> decide

/-- C19, amended: when no discovery session has ever been started, every valid
supported request sets the RecoveryPending flag, enqueues nothing, and sends
neither a deactivate nor a discovery command.  The only hardware command that
can be sent is the tech command itself (the original frame), exactly when the
request enables and its tech value differs from the current one; the host is
then acknowledged with success if and only if that command succeeded.  When no
tech command is sent, zero hardware commands are issued and the host is
acknowledged with success. -/
theorem C19_no_session_request
    (C : ObserveConstants) (env : ObserveEnv) (s : ObserveState)
    (b0 b1 b2 b3 t : Nat) (rest : List Nat)
    (hsup : env.phNxpNciHal_isObserveModeSupported = true)
    (hvalid : t &&& C.OBSERVE_MODE_TECH_COMMAND_SUPPORT_FLAG_FOR_ALL_TECH ≠ 0 ∨
      t = C.NCI_ANDROID_PASSIVE_OBSERVE_PARAM_DISABLE)
    (hnone : s.builder.rfDiscoveryReceived = false) :
    ∃ r, handleObserveModeTechCommand C env s (b0 :: b1 :: b2 :: b3 :: t :: rest) = some r ∧
      r.state.bIsObserveChangeInProgress = true ∧
      r.enqueued = [] ∧
      ((t &&& C.OBSERVE_MODE_TECH_COMMAND_SUPPORT_FLAG_FOR_ALL_TECH ≠ 0 ∧
          t ≠ s.builder.currentObserveModeTechValue) →
        r.sent = [b0 :: b1 :: b2 :: b3 :: t :: rest] ∧
        r.acks = [(b1, b3,
          [if env.phNxpNciHal_send_ext_cmd 0 (b0 :: b1 :: b2 :: b3 :: t :: rest) =
              NFCSTATUS_SUCCESS then C.NCI_RSP_OK else C.NCI_RSP_FAIL])]) ∧
      (¬ (t &&& C.OBSERVE_MODE_TECH_COMMAND_SUPPORT_FLAG_FOR_ALL_TECH ≠ 0 ∧
          t ≠ s.builder.currentObserveModeTechValue) →
        r.sent = [] ∧ r.acks = [(b1, b3, [C.NCI_RSP_OK])]) := by
  obtain ⟨w1, w2, en, cip, ⟨recv, cur⟩⟩ := s
  simp only at hnone
  subst hnone
  refine ⟨_, tech_command_frame5 C env _ b0 b1 b2 b3 t rest hsup hvalid, ?_, ?_, ?_, ?_⟩
  · by_cases hflag : t &&& C.OBSERVE_MODE_TECH_COMMAND_SUPPORT_FLAG_FOR_ALL_TECH = 0 <;>
    by_cases hcur : t = cur <;>
    by_cases h1 : env.phNxpNciHal_send_ext_cmd 0 (b0 :: b1 :: b2 :: b3 :: t :: rest) =
        NFCSTATUS_SUCCESS <;>
    simp_all [afterDeactivate, deactivateRfDiscovery,
      sendRfDiscoveryCommand, send_ext_cmd, setObserveModePerTech, setObserveModeFlag,
      setObserveChangeInProgress, sentOf]
  · by_cases hflag : t &&& C.OBSERVE_MODE_TECH_COMMAND_SUPPORT_FLAG_FOR_ALL_TECH = 0 <;>
    by_cases hcur : t = cur <;>
    by_cases h1 : env.phNxpNciHal_send_ext_cmd 0 (b0 :: b1 :: b2 :: b3 :: t :: rest) =
        NFCSTATUS_SUCCESS <;>
    simp_all [ObserveOutcome.enqueued, afterDeactivate, deactivateRfDiscovery,
      sendRfDiscoveryCommand, send_ext_cmd, setObserveModePerTech, setObserveModeFlag,
      setObserveChangeInProgress, sentOf, enqueuedOf, enqueuedOf_append]
  · intro htech
    by_cases h1 : env.phNxpNciHal_send_ext_cmd 0 (b0 :: b1 :: b2 :: b3 :: t :: rest) =
        NFCSTATUS_SUCCESS <;>
    simp_all [ObserveOutcome.sent, ObserveOutcome.acks, afterDeactivate, deactivateRfDiscovery,
      sendRfDiscoveryCommand, send_ext_cmd, setObserveModePerTech, setObserveModeFlag,
      setObserveChangeInProgress, sentOf, sentOf_append, acksOf, acksOf_append]
  · intro htech
    by_cases hflag : t &&& C.OBSERVE_MODE_TECH_COMMAND_SUPPORT_FLAG_FOR_ALL_TECH = 0 <;>
    simp_all [ObserveOutcome.sent, ObserveOutcome.acks, afterDeactivate, deactivateRfDiscovery,
      sendRfDiscoveryCommand, send_ext_cmd, setObserveModePerTech, setObserveModeFlag,
      setObserveChangeInProgress, sentOf, sentOf_append, acksOf, acksOf_append]

/-- Witness of the amended C19: the disable request `2F 0C 02 05 00` before any
discovery session. -/
theorem C19_no_session_request_witness :
    (sampleObserveEnv (fun _ => 0)).phNxpNciHal_isObserveModeSupported = true ∧
    (0x00 &&& sampleObserveConstants.OBSERVE_MODE_TECH_COMMAND_SUPPORT_FLAG_FOR_ALL_TECH ≠ 0 ∨
      0x00 = sampleObserveConstants.NCI_ANDROID_PASSIVE_OBSERVE_PARAM_DISABLE) ∧
    ObserveState.init.builder.rfDiscoveryReceived = false ∧
    ∃ r, handleObserveModeTechCommand sampleObserveConstants (sampleObserveEnv (fun _ => 0))
        ObserveState.init (0x2F :: 0x0C :: 0x02 :: 0x05 :: 0x00 :: []) = some r ∧
      r.state.bIsObserveChangeInProgress = true ∧
      r.enqueued = [] ∧
      ((0x00 &&& sampleObserveConstants.OBSERVE_MODE_TECH_COMMAND_SUPPORT_FLAG_FOR_ALL_TECH ≠ 0 ∧
          0x00 ≠ ObserveState.init.builder.currentObserveModeTechValue) →
        r.sent = [0x2F :: 0x0C :: 0x02 :: 0x05 :: 0x00 :: []] ∧
        r.acks = [(0x0C, 0x05,
          [if (sampleObserveEnv (fun _ => 0)).phNxpNciHal_send_ext_cmd 0
                (0x2F :: 0x0C :: 0x02 :: 0x05 :: 0x00 :: []) = NFCSTATUS_SUCCESS
            then sampleObserveConstants.NCI_RSP_OK else sampleObserveConstants.NCI_RSP_FAIL])]) ∧
      (¬ (0x00 &&& sampleObserveConstants.OBSERVE_MODE_TECH_COMMAND_SUPPORT_FLAG_FOR_ALL_TECH ≠ 0 ∧
          0x00 ≠ ObserveState.init.builder.currentObserveModeTechValue) →
        r.sent = [] ∧ r.acks = [(0x0C, 0x05, [sampleObserveConstants.NCI_RSP_OK])]) :=
  ⟨rfl, Or.inr rfl, rfl,
    C19_no_session_request sampleObserveConstants (sampleObserveEnv (fun _ => 0))
      ObserveState.init 0x2F 0x0C 0x02 0x05 0x00 [] rfl (Or.inr rfl) rfl⟩

/-- The recovery of `handleObserveModeTechCommand` after a failed
discovery-start, the deactivate command written as the constant
`rf_deactivate_cmd`. -/
theorem recovery_after_failed_discovery_of_constant
    (C : ObserveConstants) (env : ObserveEnv) (s : ObserveState)
    (b0 b1 b2 b3 t : Nat) (rest : List Nat)
    (hsup : env.phNxpNciHal_isObserveModeSupported = true)
    (hvalid : t &&& C.OBSERVE_MODE_TECH_COMMAND_SUPPORT_FLAG_FOR_ALL_TECH ≠ 0 ∨
      t = C.NCI_ANDROID_PASSIVE_OBSERVE_PARAM_DISABLE)
    (hactive : s.builder.rfDiscoveryReceived = true)
    (hd : env.phNxpNciHal_send_ext_cmd 0 rf_deactivate_cmd = NFCSTATUS_SUCCESS) :
    ∃ r, handleObserveModeTechCommand C env s (b0 :: b1 :: b2 :: b3 :: t :: rest) = some r ∧
      ((t &&& C.OBSERVE_MODE_TECH_COMMAND_SUPPORT_FLAG_FOR_ALL_TECH ≠ 0 ∧
          t ≠ s.builder.currentObserveModeTechValue) →
        ∀ disc,
          disc =
            (if env.phNxpNciHal_send_ext_cmd 1 (b0 :: b1 :: b2 :: b3 :: t :: rest) =
                NFCSTATUS_SUCCESS
              then env.reConfigRFDiscCmd { s.builder with currentObserveModeTechValue := t }
              else env.getDiscoveryCommand { s.builder with currentObserveModeTechValue := t }) →
          env.phNxpNciHal_send_ext_cmd 2 disc ≠ NFCSTATUS_SUCCESS →
          r.sent =
            [rf_deactivate_cmd, b0 :: b1 :: b2 :: b3 :: t :: rest, disc, rf_deactivate_cmd,
              env.getDiscoveryCommand { s.builder with currentObserveModeTechValue := t }] ∧
          r.state.bIsObserveModeEnabled = s.bIsObserveModeEnabled ∧
          r.acks = [(b1, b3, [C.NCI_RSP_FAIL])] ∧ r.ret = b2) ∧
      (¬ (t &&& C.OBSERVE_MODE_TECH_COMMAND_SUPPORT_FLAG_FOR_ALL_TECH ≠ 0 ∧
          t ≠ s.builder.currentObserveModeTechValue) →
        ∀ disc,
          disc =
            (if t &&& C.OBSERVE_MODE_TECH_COMMAND_SUPPORT_FLAG_FOR_ALL_TECH ≠ 0
              then env.reConfigRFDiscCmd s.builder
              else env.getDiscoveryCommand s.builder) →
          env.phNxpNciHal_send_ext_cmd 1 disc ≠ NFCSTATUS_SUCCESS →
          r.sent =
            [rf_deactivate_cmd, disc, rf_deactivate_cmd, env.getDiscoveryCommand s.builder] ∧
          r.state.bIsObserveModeEnabled = s.bIsObserveModeEnabled ∧
          r.acks = [(b1, b3, [C.NCI_RSP_FAIL])] ∧ r.ret = b2) := by
  obtain ⟨w1, w2, en, cip, ⟨recv, cur⟩⟩ := s
  simp only at hactive
  subst hactive
  refine ⟨_, tech_command_frame5 C env _ b0 b1 b2 b3 t rest hsup hvalid, ?_, ?_⟩
  · intro htech disc hdisc hfail
    subst hdisc
    by_cases h1 : env.phNxpNciHal_send_ext_cmd 1 (b0 :: b1 :: b2 :: b3 :: t :: rest) =
        NFCSTATUS_SUCCESS <;>
    simp_all [ObserveOutcome.sent, ObserveOutcome.acks, afterDeactivate, deactivateRfDiscovery,
      sendRfDiscoveryCommand, send_ext_cmd, setObserveModePerTech, setObserveModeFlag,
      setObserveChangeInProgress, sentOf, sentOf_append, acksOf, acksOf_append]
  · intro htech disc hdisc hfail
    subst hdisc
    by_cases hflag : t &&& C.OBSERVE_MODE_TECH_COMMAND_SUPPORT_FLAG_FOR_ALL_TECH = 0 <;>
    simp_all [ObserveOutcome.sent, ObserveOutcome.acks, afterDeactivate, deactivateRfDiscovery,
      sendRfDiscoveryCommand, send_ext_cmd, setObserveModePerTech, setObserveModeFlag,
      setObserveChangeInProgress, sentOf, sentOf_append, acksOf, acksOf_append]

/-- C20: recovery in `handleObserveModeTechCommand`.  With an active discovery
session and a valid supported request, if the deactivate succeeded and the
discovery-start command `disc` fails, exactly two further synchronous commands
are sent, the deactivate `[0x21, 0x06, 0x01, 0x00]` and then the default
discovery command, whatever status these two return; the enabled flag keeps
its value, the host is acknowledged once, with `NCI_RSP_FAIL`, and the handler
returns normally. -/
theorem C20_recovery_after_failed_discovery
    (C : ObserveConstants) (env : ObserveEnv) (s : ObserveState)
    (b0 b1 b2 b3 t : Nat) (rest : List Nat)
    (hsup : env.phNxpNciHal_isObserveModeSupported = true)
    (hvalid : t &&& C.OBSERVE_MODE_TECH_COMMAND_SUPPORT_FLAG_FOR_ALL_TECH ≠ 0 ∨
      t = C.NCI_ANDROID_PASSIVE_OBSERVE_PARAM_DISABLE)
    (hactive : s.builder.rfDiscoveryReceived = true)
    (hd : env.phNxpNciHal_send_ext_cmd 0 [0x21, 0x06, 0x01, 0x00] = NFCSTATUS_SUCCESS) :
    ∃ r, handleObserveModeTechCommand C env s (b0 :: b1 :: b2 :: b3 :: t :: rest) = some r ∧
      ((t &&& C.OBSERVE_MODE_TECH_COMMAND_SUPPORT_FLAG_FOR_ALL_TECH ≠ 0 ∧
          t ≠ s.builder.currentObserveModeTechValue) →
        ∀ disc,
          disc =
            (if env.phNxpNciHal_send_ext_cmd 1 (b0 :: b1 :: b2 :: b3 :: t :: rest) =
                NFCSTATUS_SUCCESS
              then env.reConfigRFDiscCmd { s.builder with currentObserveModeTechValue := t }
              else env.getDiscoveryCommand { s.builder with currentObserveModeTechValue := t }) →
          env.phNxpNciHal_send_ext_cmd 2 disc ≠ NFCSTATUS_SUCCESS →
          r.sent =
            [[0x21, 0x06, 0x01, 0x00], b0 :: b1 :: b2 :: b3 :: t :: rest, disc, [0x21, 0x06, 0x01, 0x00],
              env.getDiscoveryCommand { s.builder with currentObserveModeTechValue := t }] ∧
          r.state.bIsObserveModeEnabled = s.bIsObserveModeEnabled ∧
          r.acks = [(b1, b3, [C.NCI_RSP_FAIL])] ∧ r.ret = b2) ∧
      (¬ (t &&& C.OBSERVE_MODE_TECH_COMMAND_SUPPORT_FLAG_FOR_ALL_TECH ≠ 0 ∧
          t ≠ s.builder.currentObserveModeTechValue) →
        ∀ disc,
          disc =
            (if t &&& C.OBSERVE_MODE_TECH_COMMAND_SUPPORT_FLAG_FOR_ALL_TECH ≠ 0
              then env.reConfigRFDiscCmd s.builder
              else env.getDiscoveryCommand s.builder) →
          env.phNxpNciHal_send_ext_cmd 1 disc ≠ NFCSTATUS_SUCCESS →
          r.sent =
            [[0x21, 0x06, 0x01, 0x00], disc, [0x21, 0x06, 0x01, 0x00], env.getDiscoveryCommand s.builder] ∧
          r.state.bIsObserveModeEnabled = s.bIsObserveModeEnabled ∧
          r.acks = [(b1, b3, [C.NCI_RSP_FAIL])] ∧ r.ret = b2) :=
  recovery_after_failed_discovery_of_constant C env s b0 b1 b2 b3 t rest hsup hvalid hactive hd

/-- Witness of C20: the enable request `2F 0C 02 05 07` with an active session
and a hardware that refuses the third command (the discovery-start) and the
two recovery commands. -/
theorem C20_recovery_after_failed_discovery_witness :
    (sampleObserveEnv (fun n => if n < 2 then 0 else 1)).phNxpNciHal_isObserveModeSupported =
      true ∧
    (0x07 &&& sampleObserveConstants.OBSERVE_MODE_TECH_COMMAND_SUPPORT_FLAG_FOR_ALL_TECH ≠ 0 ∨
      0x07 = sampleObserveConstants.NCI_ANDROID_PASSIVE_OBSERVE_PARAM_DISABLE) ∧
    sampleActiveState.builder.rfDiscoveryReceived = true ∧
    (sampleObserveEnv (fun n => if n < 2 then 0 else 1)).phNxpNciHal_send_ext_cmd 0
      [0x21, 0x06, 0x01, 0x00] = NFCSTATUS_SUCCESS ∧
    ∃ r, handleObserveModeTechCommand sampleObserveConstants
        (sampleObserveEnv (fun n => if n < 2 then 0 else 1))
        sampleActiveState (0x2F :: 0x0C :: 0x02 :: 0x05 :: 0x07 :: []) = some r ∧
      ((0x07 &&& sampleObserveConstants.OBSERVE_MODE_TECH_COMMAND_SUPPORT_FLAG_FOR_ALL_TECH ≠ 0 ∧
          0x07 ≠ sampleActiveState.builder.currentObserveModeTechValue) →
        ∀ disc,
          disc =
            (if (sampleObserveEnv (fun n => if n < 2 then 0 else 1)).phNxpNciHal_send_ext_cmd 1
                  (0x2F :: 0x0C :: 0x02 :: 0x05 :: 0x07 :: []) = NFCSTATUS_SUCCESS
              then (sampleObserveEnv (fun n => if n < 2 then 0 else 1)).reConfigRFDiscCmd
                { sampleActiveState.builder with currentObserveModeTechValue := 0x07 }
              else (sampleObserveEnv (fun n => if n < 2 then 0 else 1)).getDiscoveryCommand
                { sampleActiveState.builder with currentObserveModeTechValue := 0x07 }) →
          (sampleObserveEnv (fun n => if n < 2 then 0 else 1)).phNxpNciHal_send_ext_cmd 2 disc ≠
            NFCSTATUS_SUCCESS →
          r.sent =
            [[0x21, 0x06, 0x01, 0x00], 0x2F :: 0x0C :: 0x02 :: 0x05 :: 0x07 :: [], disc,
              [0x21, 0x06, 0x01, 0x00],
              (sampleObserveEnv (fun n => if n < 2 then 0 else 1)).getDiscoveryCommand
                { sampleActiveState.builder with currentObserveModeTechValue := 0x07 }] ∧
          r.state.bIsObserveModeEnabled = sampleActiveState.bIsObserveModeEnabled ∧
          r.acks = [(0x0C, 0x05, [sampleObserveConstants.NCI_RSP_FAIL])] ∧ r.ret = 0x02) ∧
      (¬ (0x07 &&& sampleObserveConstants.OBSERVE_MODE_TECH_COMMAND_SUPPORT_FLAG_FOR_ALL_TECH ≠ 0 ∧
          0x07 ≠ sampleActiveState.builder.currentObserveModeTechValue) →
        ∀ disc,
          disc =
            (if 0x07 &&& sampleObserveConstants.OBSERVE_MODE_TECH_COMMAND_SUPPORT_FLAG_FOR_ALL_TECH
                  ≠ 0
              then (sampleObserveEnv (fun n => if n < 2 then 0 else 1)).reConfigRFDiscCmd
                sampleActiveState.builder
              else (sampleObserveEnv (fun n => if n < 2 then 0 else 1)).getDiscoveryCommand
                sampleActiveState.builder) →
          (sampleObserveEnv (fun n => if n < 2 then 0 else 1)).phNxpNciHal_send_ext_cmd 1 disc ≠
            NFCSTATUS_SUCCESS →
          r.sent =
            [[0x21, 0x06, 0x01, 0x00], disc, [0x21, 0x06, 0x01, 0x00],
              (sampleObserveEnv (fun n => if n < 2 then 0 else 1)).getDiscoveryCommand
                sampleActiveState.builder] ∧
          r.state.bIsObserveModeEnabled = sampleActiveState.bIsObserveModeEnabled ∧
          r.acks = [(0x0C, 0x05, [sampleObserveConstants.NCI_RSP_FAIL])] ∧ r.ret = 0x02) :=
  ⟨rfl, Or.inl (by decide), rfl, rfl,
    C20_recovery_after_failed_discovery sampleObserveConstants
      (sampleObserveEnv (fun n => if n < 2 then 0 else 1))
      sampleActiveState 0x2F 0x0C 0x02 0x05 0x07 [] rfl (Or.inl (by decide)) rfl rfl⟩

/-- The rejected path of `handleObserveModeTechCommand` (lines 278-282) on a
frame of at least five bytes: only the acknowledgement with `NCI_RSP_FAIL`. -/
theorem tech_command_rejected (C : ObserveConstants) (env : ObserveEnv) (s : ObserveState)
    (b0 b1 b2 b3 t : Nat) (rest : List Nat)
    (h : ¬ (env.phNxpNciHal_isObserveModeSupported = true ∧
      (t &&& C.OBSERVE_MODE_TECH_COMMAND_SUPPORT_FLAG_FOR_ALL_TECH ≠ 0 ∨
        t = C.NCI_ANDROID_PASSIVE_OBSERVE_PARAM_DISABLE))) :
    handleObserveModeTechCommand C env s (b0 :: b1 :: b2 :: b3 :: t :: rest) =
      some
        { ret := b2
          state := s
          trace := [ObserveEvent.vendorSpecificCallback b1 b3 [C.NCI_RSP_FAIL]] } := by
  by_cases hsup : env.phNxpNciHal_isObserveModeSupported = true
  · have hv : ¬ (t &&& C.OBSERVE_MODE_TECH_COMMAND_SUPPORT_FLAG_FOR_ALL_TECH ≠ 0 ∨
        t = C.NCI_ANDROID_PASSIVE_OBSERVE_PARAM_DISABLE) := fun hv => h ⟨hsup, hv⟩
    simp only [not_or, ne_eq, not_not] at hv
    simp [handleObserveModeTechCommand, NCI_MSG_INDEX_FEATURE_VALUE, NCI_OID_INDEX,
      NCI_MSG_INDEX_FOR_FEATURE, NCI_MSG_LEN_INDEX, hsup, hv.1, hv.2]
  · simp [handleObserveModeTechCommand, NCI_MSG_INDEX_FEATURE_VALUE, NCI_OID_INDEX,
      NCI_MSG_INDEX_FOR_FEATURE, NCI_MSG_LEN_INDEX, hsup]

/-- Every step of the sequence only appends to the trace. -/
theorem afterDeactivate_trace (C : ObserveConstants) (env : ObserveEnv) (p_data : List Nat)
    (techValue : Nat) (flag : Bool) (nciStatus : Nat) (run : Run) :
    run.trace <+: (afterDeactivate C env p_data techValue flag nciStatus run).2.trace := by
  by_cases h0 : nciStatus = NFCSTATUS_SUCCESS <;>
  by_cases h1 : flag = true <;>
  by_cases h2 : techValue = run.state.builder.currentObserveModeTechValue <;>
  by_cases hr : run.state.builder.rfDiscoveryReceived = true <;>
  simp [afterDeactivate, deactivateRfDiscovery, sendRfDiscoveryCommand, send_ext_cmd,
    setObserveModePerTech, setObserveModeFlag, setObserveChangeInProgress, h0, h1, h2, hr] <;>
  split_ifs <;> simp

/-- Nothing in the sequence clears the RecoveryPending flag. -/
theorem afterDeactivate_change_in_progress (C : ObserveConstants) (env : ObserveEnv)
    (p_data : List Nat) (techValue : Nat) (flag : Bool) (nciStatus : Nat) (run : Run)
    (h : run.state.bIsObserveChangeInProgress = true) :
    (afterDeactivate C env p_data techValue flag nciStatus run).2.state.bIsObserveChangeInProgress
      = true := by
  by_cases h0 : nciStatus = NFCSTATUS_SUCCESS <;>
  by_cases h1 : flag = true <;>
  by_cases h2 : techValue = run.state.builder.currentObserveModeTechValue <;>
  by_cases hr : run.state.builder.rfDiscoveryReceived = true <;>
  simp [afterDeactivate, deactivateRfDiscovery, sendRfDiscoveryCommand, send_ext_cmd,
    setObserveModePerTech, setObserveModeFlag, setObserveChangeInProgress, h0, h1, h2, hr, h] <;>
  split_ifs <;> simp [h]

/-- C21 as stated fails: with the all-technologies flag `0x07` and the disable
value `0x00`, the tech value `0x01` is neither of the two, yet the request
`2F 0C 02 05 01` is accepted: with an active session the deactivate, the tech
command and the field-detect discovery command are sent, the enabled flag is
set and the host is acknowledged with `NCI_RSP_OK`. -/
theorem C21_other_tech_value_accepted :
    (0x01 : Nat) ≠ sampleObserveConstants.OBSERVE_MODE_TECH_COMMAND_SUPPORT_FLAG_FOR_ALL_TECH ∧
    (0x01 : Nat) ≠ sampleObserveConstants.NCI_ANDROID_PASSIVE_OBSERVE_PARAM_DISABLE ∧
    handleObserveModeTechCommand sampleObserveConstants (sampleObserveEnv (fun _ => 0))
        sampleActiveState [0x2F, 0x0C, 0x02, 0x05, 0x01] =
      some
        { ret := 0x02
          state :=
            { gWaitingForDiscRsp := false
              gWaitingForRfDeActivateRsp := false
              bIsObserveModeEnabled := true
              bIsObserveChangeInProgress := false
              builder := { rfDiscoveryReceived := true, currentObserveModeTechValue := 0x01 } }
          trace :=
            [ObserveEvent.resetLastKnownValues,
             ObserveEvent.send_ext_cmd [0x21, 0x06, 0x01, 0x00],
             ObserveEvent.send_ext_cmd [0x2F, 0x0C, 0x02, 0x05, 0x01],
             ObserveEvent.send_ext_cmd [0x21, 0x03, 0x01, 0xFF],
             ObserveEvent.vendorSpecificCallback 0x0C 0x05
               [sampleObserveConstants.NCI_RSP_OK]] } := by
  refine ⟨by decide, by decide, by decide⟩

/-- C21, amended: a requested technology value (byte 4) is accepted exactly
when it has a bit in common with the all-technologies flag
(`techValue & FLAG` non-zero) or equals the explicit disable value.  For every
other value, and whenever observe mode is unsupported, the request is rejected:
no collaborator is called but the acknowledgement, which carries
`NCI_RSP_FAIL`, and the observe-mode state is unchanged.  An accepted request
starts the sequence: a hardware command is sent or, with no discovery session,
the RecoveryPending flag is set. -/
theorem C21_tech_value_validation
    (C : ObserveConstants) (env : ObserveEnv) (s : ObserveState)
    (b0 b1 b2 b3 t : Nat) (rest : List Nat) :
    (¬ (env.phNxpNciHal_isObserveModeSupported = true ∧
        (t &&& C.OBSERVE_MODE_TECH_COMMAND_SUPPORT_FLAG_FOR_ALL_TECH ≠ 0 ∨
          t = C.NCI_ANDROID_PASSIVE_OBSERVE_PARAM_DISABLE)) →
      ∃ r, handleObserveModeTechCommand C env s (b0 :: b1 :: b2 :: b3 :: t :: rest) = some r ∧
        r.sent = [] ∧ r.enqueued = [] ∧ r.state = s ∧
        r.acks = [(b1, b3, [C.NCI_RSP_FAIL])]) ∧
    ((env.phNxpNciHal_isObserveModeSupported = true ∧
        (t &&& C.OBSERVE_MODE_TECH_COMMAND_SUPPORT_FLAG_FOR_ALL_TECH ≠ 0 ∨
          t = C.NCI_ANDROID_PASSIVE_OBSERVE_PARAM_DISABLE)) →
      ∃ r, handleObserveModeTechCommand C env s (b0 :: b1 :: b2 :: b3 :: t :: rest) = some r ∧
        (r.sent ≠ [] ∨ r.state.bIsObserveChangeInProgress = true)) := by
  constructor
  · intro h
    exact ⟨_, tech_command_rejected C env s b0 b1 b2 b3 t rest h, rfl, rfl, rfl, rfl⟩
  · intro h
    obtain ⟨hsup, hvalid⟩ := h
    refine ⟨_, tech_command_frame5 C env s b0 b1 b2 b3 t rest hsup hvalid, ?_⟩
    by_cases hrecv : s.builder.rfDiscoveryReceived = true
    · left
      obtain ⟨ext, hext⟩ := afterDeactivate_trace C env (b0 :: b1 :: b2 :: b3 :: t :: rest) t
        (decide (t &&& C.OBSERVE_MODE_TECH_COMMAND_SUPPORT_FLAG_FOR_ALL_TECH ≠ 0))
        (deactivateRfDiscovery env { state := s, trace := [] }).1
        (deactivateRfDiscovery env { state := s, trace := [] }).2
      simp only [ObserveOutcome.sent]
      rw [← hext]
      simp [deactivateRfDiscovery, send_ext_cmd, hrecv, sentOf, sentOf_append]
    · right
      apply afterDeactivate_change_in_progress
      simp [deactivateRfDiscovery, setObserveChangeInProgress, hrecv]

/-- Witness of the amended C21: the tech value `0x08` has no bit in common with
the flag `0x07` and is not the disable value `0x00`; the request is rejected. -/
theorem C21_tech_value_validation_witness :
    ¬ ((sampleObserveEnv (fun _ => 0)).phNxpNciHal_isObserveModeSupported = true ∧
        (0x08 &&& sampleObserveConstants.OBSERVE_MODE_TECH_COMMAND_SUPPORT_FLAG_FOR_ALL_TECH ≠ 0 ∨
          0x08 = sampleObserveConstants.NCI_ANDROID_PASSIVE_OBSERVE_PARAM_DISABLE)) ∧
    ∃ r, handleObserveModeTechCommand sampleObserveConstants (sampleObserveEnv (fun _ => 0))
        sampleActiveState (0x2F :: 0x0C :: 0x02 :: 0x05 :: 0x08 :: []) = some r ∧
      r.sent = [] ∧ r.enqueued = [] ∧ r.state = sampleActiveState ∧
      r.acks = [(0x0C, 0x05, [sampleObserveConstants.NCI_RSP_FAIL])] :=
  ⟨by decide,
    (C21_tech_value_validation sampleObserveConstants (sampleObserveEnv (fun _ => 0))
      sampleActiveState 0x2F 0x0C 0x02 0x05 0x08 []).1 (by decide)⟩

/-- The sequence of lines 238-277 makes no acknowledgement itself. -/
theorem afterDeactivate_acks (C : ObserveConstants) (env : ObserveEnv) (p_data : List Nat)
    (techValue : Nat) (flag : Bool) (nciStatus : Nat) (run : Run) :
    acksOf (afterDeactivate C env p_data techValue flag nciStatus run).2.trace =
      acksOf run.trace := by
  by_cases h0 : nciStatus = NFCSTATUS_SUCCESS <;>
  by_cases h1 : flag = true <;>
  by_cases h2 : techValue = run.state.builder.currentObserveModeTechValue <;>
  by_cases hr : run.state.builder.rfDiscoveryReceived = true <;>
  simp [afterDeactivate, deactivateRfDiscovery, sendRfDiscoveryCommand, send_ext_cmd,
    setObserveModePerTech, setObserveModeFlag, setObserveChangeInProgress, h0, h1, h2, hr] <;>
  split_ifs <;> simp [acksOf, acksOf_append]

/-- C22 as stated fails: with an active session, when the tech command fails
(second command, status 1) the default discovery-start command is still sent
and succeeds (third command, status 0), yet the host is acknowledged with
`NCI_RSP_FAIL`. -/
theorem C22_discovery_succeeds_ack_fails :
    handleObserveModeTechCommand sampleObserveConstants
        (sampleObserveEnv (fun n => if n = 1 then 1 else 0))
        sampleActiveState [0x2F, 0x0C, 0x02, 0x05, 0x07] =
      some
        { ret := 0x02
          state :=
            { gWaitingForDiscRsp := false
              gWaitingForRfDeActivateRsp := false
              bIsObserveModeEnabled := false
              bIsObserveChangeInProgress := false
              builder := { rfDiscoveryReceived := true, currentObserveModeTechValue := 0x07 } }
          trace :=
            [ObserveEvent.resetLastKnownValues,
             ObserveEvent.send_ext_cmd [0x21, 0x06, 0x01, 0x00],
             ObserveEvent.send_ext_cmd [0x2F, 0x0C, 0x02, 0x05, 0x07],
             ObserveEvent.send_ext_cmd [0x21, 0x03, 0x01, 0x00],
             ObserveEvent.vendorSpecificCallback 0x0C 0x05
               [sampleObserveConstants.NCI_RSP_FAIL]] } ∧
    (sampleObserveEnv (fun n => if n = 1 then 1 else 0)).phNxpNciHal_send_ext_cmd 2
        [0x21, 0x03, 0x01, 0x00] = NFCSTATUS_SUCCESS := by
  refine ⟨by decide, by decide⟩

/-- C22, amended: on every frame of at least five bytes
`handleObserveModeTechCommand` acknowledges the host command exactly once, with
a one-byte status payload `st`.  For an unsupported or invalid request `st` is
`NCI_RSP_FAIL`.  For a supported, valid request `st` is `NCI_RSP_OK` if and
only if every step that was carried out succeeded: the deactivate, the tech
command (when sent) and the discovery-start; a failed tech command gives
`NCI_RSP_FAIL` even when the discovery-start that follows succeeds.  With no
discovery session the deactivate and the discovery-start are not sent and
count as successful. -/
theorem C22_acknowledgement_status
    (C : ObserveConstants) (env : ObserveEnv) (s : ObserveState)
    (b0 b1 b2 b3 t : Nat) (rest : List Nat) :
    ∃ r st, handleObserveModeTechCommand C env s (b0 :: b1 :: b2 :: b3 :: t :: rest) = some r ∧
      r.acks = [(b1, b3, [st])] ∧
      (¬ (env.phNxpNciHal_isObserveModeSupported = true ∧
          (t &&& C.OBSERVE_MODE_TECH_COMMAND_SUPPORT_FLAG_FOR_ALL_TECH ≠ 0 ∨
            t = C.NCI_ANDROID_PASSIVE_OBSERVE_PARAM_DISABLE)) → st = C.NCI_RSP_FAIL) ∧
      ((env.phNxpNciHal_isObserveModeSupported = true ∧
          (t &&& C.OBSERVE_MODE_TECH_COMMAND_SUPPORT_FLAG_FOR_ALL_TECH ≠ 0 ∨
            t = C.NCI_ANDROID_PASSIVE_OBSERVE_PARAM_DISABLE)) →
        (s.builder.rfDiscoveryReceived = false →
          ¬ (t &&& C.OBSERVE_MODE_TECH_COMMAND_SUPPORT_FLAG_FOR_ALL_TECH ≠ 0 ∧
            t ≠ s.builder.currentObserveModeTechValue) →
          st = C.NCI_RSP_OK) ∧
        (s.builder.rfDiscoveryReceived = false →
          (t &&& C.OBSERVE_MODE_TECH_COMMAND_SUPPORT_FLAG_FOR_ALL_TECH ≠ 0 ∧
            t ≠ s.builder.currentObserveModeTechValue) →
          st = if env.phNxpNciHal_send_ext_cmd 0 (b0 :: b1 :: b2 :: b3 :: t :: rest) =
              NFCSTATUS_SUCCESS then C.NCI_RSP_OK else C.NCI_RSP_FAIL) ∧
        (s.builder.rfDiscoveryReceived = true →
          env.phNxpNciHal_send_ext_cmd 0 rf_deactivate_cmd ≠ NFCSTATUS_SUCCESS →
          st = C.NCI_RSP_FAIL) ∧
        (s.builder.rfDiscoveryReceived = true →
          env.phNxpNciHal_send_ext_cmd 0 rf_deactivate_cmd = NFCSTATUS_SUCCESS →
          (t &&& C.OBSERVE_MODE_TECH_COMMAND_SUPPORT_FLAG_FOR_ALL_TECH ≠ 0 ∧
            t ≠ s.builder.currentObserveModeTechValue) →
          st =
            if env.phNxpNciHal_send_ext_cmd 1 (b0 :: b1 :: b2 :: b3 :: t :: rest) =
                  NFCSTATUS_SUCCESS ∧
                env.phNxpNciHal_send_ext_cmd 2
                  (env.reConfigRFDiscCmd { s.builder with currentObserveModeTechValue := t }) =
                  NFCSTATUS_SUCCESS
              then C.NCI_RSP_OK else C.NCI_RSP_FAIL) ∧
        (s.builder.rfDiscoveryReceived = true →
          env.phNxpNciHal_send_ext_cmd 0 rf_deactivate_cmd = NFCSTATUS_SUCCESS →
          ¬ (t &&& C.OBSERVE_MODE_TECH_COMMAND_SUPPORT_FLAG_FOR_ALL_TECH ≠ 0 ∧
            t ≠ s.builder.currentObserveModeTechValue) →
          st =
            if env.phNxpNciHal_send_ext_cmd 1
                  (if t &&& C.OBSERVE_MODE_TECH_COMMAND_SUPPORT_FLAG_FOR_ALL_TECH ≠ 0
                    then env.reConfigRFDiscCmd s.builder
                    else env.getDiscoveryCommand s.builder) = NFCSTATUS_SUCCESS
              then C.NCI_RSP_OK else C.NCI_RSP_FAIL)) := by
  by_cases hacc : env.phNxpNciHal_isObserveModeSupported = true ∧
      (t &&& C.OBSERVE_MODE_TECH_COMMAND_SUPPORT_FLAG_FOR_ALL_TECH ≠ 0 ∨
        t = C.NCI_ANDROID_PASSIVE_OBSERVE_PARAM_DISABLE)
  · refine ⟨_,
      (afterDeactivate C env (b0 :: b1 :: b2 :: b3 :: t :: rest) t
        (decide (t &&& C.OBSERVE_MODE_TECH_COMMAND_SUPPORT_FLAG_FOR_ALL_TECH ≠ 0))
        (deactivateRfDiscovery env { state := s, trace := [] }).1
        (deactivateRfDiscovery env { state := s, trace := [] }).2).1,
      tech_command_frame5 C env s b0 b1 b2 b3 t rest hacc.1 hacc.2, ?_,
      fun h => absurd hacc h, fun _ => ?_⟩
    · simp only [ObserveOutcome.acks, acksOf_append, afterDeactivate_acks]
      by_cases hr : s.builder.rfDiscoveryReceived = true <;>
        simp [deactivateRfDiscovery, send_ext_cmd, setObserveChangeInProgress, hr, acksOf,
          acksOf_append]
    · obtain ⟨w1, w2, en, cip, ⟨recv, cur⟩⟩ := s
      refine ⟨?_, ?_, ?_, ?_, ?_⟩
      · intro hrecv htech
        simp only at hrecv
        subst hrecv
        by_cases hflag : t &&& C.OBSERVE_MODE_TECH_COMMAND_SUPPORT_FLAG_FOR_ALL_TECH = 0 <;>
        simp_all [afterDeactivate, deactivateRfDiscovery, sendRfDiscoveryCommand, send_ext_cmd,
          setObserveModePerTech, setObserveModeFlag, setObserveChangeInProgress]
      · intro hrecv htech
        simp only at hrecv
        subst hrecv
        by_cases h1 : env.phNxpNciHal_send_ext_cmd 0 (b0 :: b1 :: b2 :: b3 :: t :: rest) =
            NFCSTATUS_SUCCESS <;>
        simp_all [afterDeactivate, deactivateRfDiscovery, sendRfDiscoveryCommand, send_ext_cmd,
          setObserveModePerTech, setObserveModeFlag, setObserveChangeInProgress, sentOf]
      · intro hrecv hd
        simp only at hrecv
        subst hrecv
        simp_all [afterDeactivate, deactivateRfDiscovery, sendRfDiscoveryCommand, send_ext_cmd,
          setObserveModePerTech, setObserveModeFlag, setObserveChangeInProgress, sentOf]
      · intro hrecv hd htech
        simp only at hrecv
        subst hrecv
        by_cases h1 : env.phNxpNciHal_send_ext_cmd 1 (b0 :: b1 :: b2 :: b3 :: t :: rest) =
            NFCSTATUS_SUCCESS <;>
        by_cases h2 : env.phNxpNciHal_send_ext_cmd 2
            (env.reConfigRFDiscCmd
              { rfDiscoveryReceived := true, currentObserveModeTechValue := t }) =
            NFCSTATUS_SUCCESS <;>
        simp_all [afterDeactivate, deactivateRfDiscovery, sendRfDiscoveryCommand, send_ext_cmd,
          setObserveModePerTech, setObserveModeFlag, setObserveChangeInProgress, sentOf,
          sentOf_append] <;>
        split_ifs <;> rfl
      · intro hrecv hd htech
        simp only at hrecv
        subst hrecv
        by_cases hflag : t &&& C.OBSERVE_MODE_TECH_COMMAND_SUPPORT_FLAG_FOR_ALL_TECH = 0 <;>
        simp_all [afterDeactivate, deactivateRfDiscovery, sendRfDiscoveryCommand, send_ext_cmd,
          setObserveModePerTech, setObserveModeFlag, setObserveChangeInProgress, sentOf,
          sentOf_append] <;>
        split_ifs <;> rfl
  · exact ⟨_, C.NCI_RSP_FAIL, tech_command_rejected C env s b0 b1 b2 b3 t rest hacc, rfl,
      fun _ => rfl, fun h => absurd h hacc⟩

/-- Witness of the amended C22: an active session, every command succeeding,
the all-technologies value requested: the acknowledgement carries
`NCI_RSP_OK`. -/
theorem C22_acknowledgement_status_witness :
    ∃ r st, handleObserveModeTechCommand sampleObserveConstants (sampleObserveEnv (fun _ => 0))
        sampleActiveState (0x2F :: 0x0C :: 0x02 :: 0x05 :: 0x07 :: []) = some r ∧
      r.acks = [(0x0C, 0x05, [st])] ∧ st = sampleObserveConstants.NCI_RSP_OK := by
  obtain ⟨r, st, hr, hacks, _, h⟩ :=
    C22_acknowledgement_status sampleObserveConstants (sampleObserveEnv (fun _ => 0))
      sampleActiveState 0x2F 0x0C 0x02 0x05 0x07 []
  exact ⟨r, st, hr, hacks,
    ((h ⟨rfl, Or.inl (by decide)⟩).2.2.2.1 rfl rfl ⟨by decide, by decide⟩).trans (by decide)⟩

/-- Path (a) of `handleObserveModeRfStateRspNtf`: the awaited deactivate
response. -/
theorem rf_state_deactivate_rsp
    (C : ObserveConstants) (env : ObserveEnv) (s : ObserveState) (b0 b1 : Nat)
    (rest : List Nat)
    (h : s.gWaitingForRfDeActivateRsp = true ∧ (b0 :: b1 :: rest).length ≥ C.NCI_RSP_SIZE ∧
        b0 = C.NCI_RF_DISC_RSP_GID ∧ b1 = C.NCI_RF_DEACTIVATE_OID) :
    handleObserveModeRfStateRspNtf C env s (b0 :: b1 :: rest) =
      some
        { ret := C.NFCSTATUS_EXTN_FEATURE_SUCCESS
          state := { s with gWaitingForRfDeActivateRsp := false, gWaitingForDiscRsp := true }
          trace :=
            [ObserveEvent.EnqueueWrite
              (if s.bIsObserveModeEnabled = true then env.reConfigRFDiscCmd s.builder
               else env.getDiscoveryCommand s.builder)] } := by
  obtain ⟨w1, w2, en, cip, bld⟩ := s
  obtain ⟨hw, hlen, h0, h1⟩ := h
  simp only at hw
  subst hw h0 h1
  have hlen' : ¬ (rest.length + 1 + 1 < C.NCI_RSP_SIZE) := by
    simp only [List.length_cons] at hlen
    omega
  cases en <;>
    simp [handleObserveModeRfStateRspNtf, NCI_GID_INDEX, NCI_OID_INDEX, hlen']

/-- The first test of `handleObserveModeRfStateRspNtf` (lines 189-191) failing,
the function is decided by the second test (lines 202-204). -/
theorem rf_state_not_deactivate_rsp
    (C : ObserveConstants) (env : ObserveEnv) (s : ObserveState) (b0 b1 : Nat)
    (rest : List Nat)
    (hA : ¬ (s.gWaitingForRfDeActivateRsp = true ∧ (b0 :: b1 :: rest).length ≥ C.NCI_RSP_SIZE ∧
        b0 = C.NCI_RF_DISC_RSP_GID ∧ b1 = C.NCI_RF_DEACTIVATE_OID)) :
    handleObserveModeRfStateRspNtf C env s (b0 :: b1 :: rest) =
      if s.gWaitingForDiscRsp = true ∧ b0 = C.NCI_RF_DISC_RSP_GID ∧
          b1 = C.NCI_RF_DISC_COMMAND_OID then
        some
          { ret := C.NFCSTATUS_EXTN_FEATURE_SUCCESS
            state := { s with gWaitingForDiscRsp := false }
            trace := [] }
      else some { ret := C.NFCSTATUS_EXTN_FEATURE_FAILURE, state := s, trace := [] } := by
  obtain ⟨w1, w2, en, cip, bld⟩ := s
  simp only [List.length_cons, ge_iff_le] at hA
  by_cases hw2 : w2 = true
  · by_cases hlen : C.NCI_RSP_SIZE ≤ rest.length + 1 + 1
    · by_cases hg : b0 = C.NCI_RF_DISC_RSP_GID
      · have ho : ¬ b1 = C.NCI_RF_DEACTIVATE_OID := fun ho => hA ⟨hw2, hlen, hg, ho⟩
        by_cases hw1 : w1 = true <;> by_cases ho2 : b1 = C.NCI_RF_DISC_COMMAND_OID <;>
          simp_all [handleObserveModeRfStateRspNtf, NCI_GID_INDEX, NCI_OID_INDEX]
      · by_cases hw1 : w1 = true <;>
          simp_all [handleObserveModeRfStateRspNtf, NCI_GID_INDEX, NCI_OID_INDEX]
    · by_cases hw1 : w1 = true <;> by_cases hg : b0 = C.NCI_RF_DISC_RSP_GID <;>
        by_cases ho2 : b1 = C.NCI_RF_DISC_COMMAND_OID <;>
        simp_all [handleObserveModeRfStateRspNtf, NCI_GID_INDEX, NCI_OID_INDEX]
  · by_cases hw1 : w1 = true <;> by_cases hg : b0 = C.NCI_RF_DISC_RSP_GID <;>
      by_cases ho2 : b1 = C.NCI_RF_DISC_COMMAND_OID <;>
      simp_all [handleObserveModeRfStateRspNtf, NCI_GID_INDEX, NCI_OID_INDEX]

/-- In Idle (no response awaited) `handleObserveModeRfStateRspNtf` reads no
byte of the frame and answers `NFCSTATUS_EXTN_FEATURE_FAILURE`. -/
theorem rf_state_idle
    (C : ObserveConstants) (env : ObserveEnv) (s : ObserveState) (pData : List Nat)
    (hw2 : s.gWaitingForRfDeActivateRsp = false) (hw1 : s.gWaitingForDiscRsp = false) :
    handleObserveModeRfStateRspNtf C env s pData =
      some { ret := C.NFCSTATUS_EXTN_FEATURE_FAILURE, state := s, trace := [] } := by
  obtain ⟨w1, w2, en, cip, bld⟩ := s
  simp only at hw1 hw2
  subst hw1 hw2
  simp [handleObserveModeRfStateRspNtf]

/-- A frame of fewer than two bytes given to `handleObserveModeRfStateRspNtf`:
the test of line 202 fails on `dataLen >= 2`, and the test of lines 189-191
reads bytes only if the deactivate response is awaited and
`dataLen >= NCI_RSP_SIZE`; it then reads byte 0, past the end of an empty
frame, and byte 1, past the end of a one-byte frame, if byte 0 is the group. -/
theorem rf_state_short_frame (C : ObserveConstants) (env : ObserveEnv) (s : ObserveState)
    (pData : List Nat) (hlen : pData.length < 2) :
    handleObserveModeRfStateRspNtf C env s pData =
      if s.gWaitingForRfDeActivateRsp = true ∧ C.NCI_RSP_SIZE ≤ pData.length ∧
          (pData = [] ∨ pData[0]? = some C.NCI_RF_DISC_RSP_GID) then none
      else some { ret := C.NFCSTATUS_EXTN_FEATURE_FAILURE, state := s, trace := [] } := by
  obtain ⟨w1, w2, en, cip, bld⟩ := s
  rcases pData with _ | ⟨b0, _ | ⟨b1, rest⟩⟩
  · by_cases h0 : C.NCI_RSP_SIZE = 0 <;> cases w1 <;> cases w2 <;>
      simp [handleObserveModeRfStateRspNtf, NCI_GID_INDEX, NCI_OID_INDEX, h0]
  · by_cases h0 : C.NCI_RSP_SIZE ≤ 1 <;> by_cases hg : b0 = C.NCI_RF_DISC_RSP_GID <;>
      cases w1 <;> cases w2 <;>
      simp [handleObserveModeRfStateRspNtf, NCI_GID_INDEX, NCI_OID_INDEX, h0, hg]
  · simp only [List.length_cons] at hlen
    omega

/-- C23: `handleObserveModeRfStateRspNtf` as a step function.  On every frame
of at least two bytes: (a) While the deactivate response is awaited, a frame
of at least `NCI_RSP_SIZE` bytes with byte 0 = `NCI_RF_DISC_RSP_GID` and
byte 1 = `NCI_RF_DEACTIVATE_OID` clears the awaiting-deactivate token, sets the
awaiting-discovery token, enqueues exactly one discovery-start command (the
reconfigured one if the enabled flag is set, else the default one) and returns
`NFCSTATUS_EXTN_FEATURE_SUCCESS`.  (b) Otherwise, while the discovery response
is awaited, a frame with byte 0 = `NCI_RF_DISC_RSP_GID` and byte 1 =
`NCI_RF_DISC_COMMAND_OID` clears the awaiting-discovery token, enqueues
nothing and returns `NFCSTATUS_EXTN_FEATURE_SUCCESS`.  (c) In every other
combination it returns `NFCSTATUS_EXTN_FEATURE_FAILURE`, enqueues nothing and
leaves the state as it was.  (d) In Idle (no token set) every frame, of any
length, gets answer (c).  (e) A frame of 0 or 1 byte gets answer (c) in every
state in which the deactivate response is not awaited, and in every state at
all if the frame is shorter than `NCI_RSP_SIZE`.  (f) The one case left, a
frame of 0 or 1 byte of at least `NCI_RSP_SIZE` bytes while the deactivate
response is awaited, also gets answer (c) if it has one byte other than the
group; otherwise the test of lines 189-191 reads a byte past the end of the
frame. -/
theorem C23_response_correlation
    (C : ObserveConstants) (env : ObserveEnv) (s : ObserveState) (b0 b1 : Nat)
    (rest : List Nat) :
    ((s.gWaitingForRfDeActivateRsp = true ∧ (b0 :: b1 :: rest).length ≥ C.NCI_RSP_SIZE ∧
        b0 = C.NCI_RF_DISC_RSP_GID ∧ b1 = C.NCI_RF_DEACTIVATE_OID) →
      handleObserveModeRfStateRspNtf C env s (b0 :: b1 :: rest) =
        some
          { ret := C.NFCSTATUS_EXTN_FEATURE_SUCCESS
            state := { s with gWaitingForRfDeActivateRsp := false, gWaitingForDiscRsp := true }
            trace :=
              [ObserveEvent.EnqueueWrite
                (if s.bIsObserveModeEnabled = true then env.reConfigRFDiscCmd s.builder
                 else env.getDiscoveryCommand s.builder)] }) ∧
    (¬ (s.gWaitingForRfDeActivateRsp = true ∧ (b0 :: b1 :: rest).length ≥ C.NCI_RSP_SIZE ∧
        b0 = C.NCI_RF_DISC_RSP_GID ∧ b1 = C.NCI_RF_DEACTIVATE_OID) →
      (s.gWaitingForDiscRsp = true ∧ b0 = C.NCI_RF_DISC_RSP_GID ∧
        b1 = C.NCI_RF_DISC_COMMAND_OID) →
      handleObserveModeRfStateRspNtf C env s (b0 :: b1 :: rest) =
        some
          { ret := C.NFCSTATUS_EXTN_FEATURE_SUCCESS
            state := { s with gWaitingForDiscRsp := false }
            trace := [] }) ∧
    (¬ (s.gWaitingForRfDeActivateRsp = true ∧ (b0 :: b1 :: rest).length ≥ C.NCI_RSP_SIZE ∧
        b0 = C.NCI_RF_DISC_RSP_GID ∧ b1 = C.NCI_RF_DEACTIVATE_OID) →
      ¬ (s.gWaitingForDiscRsp = true ∧ b0 = C.NCI_RF_DISC_RSP_GID ∧
        b1 = C.NCI_RF_DISC_COMMAND_OID) →
      handleObserveModeRfStateRspNtf C env s (b0 :: b1 :: rest) =
        some { ret := C.NFCSTATUS_EXTN_FEATURE_FAILURE, state := s, trace := [] }) ∧
    (∀ pData : List Nat,
      s.gWaitingForRfDeActivateRsp = false → s.gWaitingForDiscRsp = false →
      handleObserveModeRfStateRspNtf C env s pData =
        some { ret := C.NFCSTATUS_EXTN_FEATURE_FAILURE, state := s, trace := [] }) ∧
    (∀ pData : List Nat, pData.length < 2 →
      (s.gWaitingForRfDeActivateRsp = false ∨ pData.length < C.NCI_RSP_SIZE) →
      handleObserveModeRfStateRspNtf C env s pData =
        some { ret := C.NFCSTATUS_EXTN_FEATURE_FAILURE, state := s, trace := [] }) ∧
    (∀ pData : List Nat, pData.length < 2 →
      handleObserveModeRfStateRspNtf C env s pData =
        if s.gWaitingForRfDeActivateRsp = true ∧ C.NCI_RSP_SIZE ≤ pData.length ∧
            (pData = [] ∨ pData[0]? = some C.NCI_RF_DISC_RSP_GID) then none
        else some { ret := C.NFCSTATUS_EXTN_FEATURE_FAILURE, state := s, trace := [] }) := by
  refine ⟨rf_state_deactivate_rsp C env s b0 b1 rest, fun hA hB => ?_, fun hA hB => ?_,
    fun pData => rf_state_idle C env s pData, fun pData hlen hno => ?_,
    fun pData hlen => rf_state_short_frame C env s pData hlen⟩
  · rw [rf_state_not_deactivate_rsp C env s b0 b1 rest hA, if_pos hB]
  · rw [rf_state_not_deactivate_rsp C env s b0 b1 rest hA, if_neg hB]
  · rw [rf_state_short_frame C env s pData hlen, if_neg]
    rintro ⟨hw, hsize, _⟩
    rcases hno with h | h
    · rw [hw] at h; cases h
    · omega

/-- Witness of C23: while the deactivate response is awaited with the enabled
flag set, the frame `41 06 01 00` moves to awaiting the discovery response and
enqueues the reconfigured discovery command. -/
theorem C23_response_correlation_witness :
    handleObserveModeRfStateRspNtf sampleObserveConstants (sampleObserveEnv (fun _ => 0))
        { sampleActiveState with gWaitingForRfDeActivateRsp := true, bIsObserveModeEnabled := true }
        (0x41 :: 0x06 :: [0x01, 0x00]) =
      some
        { ret := 0x50
          state :=
            { sampleActiveState with
              gWaitingForRfDeActivateRsp := false
              gWaitingForDiscRsp := true
              bIsObserveModeEnabled := true }
          trace := [ObserveEvent.EnqueueWrite [0x21, 0x03, 0x01, 0xFF]] } :=
  (C23_response_correlation sampleObserveConstants (sampleObserveEnv (fun _ => 0))
    { sampleActiveState with gWaitingForRfDeActivateRsp := true, bIsObserveModeEnabled := true }
    0x41 0x06 [0x01, 0x00]).1 ⟨rfl, by decide, rfl, rfl⟩

/-- C24: `resetDiscovery` marks the discovery session as started in every
case.  If the change-in-progress (recovery pending) flag is set, it clears the
flag, sets the awaiting-deactivate token and enqueues exactly one frame, the
deactivate command `21 06 01 00`; nothing is sent synchronously and no
discovery command is enqueued.  If the flag is not set, nothing is enqueued or
sent and only the session mark changes. -/
theorem C24_deferred_recovery (s : ObserveState) :
    (s.bIsObserveChangeInProgress = true →
      resetDiscovery s =
        { state :=
            { s with
              gWaitingForRfDeActivateRsp := true
              bIsObserveChangeInProgress := false
              builder := { s.builder with rfDiscoveryReceived := true } }
          trace := [ObserveEvent.EnqueueWrite [0x21, 0x06, 0x01, 0x00]] } ∧
      enqueuedOf (resetDiscovery s).trace = [[0x21, 0x06, 0x01, 0x00]] ∧
      sentOf (resetDiscovery s).trace = []) ∧
    (s.bIsObserveChangeInProgress = false →
      resetDiscovery s =
        { state := { s with builder := { s.builder with rfDiscoveryReceived := true } }
          trace := [] }) ∧
    (resetDiscovery s).state.builder.rfDiscoveryReceived = true := by
  obtain ⟨w1, w2, en, cip, ⟨recv, cur⟩⟩ := s
  cases cip <;>
    simp [resetDiscovery, setObserveChangeInProgress, rf_deactivate_cmd, enqueuedOf, sentOf]

/-- Witness of C24: from the start-up state with recovery pending,
`resetDiscovery` enqueues the deactivate command alone. -/
theorem C24_deferred_recovery_witness :
    resetDiscovery { ObserveState.init with bIsObserveChangeInProgress := true } =
      { state :=
          { ObserveState.init with
            gWaitingForRfDeActivateRsp := true
            bIsObserveChangeInProgress := false
            builder :=
              { ObserveState.init.builder with rfDiscoveryReceived := true } }
        trace := [ObserveEvent.EnqueueWrite [0x21, 0x06, 0x01, 0x00]] } :=
  ((C24_deferred_recovery { ObserveState.init with bIsObserveChangeInProgress := true }).1
    rfl).1

/-- C25: `handleObserveMode` on a frame longer than 4 bytes: if observe mode is
supported, the enabled flag becomes true exactly when byte 4 is non-zero, the
per-technology value becomes byte 4 and the acknowledgement carries
`NCI_RSP_OK`; if unsupported, the acknowledgement carries `NCI_RSP_FAIL` and
the state is unchanged.  In both cases there is exactly one acknowledgement,
for opcode byte 1 and sub-opcode byte 3, nothing is sent or enqueued, and
byte 2 is returned.  On a frame of 4 bytes or fewer the function returns 0
with no acknowledgement and no state change. -/
theorem C25_enable_disable_command
    (C : ObserveConstants) (env : ObserveEnv) (s : ObserveState) :
    (∀ (b0 b1 b2 b3 v : Nat) (rest : List Nat),
      env.phNxpNciHal_isObserveModeSupported = true →
      handleObserveMode C env s (b0 :: b1 :: b2 :: b3 :: v :: rest) =
        some
          { ret := b2
            state :=
              { s with
                bIsObserveModeEnabled := decide (v ≠ 0)
                builder := { s.builder with currentObserveModeTechValue := v } }
            trace := [ObserveEvent.vendorSpecificCallback b1 b3 [C.NCI_RSP_OK]] }) ∧
    (∀ (b0 b1 b2 b3 v : Nat) (rest : List Nat),
      env.phNxpNciHal_isObserveModeSupported = false →
      handleObserveMode C env s (b0 :: b1 :: b2 :: b3 :: v :: rest) =
        some
          { ret := b2
            state := s
            trace := [ObserveEvent.vendorSpecificCallback b1 b3 [C.NCI_RSP_FAIL]] }) ∧
    (∀ (b0 b1 b2 b3 v : Nat) (rest : List Nat),
      ∃ r, handleObserveMode C env s (b0 :: b1 :: b2 :: b3 :: v :: rest) = some r ∧
        r.acks.length = 1 ∧ r.sent = [] ∧ r.enqueued = []) ∧
    (∀ p_data : List Nat, p_data.length ≤ 4 →
      handleObserveMode C env s p_data = some { ret := 0, state := s, trace := [] }) := by
  obtain ⟨w1, w2, en, cip, ⟨recv, cur⟩⟩ := s
  refine ⟨?_, ?_, ?_, ?_⟩
  · intro b0 b1 b2 b3 v rest hsup
    simp [handleObserveMode, hsup, setObserveModeFlag, setObserveModePerTech,
      NCI_MSG_INDEX_FEATURE_VALUE, NCI_OID_INDEX, NCI_MSG_INDEX_FOR_FEATURE, NCI_MSG_LEN_INDEX]
  · intro b0 b1 b2 b3 v rest hsup
    simp [handleObserveMode, hsup, NCI_OID_INDEX, NCI_MSG_INDEX_FOR_FEATURE, NCI_MSG_LEN_INDEX]
  · intro b0 b1 b2 b3 v rest
    cases hsup : env.phNxpNciHal_isObserveModeSupported <;>
      simp [handleObserveMode, hsup, setObserveModeFlag, setObserveModePerTech,
        NCI_MSG_INDEX_FEATURE_VALUE, NCI_OID_INDEX, NCI_MSG_INDEX_FOR_FEATURE, NCI_MSG_LEN_INDEX,
        ObserveOutcome.acks, ObserveOutcome.sent, ObserveOutcome.enqueued, acksOf, sentOf,
        enqueuedOf]
  · intro p_data hlen
    simp [handleObserveMode, hlen]

/-- Witness of C25: the enable command `2F 0C 02 02 01` on a supporting chip,
from the start-up state. -/
theorem C25_enable_disable_command_witness :
    handleObserveMode sampleObserveConstants (sampleObserveEnv (fun _ => 0)) ObserveState.init
        (0x2F :: 0x0C :: 0x02 :: 0x02 :: 0x01 :: []) =
      some
        { ret := 0x02
          state :=
            { ObserveState.init with
              bIsObserveModeEnabled := true
              builder := { ObserveState.init.builder with currentObserveModeTechValue := 0x01 } }
          trace := [ObserveEvent.vendorSpecificCallback 0x0C 0x02 [0x00]] } :=
  (C25_enable_disable_command sampleObserveConstants (sampleObserveEnv (fun _ => 0))
    ObserveState.init).1 0x2F 0x0C 0x02 0x02 0x01 [] rfl

/-- C26: `handleGetObserveModeStatus` on a frame of at least 4 bytes emits
exactly one reply, for opcode byte 1 and sub-opcode byte 3, whose payload is
two bytes: `0x00` followed by the current technology value if the enabled flag
is set and by `0x00` otherwise; the state is unchanged, nothing is sent or
enqueued, and byte 2 is returned.  On a shorter frame it returns 0 and emits
nothing. -/
theorem C26_status_query (s : ObserveState) :
    (∀ (b0 b1 b2 b3 : Nat) (rest : List Nat),
      handleGetObserveModeStatus s (b0 :: b1 :: b2 :: b3 :: rest) =
        some
          { ret := b2
            state := s
            trace :=
              [ObserveEvent.vendorSpecificCallback b1 b3
                [0x00, if s.bIsObserveModeEnabled = true
                  then s.builder.currentObserveModeTechValue else 0x00]] }) ∧
    (∀ p_data : List Nat, p_data.length < 4 →
      handleGetObserveModeStatus s p_data = some { ret := 0, state := s, trace := [] }) := by
  refine ⟨?_, ?_⟩
  · intro b0 b1 b2 b3 rest
    simp [handleGetObserveModeStatus, NCI_OID_INDEX, NCI_MSG_INDEX_FOR_FEATURE,
      NCI_MSG_LEN_INDEX]
  · intro p_data hlen
    simp [handleGetObserveModeStatus, hlen]

/-- Witness of C26: with the enabled flag set and technology value `0x07`, the
query `2F 0C 01 04` is answered with the payload `00 07`. -/
theorem C26_status_query_witness :
    handleGetObserveModeStatus
        { ObserveState.init with
          bIsObserveModeEnabled := true
          builder := { rfDiscoveryReceived := true, currentObserveModeTechValue := 0x07 } }
        (0x2F :: 0x0C :: 0x01 :: 0x04 :: []) =
      some
        { ret := 0x01
          state :=
            { ObserveState.init with
              bIsObserveModeEnabled := true
              builder := { rfDiscoveryReceived := true, currentObserveModeTechValue := 0x07 } }
          trace := [ObserveEvent.vendorSpecificCallback 0x0C 0x04 [0x00, 0x07]] } :=
  (C26_status_query
    { ObserveState.init with
      bIsObserveModeEnabled := true
      builder := { rfDiscoveryReceived := true, currentObserveModeTechValue := 0x07 } }).1
    0x2F 0x0C 0x01 0x04 []

end ObserveModeModel

namespace WriterThreadModel

open AutoCardModel (NFCSTATUS_SUCCESS)

/-! ## Outbound queue writer -/

/-- C27 as stated fails: `Start` with a queue created (handle 5) and
`pthread_create` failing (11) returns false and leaves the writer not running
with the queue handle in place; `Post` of four bytes on that writer makes the
queue send on handle 5 and, the send succeeding, returns true. -/
theorem C27_post_on_writer_not_running :
    phNxpNciHal_WriterThread.Start phNxpNciHal_WriterThread.new 5 11 0 =
      { ret := false
        self := { thread_running := false, writer_queue := 5, writer_thread := 0 }
        trace := [WriterEvent.phDal4Nfc_msgget 5, WriterEvent.pthread_create 11] } ∧
    phNxpNciHal_WriterThread.Post sampleWriterConstants
        (phNxpNciHal_WriterThread.Start phNxpNciHal_WriterThread.new 5 11 0).self
        (some [0x20, 0x00, 0x01, 0x01]) 4 0 =
      some
        { ret := true
          trace :=
            [WriterEvent.phDal4Nfc_msgsnd 5
              { eMsgType := sampleWriterConstants.NCI_HAL_TML_WRITE_MSG
                pMsgData := none
                Size := 4
                data := [0x20, 0x00, 0x01, 0x01]
                w_status := 0 }] } := by
  refine ⟨by decide, by decide⟩

/-- C27, amended: `Post(data, length)` does not look at `thread_running`.  It
returns false without a queue send if `data` is null, `length` is 0 or
`length` exceeds `PHNCI_MAX_DATA_LEN`.  Otherwise (the buffer holding at least
`length` bytes) it makes exactly one queue send, on the current queue handle,
of a message of type `NCI_HAL_TML_WRITE_MSG` with size `length` and the first
`length` bytes of the buffer as data, and returns true exactly when the send
returns 0. -/
theorem C27_post_contract
    (C : WriterConstants) (w : phNxpNciHal_WriterThread) (data : Option (List Nat))
    (length : Nat) (sent : Int) :
    ((data = none ∨ length = 0 ∨ length > C.PHNCI_MAX_DATA_LEN) →
      phNxpNciHal_WriterThread.Post C w data length sent =
        some { ret := false, trace := [] }) ∧
    (∀ buffer : List Nat, data = some buffer → length ≠ 0 →
      length ≤ C.PHNCI_MAX_DATA_LEN → length ≤ buffer.length →
      phNxpNciHal_WriterThread.Post C w data length sent =
        some
          { ret := decide (sent = 0)
            trace :=
              [WriterEvent.phDal4Nfc_msgsnd w.writer_queue
                { eMsgType := C.NCI_HAL_TML_WRITE_MSG
                  pMsgData := none
                  Size := length
                  data := buffer.take length
                  w_status := 0 }] }) := by
  refine ⟨?_, ?_⟩
  · intro h
    cases data with
    | none => rfl
    | some buffer =>
      have h' : length = 0 ∨ length > C.PHNCI_MAX_DATA_LEN := by
        rcases h with h | h | h
        · cases h
        · exact Or.inl h
        · exact Or.inr h
      simp [phNxpNciHal_WriterThread.Post, h']
  · intro buffer hdata h0 hmax hlen
    subst hdata
    have h1 : ¬ (length = 0 ∨ length > C.PHNCI_MAX_DATA_LEN) := by
      rintro (h | h)
      · exact h0 h
      · exact absurd hmax (Nat.not_le.mpr h)
    have h2 : ¬ buffer.length < length := Nat.not_lt.mpr hlen
    by_cases hs : sent = 0
    · simp [phNxpNciHal_WriterThread.Post, h1, h2, hs]
    · simp [phNxpNciHal_WriterThread.Post, h1, h2, hs]

/-- Witness of the amended C27: four bytes posted on a running writer, the
queue send succeeding. -/
theorem C27_post_contract_witness :
    phNxpNciHal_WriterThread.Post sampleWriterConstants sampleRunningWriter
        (some [0x20, 0x00, 0x01, 0x01]) 4 0 =
      some
        { ret := true
          trace :=
            [WriterEvent.phDal4Nfc_msgsnd 5
              { eMsgType := sampleWriterConstants.NCI_HAL_TML_WRITE_MSG
                pMsgData := none
                Size := 4
                data := [0x20, 0x00, 0x01, 0x01]
                w_status := 0 }] } :=
  (C27_post_contract sampleWriterConstants sampleRunningWriter
    (some [0x20, 0x00, 0x01, 0x01]) 4 0).2 [0x20, 0x00, 0x01, 0x01] rfl (by decide)
    (by decide) (by decide)

/-- C28, what the code does: on a writer that is not running, `Start` whose
queue creation fails (handle 0) returns false but leaves `thread_running`
true, with no thread creation attempted; every later `Start`, whatever the
collaborators would return, then returns true without calling
`phDal4Nfc_msgget` or `pthread_create`, the queue handle still 0.  The other
failure path, `pthread_create` failing, resets `thread_running` to false. -/
theorem C28_start_after_failed_queue_creation
    (q0 : Int) (t0 : Nat) (queue val val' : Int) (thread thread' : Nat) :
    phNxpNciHal_WriterThread.Start
        { thread_running := false, writer_queue := q0, writer_thread := t0 } 0 val thread =
      { ret := false
        self := { thread_running := true, writer_queue := 0, writer_thread := t0 }
        trace := [WriterEvent.phDal4Nfc_msgget 0] } ∧
    phNxpNciHal_WriterThread.Start
        { thread_running := true, writer_queue := 0, writer_thread := t0 }
        queue val' thread' =
      { ret := true
        self := { thread_running := true, writer_queue := 0, writer_thread := t0 }
        trace := [] } ∧
    phNxpNciHal_WriterThread.Start
        { thread_running := false, writer_queue := q0, writer_thread := t0 } 5 11 thread =
      { ret := false
        self := { thread_running := false, writer_queue := 5, writer_thread := t0 }
        trace := [WriterEvent.phDal4Nfc_msgget 5, WriterEvent.pthread_create 11] } := by
  refine ⟨?_, ?_, ?_⟩ <;> simp [phNxpNciHal_WriterThread.Start]

/-- C29, what the code does: `Stop` on a running writer stores false in
`thread_running`, releases the queue, clears both handles and returns true;
the load that guards `pthread_join` comes after that store, so the worker is
never joined, whatever `pthread_join` would return.  `Stop` on a writer that is
not running calls nothing, changes nothing and returns true. -/
theorem C29_stop_never_joins (w : phNxpNciHal_WriterThread) (joined : Int) :
    phNxpNciHal_WriterThread.Stop w joined =
      (if w.thread_running = true then
        { ret := true
          self := { thread_running := false, writer_queue := 0, writer_thread := 0 }
          trace := [WriterEvent.phDal4Nfc_msgrelease w.writer_queue] }
      else { ret := true, self := w, trace := [] }) ∧
    ∀ thread : Nat,
      WriterEvent.pthread_join thread ∉ (phNxpNciHal_WriterThread.Stop w joined).trace := by
  obtain ⟨running, q, t⟩ := w
  cases running <;> simp [phNxpNciHal_WriterThread.Stop]

/-- C30: one pass of the worker loop on a message dequeued while running.  A
message of type `NCI_HAL_TML_WRITE_MSG` causes exactly one transport write, of
the message's data with length `(uint16_t)Size`, followed by exactly one
write-complete callback, with `NFCSTATUS_SUCCESS` if the number of bytes
written equals `Size` and `NFCSTATUS_FAILED` otherwise.  A message of type
`HAL_CTRL_GRANTED_MSG` (a case label distinct from the first) causes exactly
one control-granted callback and no write.  A message of any other type causes
no call.  In all three cases the loop goes on with the next pass.  A failed
receive causes no call either and the loop goes on. -/
theorem C30_worker_step
    (C : WriterConstants) (pass : Pass) (rest : List Pass) :
    (∀ msg : phLibNfc_Message_t, pass.received = some msg → pass.runningAfter = true →
      (msg.eMsgType = C.NCI_HAL_TML_WRITE_MSG →
        phNxpNciHal_WriterThread.Run C (pass :: rest) =
          [WriterEvent.phNxpNciHal_write_unlocked (msg.Size % 65536) msg.data,
           WriterEvent.phNxpExtn_WriteCompleteStatusUpdate
             (if pass.bytesWritten = msg.Size then NFCSTATUS_SUCCESS
              else C.NFCSTATUS_FAILED)] ++
            phNxpNciHal_WriterThread.Run C rest) ∧
      (msg.eMsgType = C.HAL_CTRL_GRANTED_MSG →
        C.HAL_CTRL_GRANTED_MSG ≠ C.NCI_HAL_TML_WRITE_MSG →
        phNxpNciHal_WriterThread.Run C (pass :: rest) =
          [WriterEvent.phNxpExtn_NfcHalControlGranted] ++
            phNxpNciHal_WriterThread.Run C rest) ∧
      (msg.eMsgType ≠ C.NCI_HAL_TML_WRITE_MSG → msg.eMsgType ≠ C.HAL_CTRL_GRANTED_MSG →
        phNxpNciHal_WriterThread.Run C (pass :: rest) =
          phNxpNciHal_WriterThread.Run C rest)) ∧
    (pass.received = none →
      phNxpNciHal_WriterThread.Run C (pass :: rest) = phNxpNciHal_WriterThread.Run C rest) := by
  obtain ⟨received, runningAfter, bytesWritten⟩ := pass
  refine ⟨?_, ?_⟩
  · intro msg hrecv hrun
    simp only at hrecv hrun
    subst hrecv hrun
    refine ⟨?_, ?_, ?_⟩
    · intro hw
      by_cases hb : bytesWritten = msg.Size <;>
        simp [phNxpNciHal_WriterThread.Run, dispatch, hw, hb]
    · intro hg hne
      simp [phNxpNciHal_WriterThread.Run, dispatch, hg, hne]
    · intro hw hg
      simp [phNxpNciHal_WriterThread.Run, dispatch, hw, hg]
  · intro hrecv
    simp only at hrecv
    subst hrecv
    simp [phNxpNciHal_WriterThread.Run]

/-- Witness of C30: a script of three passes, a four-byte write request of
which three bytes are written, a control-grant message and a message of an
unknown type. -/
theorem C30_worker_step_witness :
    phNxpNciHal_WriterThread.Run sampleWriterConstants
        ({ received := some
            { eMsgType := 0x415, pMsgData := none, Size := 4,
              data := [0x20, 0x00, 0x01, 0x01], w_status := 0 }
           runningAfter := true
           bytesWritten := 3 } ::
         [{ received := some
              { eMsgType := 0x418, pMsgData := none, Size := 0, data := [], w_status := 0 }
            runningAfter := true
            bytesWritten := 0 },
          { received := some
              { eMsgType := 0x999, pMsgData := none, Size := 0, data := [], w_status := 0 }
            runningAfter := true
            bytesWritten := 0 }]) =
      [WriterEvent.phNxpNciHal_write_unlocked (4 % 65536) [0x20, 0x00, 0x01, 0x01],
       WriterEvent.phNxpExtn_WriteCompleteStatusUpdate
         (if 3 = 4 then NFCSTATUS_SUCCESS else sampleWriterConstants.NFCSTATUS_FAILED)] ++
        phNxpNciHal_WriterThread.Run sampleWriterConstants
          [{ received := some
              { eMsgType := 0x418, pMsgData := none, Size := 0, data := [], w_status := 0 }
             runningAfter := true
             bytesWritten := 0 },
           { received := some
              { eMsgType := 0x999, pMsgData := none, Size := 0, data := [], w_status := 0 }
             runningAfter := true
             bytesWritten := 0 }] :=
  ((C30_worker_step sampleWriterConstants
    { received := some
        { eMsgType := 0x415, pMsgData := none, Size := 4,
          data := [0x20, 0x00, 0x01, 0x01], w_status := 0 }
      runningAfter := true
      bytesWritten := 3 }
    [{ received := some
        { eMsgType := 0x418, pMsgData := none, Size := 0, data := [], w_status := 0 }
       runningAfter := true
       bytesWritten := 0 },
     { received := some
        { eMsgType := 0x999, pMsgData := none, Size := 0, data := [], w_status := 0 }
       runningAfter := true
       bytesWritten := 0 }]).1
    { eMsgType := 0x415, pMsgData := none, Size := 4,
      data := [0x20, 0x00, 0x01, 0x01], w_status := 0 } rfl rfl).1 rfl

end WriterThreadModel

namespace ConfigModel

/-! ## Configuration store -/

theorem strcmp_self (a : List Nat) : strcmp a a = 0 := by
  induction a with
  | nil => rfl
  | cons x xs ih => simp [strcmp, ih]

theorem strcmp_values (a b : List Nat) : strcmp a b = -1 ∨ strcmp a b = 0 ∨ strcmp a b = 1 := by
  induction a generalizing b with
  | nil => cases b <;> simp [strcmp]
  | cons x xs ih =>
    cases b with
    | nil => simp [strcmp]
    | cons y ys =>
      simp only [strcmp]
      split_ifs
      · exact Or.inl rfl
      · exact Or.inr (Or.inr rfl)
      · exact ih ys

theorem strcmp_eq_zero (a b : List Nat) (h : strcmp a b = 0) : a = b := by
  induction a generalizing b with
  | nil => cases b <;> simp_all [strcmp]
  | cons x xs ih =>
    cases b with
    | nil => simp [strcmp] at h
    | cons y ys =>
      by_cases h1 : x < y
      · simp [strcmp, h1] at h
      · by_cases h2 : y < x
        · simp [strcmp, h1, h2] at h
        · simp only [strcmp, h1, h2, if_false] at h
          have hxy : x = y := by omega
          rw [hxy, ih ys h]

theorem strcmp_swap (a b : List Nat) (h : 0 < strcmp a b) : strcmp b a < 0 := by
  induction a generalizing b with
  | nil => cases b <;> simp_all [strcmp]
  | cons x xs ih =>
    cases b with
    | nil => simp [strcmp]
    | cons y ys =>
      by_cases h1 : x < y
      · simp [strcmp, h1] at h
      · by_cases h2 : y < x
        · simp [strcmp, h2]
        · simp only [strcmp, h1, h2, if_false] at h ⊢
          exact ih ys h

theorem strcmp_trans (a b c : List Nat) (hab : strcmp a b < 0) (hbc : strcmp b c < 0) :
    strcmp a c < 0 := by
  induction a generalizing b c with
  | nil =>
    cases c with
    | nil => cases b <;> simp_all [strcmp]
    | cons z zs => simp [strcmp]
  | cons x xs ih =>
    cases b with
    | nil => simp [strcmp] at hab
    | cons y ys =>
      cases c with
      | nil => simp [strcmp] at hbc
      | cons z zs =>
        by_cases h1 : x < y
        · by_cases h3 : y < z
          · have : x < z := by omega
            simp [strcmp, this]
          · by_cases h4 : z < y
            · simp [strcmp, h3, h4] at hbc
            · have : x < z := by omega
              simp [strcmp, this]
        · by_cases h2 : y < x
          · simp [strcmp, h1, h2] at hab
          · simp only [strcmp, h1, h2, if_false] at hab
            by_cases h3 : y < z
            · have : x < z := by omega
              simp [strcmp, this]
            · by_cases h4 : z < y
              · simp [strcmp, h3, h4] at hbc
              · simp only [strcmp, h3, h4, if_false] at hbc
                have h5 : ¬ x < z := by omega
                have h6 : ¬ z < x := by omega
                simp only [strcmp, h5, h6, if_false]
                exact ih ys zs hab hbc

/-- The three outcomes of a comparison in `find` and `add`. -/
theorem strcmp_cases (a b : List Nat) :
    strcmp a b < 0 ∨ a = b ∨ strcmp b a < 0 := by
  rcases strcmp_values a b with h | h | h
  · exact Or.inl (by omega)
  · exact Or.inr (Or.inl (strcmp_eq_zero a b h))
  · exact Or.inr (Or.inr (strcmp_swap a b (by omega)))

theorem strcmp_lt_irrefl (a b : List Nat) (h : strcmp a b < 0) : a ≠ b := by
  intro hab
  rw [hab, strcmp_self] at h
  exact absurd h (by decide)

theorem strcmp_lt_asymm (a b : List Nat) (h : strcmp a b < 0) : ¬ strcmp b a < 0 := by
  intro h'
  have := strcmp_trans a b a h h'
  rw [strcmp_self] at this
  exact absurd this (by decide)

/-- The entry found for the name just added is the parameter added. -/
theorem findLoop_addLoop_same (p : CNfcParam) (l : List CNfcParam) :
    findLoop p.name (addLoop p l) = some p := by
  induction l with
  | nil => simp [addLoop, findLoop, strcmp_self]
  | cons x xs ih =>
    rcases strcmp_cases x.name p.name with h | h | h
    · simp [addLoop, findLoop, h, ih]
    · have h0 : strcmp x.name p.name = 0 := by rw [h]; exact strcmp_self _
      simp [addLoop, findLoop, h0, strcmp_self]
    · have h1 : ¬ strcmp x.name p.name < 0 := strcmp_lt_asymm _ _ h
      have h2 : ¬ strcmp x.name p.name = 0 := fun h0 =>
        strcmp_lt_irrefl _ _ h (strcmp_eq_zero _ _ h0).symm
      simp [addLoop, findLoop, h1, h2, strcmp_self]

/-- What `find` gives on a list whose first entry is `x`. -/
theorem findLoop_cons (n : List Nat) (x : CNfcParam) (xs : List CNfcParam) :
    findLoop n (x :: xs) =
      if strcmp x.name n < 0 then findLoop n xs
      else if x.name = n then some x else none := by
  rcases strcmp_cases x.name n with h | h | h
  · simp [findLoop, h]
  · subst h
    simp [findLoop, strcmp_self]
  · have h1 : ¬ strcmp x.name n < 0 := strcmp_lt_asymm _ _ h
    have h2 : ¬ strcmp x.name n = 0 := fun h0 =>
      strcmp_lt_irrefl _ _ h (strcmp_eq_zero _ _ h0).symm
    have h3 : ¬ x.name = n := fun h0 => strcmp_lt_irrefl _ _ h h0.symm
    simp [findLoop, h1, h2, h3]

/-- Adding a parameter does not change what is found for another name. -/
theorem findLoop_addLoop_other (p : CNfcParam) (n : List Nat) (hn : n ≠ p.name)
    (l : List CNfcParam) :
    findLoop n (addLoop p l) = findLoop n l := by
  have hp : ¬ p.name = n := fun h => hn h.symm
  induction l with
  | nil =>
    simp only [addLoop, findLoop_cons, hp, if_false]
    split_ifs <;> simp [findLoop]
  | cons x xs ih =>
    rcases strcmp_cases x.name p.name with h | h | h
    · simp only [addLoop, h, if_true, findLoop_cons, ih]
    · rw [findLoop_cons n x xs, h]
      simp [addLoop, h, strcmp_self, findLoop_cons, hp]
    · have h1 : ¬ strcmp x.name p.name < 0 := strcmp_lt_asymm _ _ h
      have h2 : ¬ strcmp x.name p.name = 0 := fun h0 =>
        strcmp_lt_irrefl _ _ h (strcmp_eq_zero _ _ h0).symm
      simp only [addLoop, h1, h2, if_false, findLoop_cons, hp]
      by_cases hpn : strcmp p.name n < 0
      · simp [hpn]
      · have hnp : strcmp n p.name < 0 := by
          rcases strcmp_cases p.name n with h' | h' | h'
          · exact absurd h' hpn
          · exact absurd h' hp
          · exact h'
        have hnx : strcmp n x.name < 0 := strcmp_trans _ _ _ hnp h
        have hx1 : ¬ strcmp x.name n < 0 := strcmp_lt_asymm _ _ hnx
        have hx2 : ¬ x.name = n := fun h0 => strcmp_lt_irrefl _ _ hnx h0.symm
        simp [hpn, hx1, hx2]

theorem mem_addLoop (p x : CNfcParam) (l : List CNfcParam) (hx : x ∈ addLoop p l) :
    x = p ∨ x ∈ l := by
  induction l with
  | nil => simpa [addLoop] using hx
  | cons y ys ih =>
    simp only [addLoop] at hx
    split_ifs at hx with h1 h2
    · rcases List.mem_cons.mp hx with h | h
      · exact Or.inr (h ▸ List.mem_cons_self _ _)
      · rcases ih h with h' | h'
        · exact Or.inl h'
        · exact Or.inr (List.mem_cons_of_mem _ h')
    · rcases List.mem_cons.mp hx with h | h
      · exact Or.inl h
      · exact Or.inr (List.mem_cons_of_mem _ h)
    · rcases List.mem_cons.mp hx with h | h
      · exact Or.inl h
      · exact Or.inr h

/-- The loop of `add` keeps the list strictly ascending by name. -/
theorem addLoop_sorted (p : CNfcParam) (l : List CNfcParam)
    (hl : l.Pairwise (fun a b => strcmp a.name b.name < 0)) :
    (addLoop p l).Pairwise (fun a b => strcmp a.name b.name < 0) := by
  induction l with
  | nil => simp [addLoop]
  | cons x xs ih =>
    rw [List.pairwise_cons] at hl
    rcases strcmp_cases x.name p.name with h | h | h
    · simp only [addLoop, h, if_true]
      rw [List.pairwise_cons]
      refine ⟨fun y hy => ?_, ih hl.2⟩
      rcases mem_addLoop p y xs hy with rfl | hy'
      · exact h
      · exact hl.1 y hy'
    · have h0 : strcmp x.name p.name = 0 := by rw [h]; exact strcmp_self _
      simp only [addLoop, h0, lt_self_iff_false, if_false, if_true]
      rw [List.pairwise_cons]
      exact ⟨fun y hy => h ▸ hl.1 y hy, hl.2⟩
    · have h1 : ¬ strcmp x.name p.name < 0 := strcmp_lt_asymm _ _ h
      have h2 : ¬ strcmp x.name p.name = 0 := fun h0 =>
        strcmp_lt_irrefl _ _ h (strcmp_eq_zero _ _ h0).symm
      simp only [addLoop, h1, h2, if_false]
      rw [List.pairwise_cons, List.pairwise_cons]
      refine ⟨fun y hy => ?_, hl⟩
      rcases List.mem_cons.mp hy with rfl | hy'
      · exact h
      · exact strcmp_trans _ _ _ h (hl.1 y hy')

/-- On a strictly ascending list `find` gives every entry for its own name. -/
theorem findLoop_of_mem (l : List CNfcParam)
    (hl : l.Pairwise (fun a b => strcmp a.name b.name < 0)) (x : CNfcParam) (hx : x ∈ l) :
    findLoop x.name l = some x := by
  induction l with
  | nil => cases hx
  | cons y ys ih =>
    rw [List.pairwise_cons] at hl
    rcases List.mem_cons.mp hx with rfl | hx'
    · simp [findLoop_cons, strcmp_self]
    · have hlt : strcmp y.name x.name < 0 := hl.1 x hx'
      simp only [findLoop_cons, hlt, if_true]
      exact ih hl.2 hx'

/-- Outside the nci-update file, `add` of a parameter is the loop on the
list, whether the list is empty or not, and writes nothing else. -/
theorem add_some (cfg : CNfcConfig) (p : CNfcParam)
    (hfile : hasSubstring cfg.mCurrentFile (literal "libnfc-nci-update.conf") = false) :
    cfg.add (some p) = { cfg with m_list := addLoop p cfg.m_list } := by
  obtain ⟨array, m_list, valid, file, state⟩ := cfg
  simp only at hfile
  cases m_list with
  | nil => simp [CNfcConfig.add, addLoop]
  | cons x xs => simp [CNfcConfig.add, hfile]

theorem lastAdded_concat_none (calls : List (Option CNfcParam)) (n : List Nat) :
    lastAdded (calls ++ [none]) n = lastAdded calls n := by
  simp [lastAdded, List.reduceOption_append]

theorem lastAdded_concat_some (calls : List (Option CNfcParam)) (p : CNfcParam)
    (n : List Nat) :
    lastAdded (calls ++ [some p]) n = if p.name = n then some p else lastAdded calls n := by
  by_cases h : p.name = n <;>
    simp [lastAdded, List.reduceOption_append, List.find?_cons, h]

/-- The state of the list after a sequence of calls of `add` that starts on an
empty list outside the nci-update file. -/
theorem add_calls (cfg : CNfcConfig) (calls : List (Option CNfcParam))
    (hlist : cfg.m_list = [])
    (hfile : hasSubstring cfg.mCurrentFile (literal "libnfc-nci-update.conf") = false) :
    (calls.foldl CNfcConfig.add cfg).array = cfg.array ∧
    (calls.foldl CNfcConfig.add cfg).mCurrentFile = cfg.mCurrentFile ∧
    (calls.foldl CNfcConfig.add cfg).m_list.Pairwise
      (fun a b => strcmp a.name b.name < 0) ∧
    ∀ n, findLoop n (calls.foldl CNfcConfig.add cfg).m_list = lastAdded calls n := by
  induction calls using List.reverseRecOn with
  | nil => simp [hlist, findLoop, lastAdded]
  | append_singleton init c ih =>
    obtain ⟨harr, hcur, hsorted, hfind⟩ := ih
    rw [List.foldl_append]
    cases c with
    | none =>
      refine ⟨harr, hcur, hsorted, fun n => ?_⟩
      rw [lastAdded_concat_none]
      exact hfind n
    | some p =>
      have hfile' : hasSubstring (init.foldl CNfcConfig.add cfg).mCurrentFile
          (literal "libnfc-nci-update.conf") = false := by rw [hcur]; exact hfile
      simp only [List.foldl_cons, List.foldl_nil]
      rw [add_some _ p hfile']
      refine ⟨harr, hcur, addLoop_sorted p _ hsorted, fun n => ?_⟩
      rw [lastAdded_concat_some]
      by_cases h : p.name = n
      · rw [if_pos h, ← h]
        exact findLoop_addLoop_same p _
      · rw [if_neg h]
        rw [findLoop_addLoop_other p n (fun h' => h h'.symm)]
        exact hfind n

/-- The method `find` after `moveFromList` into an empty array is the loop of
`find` on the list. -/
theorem find_moveFromList (cfg : CNfcConfig) (harr : cfg.array = []) (n : List Nat) :
    cfg.moveFromList.find (some n) = findLoop n cfg.m_list := by
  obtain ⟨array, m_list, valid, file, state⟩ := cfg
  simp only at harr
  subst harr
  cases m_list with
  | nil => simp [CNfcConfig.moveFromList, CNfcConfig.find, findLoop]
  | cons x xs => simp [CNfcConfig.moveFromList, CNfcConfig.find]

/-- C39: for every sequence of calls of `CNfcConfig::add` (the null pointer
included) that starts on an empty list while the current file is not the
nci-update file, the list is strictly ascending by name in `strcmp` order;
every entry of the list is the most recently added parameter of its name, so
there is one entry for each distinct name; and after `moveFromList` into an
empty array, `find(n)` returns the most recently added parameter called `n`,
which is the null pointer exactly when no parameter called `n` was added. -/
theorem C39_lookup_after_adds (cfg : CNfcConfig) (calls : List (Option CNfcParam))
    (hlist : cfg.m_list = []) (harr : cfg.array = [])
    (hfile : hasSubstring cfg.mCurrentFile (literal "libnfc-nci-update.conf") = false) :
    (calls.foldl CNfcConfig.add cfg).m_list.Pairwise
      (fun a b => strcmp a.name b.name < 0) ∧
    (∀ x ∈ (calls.foldl CNfcConfig.add cfg).m_list, lastAdded calls x.name = some x) ∧
    (∀ n, (calls.foldl CNfcConfig.add cfg).moveFromList.find (some n) = lastAdded calls n) ∧
    (∀ n, (calls.foldl CNfcConfig.add cfg).moveFromList.find (some n) = none ↔
      ∀ p, some p ∈ calls → p.name ≠ n) := by
  obtain ⟨harr', _, hsorted, hfind⟩ := add_calls cfg calls hlist hfile
  have hfind' : ∀ n, (calls.foldl CNfcConfig.add cfg).moveFromList.find (some n) =
      lastAdded calls n := fun n => by
    rw [find_moveFromList _ (harr'.trans harr) n]
    exact hfind n
  refine ⟨hsorted, fun x hx => ?_, hfind', fun n => ?_⟩
  · rw [← hfind x.name]
    exact findLoop_of_mem _ hsorted x hx
  · rw [hfind' n]
    simp [lastAdded, List.find?_eq_none, List.reduceOption_mem_iff]

/-- Witness of C39: three calls of `add` on the fresh object; the parameter
`A` is added twice, and the second one is the one found. -/
theorem C39_lookup_after_adds_witness :
    CNfcConfig.find
        (CNfcConfig.moveFromList
          ([some (CNfcParam.ofNum [0x42] 1), some (CNfcParam.ofNum [0x41] 2),
            some (CNfcParam.ofNum [0x41] 3)].foldl CNfcConfig.add CNfcConfig.new))
        (some [0x41]) =
      lastAdded
        [some (CNfcParam.ofNum [0x42] 1), some (CNfcParam.ofNum [0x41] 2),
          some (CNfcParam.ofNum [0x41] 3)] [0x41] :=
  (C39_lookup_after_adds CNfcConfig.new
    [some (CNfcParam.ofNum [0x42] 1), some (CNfcParam.ofNum [0x41] 2),
      some (CNfcParam.ofNum [0x41] 3)] rfl rfl (by decide)).2.2.1 [0x41]

end ConfigModel

namespace ConfigModel

/-- A found parameter that the byte-array lookup reports as not found: with
the numeric parameter `A` (value 5) loaded, `find` gives the parameter, yet
`GetNxpByteArrayValue` returns 0 with `*len` = -1; and with a buffer length of
0 the lookup of the byte-array parameter `B` returns 0 too. -/
theorem lookup_of_numeric_parameter :
    CNfcConfig.find
        { CNfcConfig.new with array := [CNfcParam.ofNum [0x41] 5, CNfcParam.ofString [0x42] [7]] }
        (some [0x41]) = some (CNfcParam.ofNum [0x41] 5) ∧
    GetNxpByteArrayValue
        { CNfcConfig.new with array := [CNfcParam.ofNum [0x41] 5, CNfcParam.ofString [0x42] [7]] }
        (some [0x41]) [0, 0, 0, 0, 0, 0] 6 = (0, [0, 0, 0, 0, 0, 0], -1) ∧
    GetNxpByteArrayValue
        { CNfcConfig.new with array := [CNfcParam.ofNum [0x41] 5, CNfcParam.ofString [0x42] [7]] }
        (some [0x42]) [] 0 = (0, [], -1) := by
  refine ⟨by decide, by decide, by decide⟩

/-- C31, what the code does: `GetNxpByteArrayValue(name, pValue, bufflen, len)`
returns 1 if and only if `bufflen` is positive and the parameter found under
`name` has a non-empty string or byte-array value; for a parameter that is
found but holds a number only, or with `bufflen` not positive, it returns 0,
although its header comment promises 1 whenever the name is found.  When it
returns 1 and the value fits in `bufflen` bytes, `*len` is the number of value
bytes and the first `bufflen` bytes of `pValue` are the value followed by
zeros; when it returns 1 and the value does not fit, `*len` is -1 and `pValue`
is untouched.  Whenever it returns 0, `*len` is -1 and `pValue` is
untouched. -/
theorem C31_byte_array_lookup (rConfig : CNfcConfig) (name : List Nat) (pValue : List Nat)
    (bufflen : Int) :
    ((GetNxpByteArrayValue rConfig (some name) pValue bufflen).1 = 1 ↔
      0 < bufflen ∧ ∃ p, rConfig.find (some name) = some p ∧ 0 < p.str_len) ∧
    (∀ p, 0 < bufflen → rConfig.find (some name) = some p → 0 < p.str_len →
      (p.str_len : Int) ≤ bufflen →
      GetNxpByteArrayValue rConfig (some name) pValue bufflen =
        (1,
         p.m_str_value ++ List.replicate (bufflen.toNat - p.str_len) 0 ++
           pValue.drop bufflen.toNat,
         (p.str_len : Int))) ∧
    (∀ p, 0 < bufflen → rConfig.find (some name) = some p → 0 < p.str_len →
      bufflen < (p.str_len : Int) →
      GetNxpByteArrayValue rConfig (some name) pValue bufflen = (1, pValue, -1)) ∧
    ((GetNxpByteArrayValue rConfig (some name) pValue bufflen).1 ≠ 1 →
      GetNxpByteArrayValue rConfig (some name) pValue bufflen = (0, pValue, -1)) := by
  by_cases hlen : bufflen ≤ 0
  · have hlen' : ¬ 0 < bufflen := by omega
    simp [GetNxpByteArrayValue, CNfcConfig.getValue, hlen, hlen']
  · have hlen' : 0 < bufflen := by omega
    cases hfind : rConfig.find (some name) with
    | none => simp [GetNxpByteArrayValue, CNfcConfig.getValue, hlen, hlen', hfind]
    | some p =>
      by_cases hstr : 0 < p.str_len
      · by_cases hfit : (p.str_len : Int) ≤ bufflen
        · have hfit' : ¬ bufflen < (p.str_len : Int) := by omega
          simp [GetNxpByteArrayValue, CNfcConfig.getValue, hlen, hlen', hfind, hstr, hfit, hfit']
        · have hfit' : bufflen < (p.str_len : Int) := by omega
          simp [GetNxpByteArrayValue, CNfcConfig.getValue, hlen, hlen', hfind, hstr, hfit, hfit']
      · have hstr' : p.str_len = 0 := by omega
        simp [GetNxpByteArrayValue, CNfcConfig.getValue, hlen, hlen', hfind, hstr']

/-- Witness of C31: the numeric parameter `A` (value 5) is found by `find`, and
the lookup of `A` with a buffer of six bytes returns 0, leaves the buffer as
it was and stores -1 in `*len`. -/
theorem C31_byte_array_lookup_witness :
    CNfcConfig.find
        { CNfcConfig.new with
          array := [CNfcParam.ofNum [0x41] 5, CNfcParam.ofString [0x42] [1, 2, 3, 4, 5, 6]] }
        (some [0x41]) = some (CNfcParam.ofNum [0x41] 5) ∧
    GetNxpByteArrayValue
        { CNfcConfig.new with
          array := [CNfcParam.ofNum [0x41] 5, CNfcParam.ofString [0x42] [1, 2, 3, 4, 5, 6]] }
        (some [0x41]) [0, 0, 0, 0, 0, 0] 6 = (0, [0, 0, 0, 0, 0, 0], -1) :=
  ⟨by decide,
    (C31_byte_array_lookup
      { CNfcConfig.new with
        array := [CNfcParam.ofNum [0x41] 5, CNfcParam.ofString [0x42] [1, 2, 3, 4, 5, 6]] }
      [0x41] [0, 0, 0, 0, 0, 0] 6).2.2.2 (by decide)⟩

/-- C40, what the code does: in the line `A={1234}` the token `1234` ends on
the separator `}` and is stored as the bytes `12 12`, not `12 34`: the loop of
lines 443-447 writes the shifted value back to `numValue` before each byte is
taken.  The same token ended by a character that is neither a digit nor a
separator (line `A={1234;`) goes through the loop of lines 464-467, which does
not write `numValue`, and is stored as `12 34`.  Tokens of two digits
(`A={12, 34}`) are stored as their bytes. -/
theorem C40_separator_loop_overwrites_value :
    (CNfcConfig.readConfig CNfcConfig.new (some (literal "libnfc-nxp.conf"))
        (some (literal "A=\x7b1234\x7d")) true).2.array =
      [CNfcParam.ofString (literal "A") [0x12, 0x12]] ∧
    (CNfcConfig.readConfig CNfcConfig.new (some (literal "libnfc-nxp.conf"))
        (some (literal "A=\x7b1234;")) true).2.array =
      [CNfcParam.ofString (literal "A") [0x12, 0x34]] ∧
    (CNfcConfig.readConfig CNfcConfig.new (some (literal "libnfc-nxp.conf"))
        (some (literal "A=\x7b12, 34\x7d")) true).2.array =
      [CNfcParam.ofString (literal "A") [0x12, 0x34]] ∧
    (∀ (strValue : List Nat) (v : Nat),
      (pushShifted 2 v strValue).2 =
          strValue ++ [(v >>> 8) &&& 0xFF, (v >>> 8) &&& 0xFF] ∧
        pushBytes 2 v strValue = strValue ++ [(v >>> 8) &&& 0xFF, v &&& 0xFF]) := by
  refine ⟨by decide, by decide, by decide, fun strValue v => ?_⟩
  simp [pushShifted, pushBytes]

end ConfigModel

namespace AutoCardModel

/-! ## Enable status, frame lengths, bad get-counters reply -/

/-- The runs of `phNxpNciHal_getAutoCardConfig` that end at line 77: the
get-counters reply is not valid. -/
theorem config_bad_counters_reply (env : ConfigEnv) (self : AutoCard)
    (hchip : env.chipType = ChipType.sn220u ∨ env.chipType = ChipType.sn300u)
    (hsel : env.NXP_AUTOCARD_SELECTION_PHONE_OFF = some 0x01)
    (hbad : (env.phNxpNciHal_send_ext_cmd 0 [0x2F, 0x43, 0x01, 0x02]).1 ≠ NFCSTATUS_SUCCESS ∨
      (env.phNxpNciHal_send_ext_cmd 0 [0x2F, 0x43, 0x01, 0x02]).2.length ≠ 12 ∨
      (env.phNxpNciHal_send_ext_cmd 0 [0x2F, 0x43, 0x01, 0x02]).2[3]? ≠ some 0x02) :
    self.phNxpNciHal_getAutoCardConfig env =
      { self := self, trace := [⟨Call.send_ext_cmd, [0x2F, 0x43, 0x01, 0x02], self⟩] } := by
  have hgate : (IS_CHIP_TYPE_NE env.chipType ChipType.sn220u &&
      IS_CHIP_TYPE_NE env.chipType ChipType.sn300u) = false := by
    rcases hchip with h | h <;> simp [IS_CHIP_TYPE_NE, h]
  have hvalid : (decide ((env.phNxpNciHal_send_ext_cmd 0 [0x2F, 0x43, 0x01, 0x02]).1 =
        NFCSTATUS_SUCCESS) &&
      decide ((env.phNxpNciHal_send_ext_cmd 0 [0x2F, 0x43, 0x01, 0x02]).2.length = 12) &&
      decide ((env.phNxpNciHal_send_ext_cmd 0 [0x2F, 0x43, 0x01, 0x02]).2[
        NCI_MSG_INDEX_FOR_FEATURE]? = some AUTOCARD_GET_COUNTERS_SUB_OID)) = false := by
    rcases hbad with h | h | h
    · simp [h]
    · simp [h]
    · simp only [NCI_MSG_INDEX_FOR_FEATURE, AUTOCARD_GET_COUNTERS_SUB_OID]
      simp [h]
  unfold AutoCard.phNxpNciHal_getAutoCardConfig
  simp only [hgate, hsel, hvalid]
  simp [AUTOCARD_FEATURE_ENABLED]

/-- C33, what the code does: the enable status is compared with `0x01` as a
whole byte (lines 203 and 218), not tested on bit 0.  With any enable status
other than `0x01`, bit 0 set or not (for example `0x03`), on a `sn220u` chip
with the selection mode `0x01`, a request other than enable is answered
'disabled' (status `0x0B`) with nothing enqueued, and an enable request is not
treated as already enabled: it is translated to set-counters and enqueued. -/
theorem C33_enable_status_compared_whole
    (K : NciConstants) (env : Env) (self : AutoCard) (b2 s : Nat) (rest : List Nat)
    (hchip : env.chipType = ChipType.sn220u)
    (hcfg : env.NXP_AUTOCARD_SELECTION_PHONE_OFF = some 0x01)
    (hne : self.mAutoCardEnableStatus ≠ 0x01)
    (hs : s ≤ 0x08) (h7 : s ≠ 0x07) :
    self.handleVendorNciMessage K env
        (0x2F :: K.NCI_ROW_PROP_OID_VAL :: b2 :: 0x50 :: s :: rest) =
      some
        { ret := K.NFCSTATUS_EXTN_FEATURE_SUCCESS
          self := { self with autoCardCmdType := s }
          trace := [⟨Call.NfcDataCallback, statusReply K s 0x0B,
            { self with autoCardCmdType := s }⟩] } ∧
    ∃ r, self.handleVendorNciMessage K env
        (0x2F :: K.NCI_ROW_PROP_OID_VAL :: b2 :: 0x50 :: 0x07 :: rest) = some r ∧
      r.enqueued =
        [0x2F :: 0x43 :: ((b2 + 255) % 256 + 6) % 256 :: 0x01 ::
          (rest ++ self.mAutoCardCounters)] := by
  refine ⟨msg_disabled K env self b2 s 0x01 rest hs hchip hcfg (Or.inr ⟨hne, h7⟩), _,
    msg_enable_disable K env self b2 0x07 rest hchip hcfg (Or.inl ⟨rfl, hne⟩), ?_⟩
  exact enqueueAndReturn_enqueued _ _ _ _

/-- Witness of C33: enable status `0x03`, the get-counters request
`2F 70 02 50 02` is answered 'disabled'. -/
theorem C33_enable_status_compared_whole_witness :
    (sampleCard 0 0x03).mAutoCardEnableStatus &&& 1 = 1 ∧
    (sampleCard 0 0x03).handleVendorNciMessage sampleConstants
        (sampleEnv ChipType.sn220u (some 0x01) 0)
        (0x2F :: sampleConstants.NCI_ROW_PROP_OID_VAL :: 0x02 :: 0x50 :: 0x02 :: []) =
      some
        { ret := sampleConstants.NFCSTATUS_EXTN_FEATURE_SUCCESS
          self := { sampleCard 0 0x03 with autoCardCmdType := 0x02 }
          trace := [⟨Call.NfcDataCallback, statusReply sampleConstants 0x02 0x0B,
            { sampleCard 0 0x03 with autoCardCmdType := 0x02 }⟩] } :=
  ⟨by decide,
    (C33_enable_status_compared_whole sampleConstants (sampleEnv ChipType.sn220u (some 0x01) 0)
      (sampleCard 0 0x03) 0x02 0x02 [] rfl rfl (by decide) (by decide) (by decide)).1⟩

/-- C34, what the code does: on the freshly constructed singleton (no counters
mirrored yet), every well-formed enable request (byte 2 = total length - 3) is
forwarded as a frame whose length byte has been raised by 6 (line 232) although
no counter byte is appended (line 234 appends the empty vector): the enqueued
frame is not well formed, its length byte differs from its total length minus
3. -/
theorem C34_fresh_singleton_frame_malformed
    (K : NciConstants) (env : Env) (b2 : Nat) (rest : List Nat)
    (hchip : env.chipType = ChipType.sn220u)
    (hcfg : env.NXP_AUTOCARD_SELECTION_PHONE_OFF = some 0x01)
    (hwf : b2 = (0x2F :: K.NCI_ROW_PROP_OID_VAL :: b2 :: 0x50 :: 0x07 :: rest).length - 3)
    (hbyte : b2 ≤ 255) :
    ∃ r, AutoCard.new.handleVendorNciMessage K env
        (0x2F :: K.NCI_ROW_PROP_OID_VAL :: b2 :: 0x50 :: 0x07 :: rest) = some r ∧
      r.enqueued = [0x2F :: 0x43 :: (b2 + 5) % 256 :: 0x01 :: rest] ∧
      (b2 + 5) % 256 ≠ (0x2F :: 0x43 :: (b2 + 5) % 256 :: 0x01 :: rest).length - 3 := by
  have hb : b2 = rest.length + 2 := by
    simp only [List.length_cons] at hwf
    omega
  have hlen : ((b2 + 255) % 256 + 6) % 256 = (b2 + 5) % 256 := by omega
  refine ⟨_, msg_enable_disable K env AutoCard.new b2 0x07 rest hchip hcfg
    (Or.inl ⟨rfl, by decide⟩), ?_, ?_⟩
  · rw [enqueueAndReturn_enqueued, hlen]
    simp [AutoCard.new]
  · simp only [List.length_cons]
    omega

/-- Witness of C34: the enable request `2F 70 03 50 07 01` on the fresh
singleton is forwarded as `2F 43 08 01 01`. -/
theorem C34_fresh_singleton_frame_malformed_witness :
    ∃ r, AutoCard.new.handleVendorNciMessage sampleConstants
        (sampleEnv ChipType.sn220u (some 0x01) 0)
        (0x2F :: sampleConstants.NCI_ROW_PROP_OID_VAL :: 0x03 :: 0x50 :: 0x07 :: [0x01]) =
          some r ∧
      r.enqueued = [0x2F :: 0x43 :: (0x03 + 5) % 256 :: 0x01 :: [0x01]] ∧
      (0x03 + 5) % 256 ≠ (0x2F :: 0x43 :: (0x03 + 5) % 256 :: 0x01 :: [0x01]).length - 3 :=
  C34_fresh_singleton_frame_malformed sampleConstants (sampleEnv ChipType.sn220u (some 0x01) 0)
    0x03 [0x01] rfl rfl (by decide) (by decide)

/-- C35, what the code does: for an accepted notification that is well formed
(byte 2 = total length - 3), the frame emitted upstream has the length byte
`(byte 2 + 2) % 256` and the total length `byte 2 + 5`; it is well formed if and
only if the payload is at most 253 bytes long.  With a payload of 254 or 255
bytes the sum wraps and the length byte is 0 or 1. -/
theorem C35_upstream_length_wraps
    (K : NciConstants) (self : AutoCard) (b2 b3 : Nat) (rest : List Nat)
    (hacc : rest ≠ [] → b3 ≤ 0x06)
    (hwf : b2 = (0x6F :: 0x43 :: b2 :: b3 :: rest).length - 3) :
    ∃ r frame, self.handleVendorNciRspNtf K (0x6F :: 0x43 :: b2 :: b3 :: rest) = some r ∧
      r.upstream = [frame] ∧
      frame[2]? = some ((b2 + 2) % 256) ∧
      frame.length - 3 = b2 + 2 ∧
      ((b2 + 2) % 256 = frame.length - 3 ↔ b2 ≤ 253) := by
  have hb : b2 = rest.length + 1 := by
    simp only [List.length_cons] at hwf
    omega
  refine ⟨_, 0x6F :: K.NCI_ROW_MAINLINE_OID :: (b2 + 2) % 256 :: 0x50 :: b2 :: b3 :: rest,
    rsp_ntf K self b2 b3 rest hacc, ?_, ?_, ?_, ?_⟩
  · simp [Outcome.upstream, framesOf]
  · simp
  · simp only [List.length_cons]
    omega
  · simp only [List.length_cons]
    omega

set_option maxRecDepth 8000 in
/-- Witness of C35: a notification with a payload of 254 bytes; the frame
emitted upstream has the length byte 0. -/
theorem C35_upstream_length_wraps_witness :
    (254 : Nat) = (0x6F :: 0x43 :: 254 :: 0x01 :: List.replicate 253 0).length - 3 ∧
    ∃ r frame, (sampleCard 0 1).handleVendorNciRspNtf sampleConstants
        (0x6F :: 0x43 :: 254 :: 0x01 :: List.replicate 253 0) = some r ∧
      r.upstream = [frame] ∧
      frame[2]? = some ((254 + 2) % 256) ∧
      frame.length - 3 = 254 + 2 ∧
      ((254 + 2) % 256 = frame.length - 3 ↔ 254 ≤ 253) :=
  ⟨rfl,
    C35_upstream_length_wraps sampleConstants (sampleCard 0 1) 254 0x01 (List.replicate 253 0)
      (fun _ => by decide) rfl⟩

/-- C38: reconciliation stops on a bad get-counters reply.  With a supported
chip and the selection mode `0x01`, if the get-counters command fails, or its
response is not exactly 12 bytes long, or byte 3 of the response is not the
get-counters sub-opcode `0x02`, then `phNxpNciHal_getAutoCardConfig` has sent
exactly one hardware command, the get-counters command `2F 43 01 02`, has made
no other call, and leaves the singleton (enable status, counters, last
sub-opcode) unchanged. -/
theorem C38_bad_counters_reply
    (env : ConfigEnv) (self : AutoCard)
    (hchip : env.chipType = ChipType.sn220u ∨ env.chipType = ChipType.sn300u)
    (hsel : env.NXP_AUTOCARD_SELECTION_PHONE_OFF = some 0x01)
    (hbad : (env.phNxpNciHal_send_ext_cmd 0 [0x2F, 0x43, 0x01, 0x02]).1 ≠ NFCSTATUS_SUCCESS ∨
      (env.phNxpNciHal_send_ext_cmd 0 [0x2F, 0x43, 0x01, 0x02]).2.length ≠ 12 ∨
      (env.phNxpNciHal_send_ext_cmd 0 [0x2F, 0x43, 0x01, 0x02]).2[3]? ≠ some 0x02) :
    (self.phNxpNciHal_getAutoCardConfig env).sent = [[0x2F, 0x43, 0x01, 0x02]] ∧
    (self.phNxpNciHal_getAutoCardConfig env).trace.length = 1 ∧
    (self.phNxpNciHal_getAutoCardConfig env).self = self := by
  rw [config_bad_counters_reply env self hchip hsel hbad]
  exact ⟨rfl, rfl, rfl⟩

/-- Witness of C38: the get-counters command is answered with a response of
11 bytes; the configured counters and timer would otherwise call for a
set-counters and a set-timer command. -/
theorem C38_bad_counters_reply_witness :
    ((sampleCard 0 0).phNxpNciHal_getAutoCardConfig
        (sampleConfigEnv (some [1, 2, 3, 4, 5, 7]) (some 0x05)
          (0, [0x4F, 0x43, 0x08, 0x02, 0x00, 0x01, 1, 2, 3, 4, 5])
          (0, [0x4F, 0x43, 0x03, 0x08, 0x00, 0x04]) 0)).sent = [[0x2F, 0x43, 0x01, 0x02]] ∧
    ((sampleCard 0 0).phNxpNciHal_getAutoCardConfig
        (sampleConfigEnv (some [1, 2, 3, 4, 5, 7]) (some 0x05)
          (0, [0x4F, 0x43, 0x08, 0x02, 0x00, 0x01, 1, 2, 3, 4, 5])
          (0, [0x4F, 0x43, 0x03, 0x08, 0x00, 0x04]) 0)).trace.length = 1 ∧
    ((sampleCard 0 0).phNxpNciHal_getAutoCardConfig
        (sampleConfigEnv (some [1, 2, 3, 4, 5, 7]) (some 0x05)
          (0, [0x4F, 0x43, 0x08, 0x02, 0x00, 0x01, 1, 2, 3, 4, 5])
          (0, [0x4F, 0x43, 0x03, 0x08, 0x00, 0x04]) 0)).self = sampleCard 0 0 :=
  C38_bad_counters_reply
    (sampleConfigEnv (some [1, 2, 3, 4, 5, 7]) (some 0x05)
      (0, [0x4F, 0x43, 0x08, 0x02, 0x00, 0x01, 1, 2, 3, 4, 5])
      (0, [0x4F, 0x43, 0x03, 0x08, 0x00, 0x04]) 0)
    (sampleCard 0 0) (Or.inl rfl) rfl (Or.inr (Or.inl (by decide)))

end AutoCardModel

namespace ObserveModeModel

open AutoCardModel (NFCSTATUS_SUCCESS NCI_GID_INDEX NCI_OID_INDEX NCI_MSG_LEN_INDEX
  NCI_MSG_INDEX_FOR_FEATURE)

/-! ## Recovery and the state-machine invariant -/

/-- C36 as stated fails: with an active session and a successful deactivate,
the tech command fails (second command, status 1) and the default
discovery-start command then succeeds: three commands are sent in all, and no
deactivate or discovery command follows the discovery-start. -/
theorem C36_no_recovery_after_failed_tech_command :
    (sampleObserveEnv (fun n => if n = 1 then 1 else 0)).phNxpNciHal_send_ext_cmd 1
        [0x2F, 0x0C, 0x02, 0x05, 0x03] ≠ NFCSTATUS_SUCCESS ∧
    (handleObserveModeTechCommand sampleObserveConstants
        (sampleObserveEnv (fun n => if n = 1 then 1 else 0))
        sampleActiveState [0x2F, 0x0C, 0x02, 0x05, 0x03]).map ObserveOutcome.sent =
      some [[0x21, 0x06, 0x01, 0x00], [0x2F, 0x0C, 0x02, 0x05, 0x03],
        [0x21, 0x03, 0x01, 0x00]] := by
  refine ⟨by decide, by decide⟩

/-- The commands of `handleObserveModeTechCommand` when the tech command is
sent, with an active session and a successful deactivate. -/
theorem tech_command_sent_commands
    (C : ObserveConstants) (env : ObserveEnv) (s : ObserveState)
    (b0 b1 b2 b3 t : Nat) (rest : List Nat)
    (hsup : env.phNxpNciHal_isObserveModeSupported = true)
    (hflag : t &&& C.OBSERVE_MODE_TECH_COMMAND_SUPPORT_FLAG_FOR_ALL_TECH ≠ 0)
    (hnew : t ≠ s.builder.currentObserveModeTechValue)
    (hactive : s.builder.rfDiscoveryReceived = true)
    (hd : env.phNxpNciHal_send_ext_cmd 0 rf_deactivate_cmd = NFCSTATUS_SUCCESS) :
    ∃ r, handleObserveModeTechCommand C env s (b0 :: b1 :: b2 :: b3 :: t :: rest) = some r ∧
      r.sent =
        [rf_deactivate_cmd, b0 :: b1 :: b2 :: b3 :: t :: rest,
          if env.phNxpNciHal_send_ext_cmd 1 (b0 :: b1 :: b2 :: b3 :: t :: rest) =
              NFCSTATUS_SUCCESS
            then env.reConfigRFDiscCmd { s.builder with currentObserveModeTechValue := t }
            else env.getDiscoveryCommand { s.builder with currentObserveModeTechValue := t }] ++
        (if env.phNxpNciHal_send_ext_cmd 2
              (if env.phNxpNciHal_send_ext_cmd 1 (b0 :: b1 :: b2 :: b3 :: t :: rest) =
                  NFCSTATUS_SUCCESS
                then env.reConfigRFDiscCmd { s.builder with currentObserveModeTechValue := t }
                else env.getDiscoveryCommand
                  { s.builder with currentObserveModeTechValue := t }) = NFCSTATUS_SUCCESS
          then []
          else [rf_deactivate_cmd,
            env.getDiscoveryCommand { s.builder with currentObserveModeTechValue := t }]) := by
  refine ⟨_, tech_command_frame5 C env s b0 b1 b2 b3 t rest hsup (Or.inl hflag), ?_⟩
  obtain ⟨w1, w2, en, cip, ⟨recv, cur⟩⟩ := s
  simp only at hactive hnew
  subst hactive
  by_cases h1 : env.phNxpNciHal_send_ext_cmd 1 (b0 :: b1 :: b2 :: b3 :: t :: rest) =
      NFCSTATUS_SUCCESS
  · by_cases h2 : env.phNxpNciHal_send_ext_cmd 2
        (env.reConfigRFDiscCmd { rfDiscoveryReceived := true, currentObserveModeTechValue := t }) =
        NFCSTATUS_SUCCESS <;>
    simp_all [ObserveOutcome.sent, afterDeactivate, deactivateRfDiscovery,
      sendRfDiscoveryCommand, send_ext_cmd, setObserveModePerTech, setObserveModeFlag,
      setObserveChangeInProgress, sentOf, sentOf_append]
  · by_cases h2 : env.phNxpNciHal_send_ext_cmd 2
        (env.getDiscoveryCommand
          { rfDiscoveryReceived := true, currentObserveModeTechValue := t }) =
        NFCSTATUS_SUCCESS <;>
    simp_all [ObserveOutcome.sent, afterDeactivate, deactivateRfDiscovery,
      sendRfDiscoveryCommand, send_ext_cmd, setObserveModePerTech, setObserveModeFlag,
      setObserveChangeInProgress, sentOf, sentOf_append]

/-- The commands of `handleObserveModeTechCommand` when no tech command is
sent, with an active session and a successful deactivate. -/
theorem tech_command_skipped_commands
    (C : ObserveConstants) (env : ObserveEnv) (s : ObserveState)
    (b0 b1 b2 b3 t : Nat) (rest : List Nat)
    (hsup : env.phNxpNciHal_isObserveModeSupported = true)
    (hvalid : t &&& C.OBSERVE_MODE_TECH_COMMAND_SUPPORT_FLAG_FOR_ALL_TECH ≠ 0 ∨
      t = C.NCI_ANDROID_PASSIVE_OBSERVE_PARAM_DISABLE)
    (hskip : ¬ (t &&& C.OBSERVE_MODE_TECH_COMMAND_SUPPORT_FLAG_FOR_ALL_TECH ≠ 0 ∧
      t ≠ s.builder.currentObserveModeTechValue))
    (hactive : s.builder.rfDiscoveryReceived = true)
    (hd : env.phNxpNciHal_send_ext_cmd 0 rf_deactivate_cmd = NFCSTATUS_SUCCESS) :
    ∃ r, handleObserveModeTechCommand C env s (b0 :: b1 :: b2 :: b3 :: t :: rest) = some r ∧
      r.sent =
        [rf_deactivate_cmd,
          if t &&& C.OBSERVE_MODE_TECH_COMMAND_SUPPORT_FLAG_FOR_ALL_TECH ≠ 0
            then env.reConfigRFDiscCmd s.builder
            else env.getDiscoveryCommand s.builder] ++
        (if env.phNxpNciHal_send_ext_cmd 1
              (if t &&& C.OBSERVE_MODE_TECH_COMMAND_SUPPORT_FLAG_FOR_ALL_TECH ≠ 0
                then env.reConfigRFDiscCmd s.builder
                else env.getDiscoveryCommand s.builder) = NFCSTATUS_SUCCESS
          then []
          else [rf_deactivate_cmd, env.getDiscoveryCommand s.builder]) := by
  refine ⟨_, tech_command_frame5 C env s b0 b1 b2 b3 t rest hsup hvalid, ?_⟩
  obtain ⟨w1, w2, en, cip, ⟨recv, cur⟩⟩ := s
  simp only at hactive hskip
  subst hactive
  by_cases hflag : t &&& C.OBSERVE_MODE_TECH_COMMAND_SUPPORT_FLAG_FOR_ALL_TECH = 0
  · by_cases h2 : env.phNxpNciHal_send_ext_cmd 1
        (env.getDiscoveryCommand
          { rfDiscoveryReceived := true, currentObserveModeTechValue := cur }) =
        NFCSTATUS_SUCCESS <;>
    simp_all [ObserveOutcome.sent, afterDeactivate, deactivateRfDiscovery,
      sendRfDiscoveryCommand, send_ext_cmd, setObserveModePerTech, setObserveModeFlag,
      setObserveChangeInProgress, sentOf, sentOf_append]
  · by_cases h2 : env.phNxpNciHal_send_ext_cmd 1
        (env.reConfigRFDiscCmd
          { rfDiscoveryReceived := true, currentObserveModeTechValue := cur }) =
        NFCSTATUS_SUCCESS <;>
    simp_all [ObserveOutcome.sent, afterDeactivate, deactivateRfDiscovery,
      sendRfDiscoveryCommand, send_ext_cmd, setObserveModePerTech, setObserveModeFlag,
      setObserveChangeInProgress, sentOf, sentOf_append]

/-- C36, amended: `handleObserveModeTechCommand` runs the recovery sequence
exactly when the discovery-start step fails.  With an active discovery
session, a supported valid request and a successful deactivate, the commands
sent are the deactivate, the tech command when one is due, and the
discovery-start command (the default one if the tech command failed); a plain
deactivate followed by the default discovery command comes afterwards if the
discovery-start failed, and nothing comes afterwards if it succeeded, also
when the tech command had failed. -/
theorem C36_recovery_iff_discovery_fails
    (C : ObserveConstants) (env : ObserveEnv) (s : ObserveState)
    (b0 b1 b2 b3 t : Nat) (rest : List Nat)
    (hsup : env.phNxpNciHal_isObserveModeSupported = true)
    (hvalid : t &&& C.OBSERVE_MODE_TECH_COMMAND_SUPPORT_FLAG_FOR_ALL_TECH ≠ 0 ∨
      t = C.NCI_ANDROID_PASSIVE_OBSERVE_PARAM_DISABLE)
    (hactive : s.builder.rfDiscoveryReceived = true)
    (hd : env.phNxpNciHal_send_ext_cmd 0 rf_deactivate_cmd = NFCSTATUS_SUCCESS) :
    ∃ r, handleObserveModeTechCommand C env s (b0 :: b1 :: b2 :: b3 :: t :: rest) = some r ∧
      ((t &&& C.OBSERVE_MODE_TECH_COMMAND_SUPPORT_FLAG_FOR_ALL_TECH ≠ 0 ∧
          t ≠ s.builder.currentObserveModeTechValue) →
        ∃ disc,
          disc =
            (if env.phNxpNciHal_send_ext_cmd 1 (b0 :: b1 :: b2 :: b3 :: t :: rest) =
                NFCSTATUS_SUCCESS
              then env.reConfigRFDiscCmd { s.builder with currentObserveModeTechValue := t }
              else env.getDiscoveryCommand { s.builder with currentObserveModeTechValue := t }) ∧
          r.sent =
            [rf_deactivate_cmd, b0 :: b1 :: b2 :: b3 :: t :: rest, disc] ++
              (if env.phNxpNciHal_send_ext_cmd 2 disc = NFCSTATUS_SUCCESS then []
               else [rf_deactivate_cmd,
                 env.getDiscoveryCommand { s.builder with currentObserveModeTechValue := t }])) ∧
      (¬ (t &&& C.OBSERVE_MODE_TECH_COMMAND_SUPPORT_FLAG_FOR_ALL_TECH ≠ 0 ∧
          t ≠ s.builder.currentObserveModeTechValue) →
        ∃ disc,
          disc =
            (if t &&& C.OBSERVE_MODE_TECH_COMMAND_SUPPORT_FLAG_FOR_ALL_TECH ≠ 0
              then env.reConfigRFDiscCmd s.builder
              else env.getDiscoveryCommand s.builder) ∧
          r.sent =
            [rf_deactivate_cmd, disc] ++
              (if env.phNxpNciHal_send_ext_cmd 1 disc = NFCSTATUS_SUCCESS then []
               else [rf_deactivate_cmd, env.getDiscoveryCommand s.builder])) := by
  by_cases htech : t &&& C.OBSERVE_MODE_TECH_COMMAND_SUPPORT_FLAG_FOR_ALL_TECH ≠ 0 ∧
      t ≠ s.builder.currentObserveModeTechValue
  · obtain ⟨r, hr, hsent⟩ :=
      tech_command_sent_commands C env s b0 b1 b2 b3 t rest hsup htech.1 htech.2 hactive hd
    exact ⟨r, hr, fun _ => ⟨_, rfl, hsent⟩, fun h => absurd htech h⟩
  · obtain ⟨r, hr, hsent⟩ :=
      tech_command_skipped_commands C env s b0 b1 b2 b3 t rest hsup hvalid htech hactive hd
    exact ⟨r, hr, fun h => absurd h htech, fun _ => ⟨_, rfl, hsent⟩⟩

/-- Witness of the amended C36: with an active session the tech command
succeeds and the discovery-start fails (third command, status 1): the plain
deactivate and the default discovery command follow. -/
theorem C36_recovery_iff_discovery_fails_witness :
    ∃ r, handleObserveModeTechCommand sampleObserveConstants
        (sampleObserveEnv (fun n => if n = 2 then 1 else 0)) sampleActiveState
        (0x2F :: 0x0C :: 0x02 :: 0x05 :: 0x03 :: []) = some r ∧
      r.sent =
        [[0x21, 0x06, 0x01, 0x00], [0x2F, 0x0C, 0x02, 0x05, 0x03], [0x21, 0x03, 0x01, 0xFF],
          [0x21, 0x06, 0x01, 0x00], [0x21, 0x03, 0x01, 0x00]] := by
  obtain ⟨r, hr, h, _⟩ :=
    C36_recovery_iff_discovery_fails sampleObserveConstants
      (sampleObserveEnv (fun n => if n = 2 then 1 else 0)) sampleActiveState
      0x2F 0x0C 0x02 0x05 0x03 [] rfl (Or.inl (by decide)) rfl rfl
  obtain ⟨disc, hdisc, hsent⟩ := h ⟨by decide, by decide⟩
  refine ⟨r, hr, ?_⟩
  rw [hsent, hdisc]
  decide

/-- The calls `deactivateRfDiscovery` writes neither token nor the session
mark, and sets the change-in-progress flag only with no session. -/
theorem deactivateRfDiscovery_frame (env : ObserveEnv) (run : Run) :
    (deactivateRfDiscovery env run).2.state.gWaitingForDiscRsp =
        run.state.gWaitingForDiscRsp ∧
    (deactivateRfDiscovery env run).2.state.gWaitingForRfDeActivateRsp =
        run.state.gWaitingForRfDeActivateRsp ∧
    (deactivateRfDiscovery env run).2.state.builder.rfDiscoveryReceived =
        run.state.builder.rfDiscoveryReceived ∧
    ((deactivateRfDiscovery env run).2.state.bIsObserveChangeInProgress = true →
      run.state.bIsObserveChangeInProgress = true ∨
        run.state.builder.rfDiscoveryReceived = false) := by
  by_cases hr : run.state.builder.rfDiscoveryReceived = true
  · simp [deactivateRfDiscovery, send_ext_cmd, hr]
  · simp [deactivateRfDiscovery, setObserveChangeInProgress, hr]

/-- The sequence of lines 238-277 writes neither token nor the session mark,
and sets the change-in-progress flag only with no session. -/
theorem afterDeactivate_frame (C : ObserveConstants) (env : ObserveEnv) (p_data : List Nat)
    (techValue : Nat) (flag : Bool) (nciStatus : Nat) (run : Run) :
    (afterDeactivate C env p_data techValue flag nciStatus run).2.state.gWaitingForDiscRsp =
        run.state.gWaitingForDiscRsp ∧
    (afterDeactivate C env p_data techValue flag nciStatus run).2.state.gWaitingForRfDeActivateRsp =
        run.state.gWaitingForRfDeActivateRsp ∧
    (afterDeactivate C env p_data techValue flag nciStatus run).2.state.builder.rfDiscoveryReceived =
        run.state.builder.rfDiscoveryReceived ∧
    ((afterDeactivate C env p_data techValue flag nciStatus run).2.state.bIsObserveChangeInProgress =
        true →
      run.state.bIsObserveChangeInProgress = true ∨
        run.state.builder.rfDiscoveryReceived = false) := by
  by_cases h0 : nciStatus = NFCSTATUS_SUCCESS <;>
  by_cases h1 : flag = true <;>
  by_cases h2 : techValue = run.state.builder.currentObserveModeTechValue <;>
  by_cases hr : run.state.builder.rfDiscoveryReceived = true <;>
  simp [afterDeactivate, deactivateRfDiscovery, sendRfDiscoveryCommand, send_ext_cmd,
    setObserveModePerTech, setObserveModeFlag, setObserveChangeInProgress, h0, h1, h2, hr] <;>
  split_ifs <;> simp_all

/-- What `handleObserveModeTechCommand` may write of the tokens, the session
mark and the change-in-progress flag. -/
theorem tech_command_state (C : ObserveConstants) (env : ObserveEnv) (s : ObserveState)
    (p_data : List Nat) (r : ObserveOutcome)
    (h : handleObserveModeTechCommand C env s p_data = some r) :
    r.state.gWaitingForDiscRsp = s.gWaitingForDiscRsp ∧
    r.state.gWaitingForRfDeActivateRsp = s.gWaitingForRfDeActivateRsp ∧
    r.state.builder.rfDiscoveryReceived = s.builder.rfDiscoveryReceived ∧
    (r.state.bIsObserveChangeInProgress = true →
      s.bIsObserveChangeInProgress = true ∨ s.builder.rfDiscoveryReceived = false) := by
  rcases p_data with _ | ⟨b0, _ | ⟨b1, _ | ⟨b2, _ | ⟨b3, _ | ⟨t, rest⟩⟩⟩⟩⟩
  · simp [handleObserveModeTechCommand, NCI_MSG_INDEX_FEATURE_VALUE] at h
  · simp [handleObserveModeTechCommand, NCI_MSG_INDEX_FEATURE_VALUE] at h
  · simp [handleObserveModeTechCommand, NCI_MSG_INDEX_FEATURE_VALUE] at h
  · simp [handleObserveModeTechCommand, NCI_MSG_INDEX_FEATURE_VALUE] at h
  · simp [handleObserveModeTechCommand, NCI_MSG_INDEX_FEATURE_VALUE] at h
  · by_cases hacc : env.phNxpNciHal_isObserveModeSupported = true ∧
        (t &&& C.OBSERVE_MODE_TECH_COMMAND_SUPPORT_FLAG_FOR_ALL_TECH ≠ 0 ∨
          t = C.NCI_ANDROID_PASSIVE_OBSERVE_PARAM_DISABLE)
    · rw [tech_command_frame5 C env s b0 b1 b2 b3 t rest hacc.1 hacc.2] at h
      have hr := (Option.some.inj h).symm
      subst hr
      obtain ⟨a1, a2, a3, a4⟩ := afterDeactivate_frame C env (b0 :: b1 :: b2 :: b3 :: t :: rest) t
        (decide (t &&& C.OBSERVE_MODE_TECH_COMMAND_SUPPORT_FLAG_FOR_ALL_TECH ≠ 0))
        (deactivateRfDiscovery env { state := s, trace := [] }).1
        (deactivateRfDiscovery env { state := s, trace := [] }).2
      obtain ⟨d1, d2, d3, d4⟩ := deactivateRfDiscovery_frame env { state := s, trace := [] }
      refine ⟨a1.trans d1, a2.trans d2, a3.trans d3, fun hc => ?_⟩
      rcases a4 hc with h' | h'
      · exact d4 h'
      · exact Or.inr (d3 ▸ h')
    · rw [tech_command_rejected C env s b0 b1 b2 b3 t rest hacc] at h
      have hr := (Option.some.inj h).symm
      subst hr
      exact ⟨rfl, rfl, rfl, fun hc => Or.inl hc⟩

/-- The function `handleObserveMode` writes neither token, nor the session mark,
nor the change-in-progress flag. -/
theorem handleObserveMode_state (C : ObserveConstants) (env : ObserveEnv) (s : ObserveState)
    (p_data : List Nat) (r : ObserveOutcome)
    (h : handleObserveMode C env s p_data = some r) :
    r.state.gWaitingForDiscRsp = s.gWaitingForDiscRsp ∧
    r.state.gWaitingForRfDeActivateRsp = s.gWaitingForRfDeActivateRsp ∧
    r.state.builder.rfDiscoveryReceived = s.builder.rfDiscoveryReceived ∧
    r.state.bIsObserveChangeInProgress = s.bIsObserveChangeInProgress := by
  obtain ⟨w1, w2, en, cip, ⟨recv, cur⟩⟩ := s
  rcases p_data with _ | ⟨b0, _ | ⟨b1, _ | ⟨b2, _ | ⟨b3, _ | ⟨v, rest⟩⟩⟩⟩⟩
  · simp [handleObserveMode] at h; subst h; exact ⟨rfl, rfl, rfl, rfl⟩
  · simp [handleObserveMode] at h; subst h; exact ⟨rfl, rfl, rfl, rfl⟩
  · simp [handleObserveMode] at h; subst h; exact ⟨rfl, rfl, rfl, rfl⟩
  · simp [handleObserveMode] at h; subst h; exact ⟨rfl, rfl, rfl, rfl⟩
  · simp [handleObserveMode] at h; subst h; exact ⟨rfl, rfl, rfl, rfl⟩
  · cases hsup : env.phNxpNciHal_isObserveModeSupported <;>
      simp [handleObserveMode, hsup, setObserveModeFlag, setObserveModePerTech,
        NCI_MSG_INDEX_FEATURE_VALUE, NCI_OID_INDEX, NCI_MSG_INDEX_FOR_FEATURE,
        NCI_MSG_LEN_INDEX] at h <;>
      subst h <;> exact ⟨rfl, rfl, rfl, rfl⟩

/-- The function `handleGetObserveModeStatus` writes no state. -/
theorem handleGetObserveModeStatus_state (s : ObserveState) (p_data : List Nat)
    (r : ObserveOutcome) (h : handleGetObserveModeStatus s p_data = some r) :
    r.state = s := by
  rcases p_data with _ | ⟨b0, _ | ⟨b1, _ | ⟨b2, _ | ⟨b3, rest⟩⟩⟩⟩
  · simp [handleGetObserveModeStatus] at h; subst h; rfl
  · simp [handleGetObserveModeStatus] at h; subst h; rfl
  · simp [handleGetObserveModeStatus] at h; subst h; rfl
  · simp [handleGetObserveModeStatus] at h; subst h; rfl
  · have hl : ¬ (rest.length + 1 + 1 + 1 + 1 < 4) := by omega
    simp [handleGetObserveModeStatus, NCI_OID_INDEX, NCI_MSG_INDEX_FOR_FEATURE,
      NCI_MSG_LEN_INDEX, hl] at h
    subst h; rfl

/-- The function `resetDiscovery` keeps the invariant. -/
theorem resetDiscovery_invariant (s : ObserveState) (hinv : ObserveInvariant s) :
    ObserveInvariant (resetDiscovery s).state := by
  obtain ⟨w1, w2, en, cip, ⟨recv, cur⟩⟩ := s
  unfold ObserveInvariant at hinv ⊢
  cases cip <;> cases recv <;> cases w1 <;> cases w2 <;>
    simp_all [resetDiscovery, setObserveChangeInProgress]

/-- On a frame of fewer than two bytes `handleObserveModeRfStateRspNtf` either
reads past the end or rejects the frame. -/
theorem rf_state_short (C : ObserveConstants) (env : ObserveEnv) (s : ObserveState)
    (pData : List Nat) (hlen : pData.length < 2) :
    handleObserveModeRfStateRspNtf C env s pData = none ∨
      handleObserveModeRfStateRspNtf C env s pData =
        some { ret := C.NFCSTATUS_EXTN_FEATURE_FAILURE, state := s, trace := [] } := by
  obtain ⟨w1, w2, en, cip, bld⟩ := s
  rcases pData with _ | ⟨b0, _ | ⟨b1, rest⟩⟩
  · by_cases h0 : C.NCI_RSP_SIZE = 0 <;> cases w1 <;> cases w2 <;>
      simp [handleObserveModeRfStateRspNtf, NCI_GID_INDEX, NCI_OID_INDEX, h0]
  · by_cases h0 : C.NCI_RSP_SIZE ≤ 1 <;> by_cases hg : b0 = C.NCI_RF_DISC_RSP_GID <;>
      cases w1 <;> cases w2 <;>
      simp [handleObserveModeRfStateRspNtf, NCI_GID_INDEX, NCI_OID_INDEX, h0, hg]
  · simp only [List.length_cons] at hlen
    omega

/-- The function `handleObserveModeRfStateRspNtf` keeps the invariant. -/
theorem rf_state_invariant (C : ObserveConstants) (env : ObserveEnv) (s : ObserveState)
    (pData : List Nat) (r : ObserveOutcome)
    (h : handleObserveModeRfStateRspNtf C env s pData = some r)
    (hinv : ObserveInvariant s) :
    ObserveInvariant r.state := by
  rcases pData with _ | ⟨b0, _ | ⟨b1, rest⟩⟩
  · rcases rf_state_short C env s [] (by decide) with h' | h'
    · rw [h'] at h; cases h
    · rw [h'] at h
      have hr := (Option.some.inj h).symm
      subst hr
      exact hinv
  · rcases rf_state_short C env s [b0] (by simp) with h' | h'
    · rw [h'] at h; cases h
    · rw [h'] at h
      have hr := (Option.some.inj h).symm
      subst hr
      exact hinv
  · by_cases hA : s.gWaitingForRfDeActivateRsp = true ∧
        (b0 :: b1 :: rest).length ≥ C.NCI_RSP_SIZE ∧
        b0 = C.NCI_RF_DISC_RSP_GID ∧ b1 = C.NCI_RF_DEACTIVATE_OID
    · rw [rf_state_deactivate_rsp C env s b0 b1 rest hA] at h
      have hr := (Option.some.inj h).symm
      subst hr
      obtain ⟨w1, w2, en, cip, ⟨recv, cur⟩⟩ := s
      unfold ObserveInvariant at hinv ⊢
      simp only at hA
      cases recv <;> simp_all
    · rw [rf_state_not_deactivate_rsp C env s b0 b1 rest hA] at h
      obtain ⟨w1, w2, en, cip, ⟨recv, cur⟩⟩ := s
      unfold ObserveInvariant at hinv ⊢
      split_ifs at h with hB
      · have hr := (Option.some.inj h).symm
        subst hr
        cases recv <;> simp_all
      · have hr := (Option.some.inj h).symm
        subst hr
        exact hinv

/-- Every call of an entry point keeps the invariant. -/
theorem call_invariant (C : ObserveConstants) (s s' : ObserveState) (call : ObserveCall)
    (h : call.run C s = some s') (hinv : ObserveInvariant s) : ObserveInvariant s' := by
  cases call with
  | handleObserveMode env p_data =>
    simp only [ObserveCall.run, Option.map_eq_some'] at h
    obtain ⟨r, hr, rfl⟩ := h
    obtain ⟨h1, h2, h3, h4⟩ := handleObserveMode_state C env s p_data r hr
    unfold ObserveInvariant at hinv ⊢
    rw [h1, h2, h3, h4]
    exact hinv
  | handleObserveModeTechCommand env p_data =>
    simp only [ObserveCall.run, Option.map_eq_some'] at h
    obtain ⟨r, hr, rfl⟩ := h
    obtain ⟨h1, h2, h3, h4⟩ := tech_command_state C env s p_data r hr
    unfold ObserveInvariant at hinv ⊢
    rw [h1, h2, h3]
    refine ⟨hinv.1, fun hc => ?_, hinv.2.2⟩
    rcases h4 hc with h' | h'
    · exact hinv.2.1 h'
    · exact h'
  | handleGetObserveModeStatus p_data =>
    simp only [ObserveCall.run, Option.map_eq_some'] at h
    obtain ⟨r, hr, rfl⟩ := h
    rw [handleGetObserveModeStatus_state s p_data r hr]
    exact hinv
  | resetDiscovery =>
    simp only [ObserveCall.run, Option.some.injEq] at h
    subst h
    exact resetDiscovery_invariant s hinv
  | handleObserveModeRfStateRspNtf env pData =>
    simp only [ObserveCall.run, Option.map_eq_some'] at h
    obtain ⟨r, hr, rfl⟩ := h
    exact rf_state_invariant C env s pData r hr hinv

/-- Every sequence of calls keeps the invariant. -/
theorem runCalls_invariant (C : ObserveConstants) (calls : List ObserveCall)
    (s s' : ObserveState) (h : runCalls C s calls = some s') (hinv : ObserveInvariant s) :
    ObserveInvariant s' := by
  induction calls generalizing s with
  | nil =>
    simp only [runCalls, Option.some.injEq] at h
    subst h
    exact hinv
  | cons call calls ih =>
    simp only [runCalls] at h
    cases hcall : call.run C s with
    | none => rw [hcall] at h; cases h
    | some s1 =>
      rw [hcall] at h
      exact ih s1 h (call_invariant C s s1 call hcall hinv)

end ObserveModeModel

namespace ConfigModel

/-- The lookup as `phNxpNciHal_getAutoCardConfig` is modelled to see it (on the
outcome of `find`, with a buffer of `bufflen` bytes) is the lookup on the
loaded configuration. -/
theorem GetNxpByteArrayValue_on_find (rConfig : CNfcConfig) (name : List Nat)
    (pValue : List Nat) (bufflen : Int) (hbuf : (pValue.length : Int) ≤ bufflen) :
    GetNxpByteArrayValue rConfig (some name) pValue bufflen =
      AutoCardModel.GetNxpByteArrayValue
        ((rConfig.find (some name)).map CNfcParam.m_str_value) pValue bufflen := by
  have hdrop : pValue.drop bufflen.toNat = [] := by
    apply List.drop_eq_nil_of_le
    omega
  by_cases hlen : bufflen ≤ 0
  · simp [GetNxpByteArrayValue, CNfcConfig.getValue, AutoCardModel.GetNxpByteArrayValue, hlen]
  · cases hfind : rConfig.find (some name) with
    | none =>
      simp [GetNxpByteArrayValue, CNfcConfig.getValue, AutoCardModel.GetNxpByteArrayValue, hlen,
        hfind]
    | some p =>
      by_cases hstr : 0 < p.m_str_value.length
      · by_cases hfit : (p.m_str_value.length : Int) ≤ bufflen <;>
          simp [GetNxpByteArrayValue, CNfcConfig.getValue, AutoCardModel.GetNxpByteArrayValue,
            hlen, hfind, CNfcParam.str_len, hstr, hfit, hdrop]
      · simp [GetNxpByteArrayValue, CNfcConfig.getValue, AutoCardModel.GetNxpByteArrayValue,
          hlen, hfind, CNfcParam.str_len, hstr]

end ConfigModel

namespace ObserveModeModel

open AutoCardModel (NFCSTATUS_SUCCESS NCI_GID_INDEX NCI_OID_INDEX NCI_MSG_LEN_INDEX
  NCI_MSG_INDEX_FOR_FEATURE)

/-! ## The invariant over calls on buffers -/

theorem frameOf_bufferOf (p_data : List Nat) :
    frameOf p_data.length (bufferOf p_data) = p_data := by
  apply List.ext_getElem
  · simp [frameOf]
  · intro i h1 h2
    simp only [frameOf, List.length_map, List.length_range] at h1
    simp [frameOf, bufferOf, List.getD_eq_getElem?_getD, List.getElem?_eq_getElem h2]

/-- On a buffer that holds exactly the frame, `handleObserveModeTechCommandAt`
is `handleObserveModeTechCommand` wherever the latter reads within the frame. -/
theorem handleObserveModeTechCommandAt_eq (C : ObserveConstants) (env : ObserveEnv)
    (s : ObserveState) (p_data : List Nat) (r : ObserveOutcome)
    (h : handleObserveModeTechCommand C env s p_data = some r) :
    handleObserveModeTechCommandAt C env s p_data.length (bufferOf p_data) = r := by
  rcases p_data with _ | ⟨b0, _ | ⟨b1, _ | ⟨b2, _ | ⟨b3, _ | ⟨t, rest⟩⟩⟩⟩⟩
  · simp [handleObserveModeTechCommand, NCI_MSG_INDEX_FEATURE_VALUE] at h
  · simp [handleObserveModeTechCommand, NCI_MSG_INDEX_FEATURE_VALUE] at h
  · simp [handleObserveModeTechCommand, NCI_MSG_INDEX_FEATURE_VALUE] at h
  · simp [handleObserveModeTechCommand, NCI_MSG_INDEX_FEATURE_VALUE] at h
  · simp [handleObserveModeTechCommand, NCI_MSG_INDEX_FEATURE_VALUE] at h
  · have hframe := frameOf_bufferOf (b0 :: b1 :: b2 :: b3 :: t :: rest)
    by_cases hacc : env.phNxpNciHal_isObserveModeSupported = true ∧
        (t &&& C.OBSERVE_MODE_TECH_COMMAND_SUPPORT_FLAG_FOR_ALL_TECH ≠ 0 ∨
          t = C.NCI_ANDROID_PASSIVE_OBSERVE_PARAM_DISABLE)
    · rw [tech_command_frame5 C env s b0 b1 b2 b3 t rest hacc.1 hacc.2] at h
      have hr := (Option.some.inj h).symm
      subst hr
      unfold handleObserveModeTechCommandAt
      rw [hframe]
      have h4 : bufferOf (b0 :: b1 :: b2 :: b3 :: t :: rest) NCI_MSG_INDEX_FEATURE_VALUE = t := rfl
      have h1 : bufferOf (b0 :: b1 :: b2 :: b3 :: t :: rest) NCI_OID_INDEX = b1 := rfl
      have h2 : bufferOf (b0 :: b1 :: b2 :: b3 :: t :: rest) NCI_MSG_LEN_INDEX = b2 := rfl
      have h3 : bufferOf (b0 :: b1 :: b2 :: b3 :: t :: rest) NCI_MSG_INDEX_FOR_FEATURE = b3 := rfl
      simp only [h4, h1, h2, h3, if_pos hacc]
    · rw [tech_command_rejected C env s b0 b1 b2 b3 t rest hacc] at h
      have hr := (Option.some.inj h).symm
      subst hr
      unfold handleObserveModeTechCommandAt
      have h4 : bufferOf (b0 :: b1 :: b2 :: b3 :: t :: rest) NCI_MSG_INDEX_FEATURE_VALUE = t := rfl
      have h1 : bufferOf (b0 :: b1 :: b2 :: b3 :: t :: rest) NCI_OID_INDEX = b1 := rfl
      have h2 : bufferOf (b0 :: b1 :: b2 :: b3 :: t :: rest) NCI_MSG_LEN_INDEX = b2 := rfl
      have h3 : bufferOf (b0 :: b1 :: b2 :: b3 :: t :: rest) NCI_MSG_INDEX_FOR_FEATURE = b3 := rfl
      simp only [h4, h1, h2, h3, if_neg hacc, List.nil_append]

/-- On a buffer that holds exactly the frame, `handleObserveModeAt` is
`handleObserveMode`. -/
theorem handleObserveModeAt_eq (C : ObserveConstants) (env : ObserveEnv)
    (s : ObserveState) (p_data : List Nat) :
    handleObserveMode C env s p_data =
      some (handleObserveModeAt C env s p_data.length (bufferOf p_data)) := by
  rcases p_data with _ | ⟨b0, _ | ⟨b1, _ | ⟨b2, _ | ⟨b3, _ | ⟨v, rest⟩⟩⟩⟩⟩
  · simp [handleObserveMode, handleObserveModeAt]
  · simp [handleObserveMode, handleObserveModeAt]
  · simp [handleObserveMode, handleObserveModeAt]
  · simp [handleObserveMode, handleObserveModeAt]
  · simp [handleObserveMode, handleObserveModeAt]
  · cases hsup : env.phNxpNciHal_isObserveModeSupported <;>
      simp [handleObserveMode, handleObserveModeAt, hsup, bufferOf,
        NCI_MSG_INDEX_FEATURE_VALUE, NCI_OID_INDEX, NCI_MSG_INDEX_FOR_FEATURE,
        NCI_MSG_LEN_INDEX]

/-- On a buffer that holds exactly the frame, `handleGetObserveModeStatusAt`
is `handleGetObserveModeStatus`. -/
theorem handleGetObserveModeStatusAt_eq (s : ObserveState) (p_data : List Nat) :
    handleGetObserveModeStatus s p_data =
      some (handleGetObserveModeStatusAt s p_data.length (bufferOf p_data)) := by
  rcases p_data with _ | ⟨b0, _ | ⟨b1, _ | ⟨b2, _ | ⟨b3, rest⟩⟩⟩⟩
  · simp [handleGetObserveModeStatus, handleGetObserveModeStatusAt]
  · simp [handleGetObserveModeStatus, handleGetObserveModeStatusAt]
  · simp [handleGetObserveModeStatus, handleGetObserveModeStatusAt]
  · simp [handleGetObserveModeStatus, handleGetObserveModeStatusAt]
  · have hl : ¬ (rest.length + 1 + 1 + 1 + 1 < 4) := by omega
    simp [handleGetObserveModeStatus, handleGetObserveModeStatusAt, bufferOf, hl,
      NCI_OID_INDEX, NCI_MSG_INDEX_FOR_FEATURE, NCI_MSG_LEN_INDEX]

/-- On a buffer that holds exactly the frame, `handleObserveModeRfStateRspNtfAt`
is `handleObserveModeRfStateRspNtf` wherever the latter reads within the
frame. -/
theorem handleObserveModeRfStateRspNtfAt_eq (C : ObserveConstants) (env : ObserveEnv)
    (s : ObserveState) (pData : List Nat) (r : ObserveOutcome)
    (h : handleObserveModeRfStateRspNtf C env s pData = some r) :
    handleObserveModeRfStateRspNtfAt C env s pData.length (bufferOf pData) = r := by
  rcases pData with _ | ⟨b0, _ | ⟨b1, rest⟩⟩
  · rw [rf_state_short_frame C env s [] (by decide)] at h
    by_cases hc : s.gWaitingForRfDeActivateRsp = true ∧ C.NCI_RSP_SIZE ≤ ([] : List Nat).length ∧
        (([] : List Nat) = [] ∨ ([] : List Nat)[0]? = some C.NCI_RF_DISC_RSP_GID)
    · rw [if_pos hc] at h
      cases h
    · rw [if_neg hc] at h
      have hr := (Option.some.inj h).symm
      subst hr
      unfold handleObserveModeRfStateRspNtfAt
      rw [if_neg (fun hh => hc ⟨hh.1, hh.2.1, Or.inl rfl⟩),
        if_neg (fun hh => absurd hh.2.1 (by decide))]
  · rw [rf_state_short_frame C env s [b0] (by simp)] at h
    by_cases hc : s.gWaitingForRfDeActivateRsp = true ∧ C.NCI_RSP_SIZE ≤ [b0].length ∧
        ([b0] = [] ∨ [b0][0]? = some C.NCI_RF_DISC_RSP_GID)
    · rw [if_pos hc] at h
      cases h
    · rw [if_neg hc] at h
      have hr := (Option.some.inj h).symm
      subst hr
      unfold handleObserveModeRfStateRspNtfAt
      have h0 : bufferOf [b0] NCI_GID_INDEX = b0 := rfl
      have h2 : ¬ ([b0].length ≥ 2) := by simp
      rw [if_neg (fun hh => hc ⟨hh.1, hh.2.1, Or.inr (by rw [← hh.2.2.1, h0]; rfl)⟩),
        if_neg (fun hh => h2 hh.2.1)]
  · have h0 : bufferOf (b0 :: b1 :: rest) NCI_GID_INDEX = b0 := rfl
    have h1 : bufferOf (b0 :: b1 :: rest) NCI_OID_INDEX = b1 := rfl
    have hl : (b0 :: b1 :: rest).length ≥ 2 := by simp
    unfold handleObserveModeRfStateRspNtfAt
    rw [h0, h1]
    by_cases hA : s.gWaitingForRfDeActivateRsp = true ∧
        (b0 :: b1 :: rest).length ≥ C.NCI_RSP_SIZE ∧
        b0 = C.NCI_RF_DISC_RSP_GID ∧ b1 = C.NCI_RF_DEACTIVATE_OID
    · rw [rf_state_deactivate_rsp C env s b0 b1 rest hA] at h
      have hr := (Option.some.inj h).symm
      subst hr
      rw [if_pos hA]
    · rw [rf_state_not_deactivate_rsp C env s b0 b1 rest hA] at h
      rw [if_neg hA]
      by_cases hB : s.gWaitingForDiscRsp = true ∧ b0 = C.NCI_RF_DISC_RSP_GID ∧
          b1 = C.NCI_RF_DISC_COMMAND_OID
      · rw [if_pos hB] at h
        have hr := (Option.some.inj h).symm
        subst hr
        rw [if_pos ⟨hB.1, hl, hB.2.1, hB.2.2⟩]
      · rw [if_neg hB] at h
        have hr := (Option.some.inj h).symm
        subst hr
        rw [if_neg (fun hh => hB ⟨hh.1, hh.2.2.1, hh.2.2.2⟩)]

/-- Every call on a buffer keeps the invariant. -/
theorem callAt_invariant (C : ObserveConstants) (s : ObserveState) (call : ObserveCallAt)
    (hinv : ObserveInvariant s) : ObserveInvariant (call.run C s) := by
  cases call with
  | handleObserveMode env data_len p_data =>
    obtain ⟨w1, w2, en, cip, ⟨recv, cur⟩⟩ := s
    unfold ObserveInvariant at hinv ⊢
    simp only [ObserveCallAt.run, handleObserveModeAt]
    split_ifs <;> simp_all [setObserveModeFlag, setObserveModePerTech]
  | handleObserveModeTechCommand env data_len p_data =>
    obtain ⟨d1, d2, d3, d4⟩ := deactivateRfDiscovery_frame env { state := s, trace := [] }
    unfold ObserveInvariant at hinv ⊢
    by_cases hacc : env.phNxpNciHal_isObserveModeSupported = true ∧
        (p_data NCI_MSG_INDEX_FEATURE_VALUE &&&
            C.OBSERVE_MODE_TECH_COMMAND_SUPPORT_FLAG_FOR_ALL_TECH ≠ 0 ∨
          p_data NCI_MSG_INDEX_FEATURE_VALUE = C.NCI_ANDROID_PASSIVE_OBSERVE_PARAM_DISABLE)
    · obtain ⟨a1, a2, a3, a4⟩ := afterDeactivate_frame C env (frameOf data_len p_data)
        (p_data NCI_MSG_INDEX_FEATURE_VALUE)
        (decide (p_data NCI_MSG_INDEX_FEATURE_VALUE &&&
          C.OBSERVE_MODE_TECH_COMMAND_SUPPORT_FLAG_FOR_ALL_TECH ≠ 0))
        (deactivateRfDiscovery env { state := s, trace := [] }).1
        (deactivateRfDiscovery env { state := s, trace := [] }).2
      simp only [ObserveCallAt.run, handleObserveModeTechCommandAt, if_pos hacc]
      rw [a1, a2, a3, d1, d2, d3]
      refine ⟨hinv.1, fun hc => ?_, hinv.2.2⟩
      rcases a4 hc with h' | h'
      · rcases d4 h' with h'' | h''
        · exact hinv.2.1 h''
        · exact h''
      · exact d3 ▸ h'
    · simp only [ObserveCallAt.run, handleObserveModeTechCommandAt, if_neg hacc]
      exact hinv
  | handleGetObserveModeStatus data_len p_data =>
    simp only [ObserveCallAt.run, handleGetObserveModeStatusAt]
    split_ifs <;> exact hinv
  | resetDiscovery => exact resetDiscovery_invariant s hinv
  | handleObserveModeRfStateRspNtf env dataLen pData =>
    obtain ⟨w1, w2, en, cip, ⟨recv, cur⟩⟩ := s
    unfold ObserveInvariant at hinv ⊢
    simp only [ObserveCallAt.run, handleObserveModeRfStateRspNtfAt]
    split_ifs <;> cases recv <;> simp_all

/-- Every sequence of calls on buffers keeps the invariant. -/
theorem runCallsAt_invariant (C : ObserveConstants) (calls : List ObserveCallAt)
    (s : ObserveState) (hinv : ObserveInvariant s) :
    ObserveInvariant (runCallsAt C s calls) := by
  induction calls generalizing s with
  | nil => exact hinv
  | cons call calls ih => exact ih (call.run C s) (callAt_invariant C s call hinv)

/-- A call on a frame that reads within the frame is the call on the buffer
that holds exactly the frame. -/
theorem call_onBuffer (C : ObserveConstants) (s s' : ObserveState) (call : ObserveCall)
    (h : call.run C s = some s') : call.onBuffer.run C s = s' := by
  cases call with
  | handleObserveMode env p_data =>
    simp only [ObserveCall.run, handleObserveModeAt_eq, Option.map_some',
      Option.some.injEq] at h
    exact h
  | handleObserveModeTechCommand env p_data =>
    simp only [ObserveCall.run, Option.map_eq_some'] at h
    obtain ⟨r, hr, rfl⟩ := h
    simp only [ObserveCall.onBuffer, ObserveCallAt.run]
    rw [handleObserveModeTechCommandAt_eq C env s p_data r hr]
  | handleGetObserveModeStatus p_data =>
    simp only [ObserveCall.run, handleGetObserveModeStatusAt_eq, Option.map_some',
      Option.some.injEq] at h
    exact h
  | resetDiscovery =>
    simp only [ObserveCall.run, Option.some.injEq] at h
    exact h
  | handleObserveModeRfStateRspNtf env pData =>
    simp only [ObserveCall.run, Option.map_eq_some'] at h
    obtain ⟨r, hr, rfl⟩ := h
    simp only [ObserveCall.onBuffer, ObserveCallAt.run]
    rw [handleObserveModeRfStateRspNtfAt_eq C env s pData r hr]

/-- A sequence of calls on frames that all read within their frames is the
sequence of the calls on the buffers that hold exactly the frames. -/
theorem runCalls_onBuffer (C : ObserveConstants) (calls : List ObserveCall)
    (s s' : ObserveState) (h : runCalls C s calls = some s') :
    runCallsAt C s (calls.map ObserveCall.onBuffer) = s' := by
  induction calls generalizing s with
  | nil =>
    simp only [runCalls, Option.some.injEq] at h
    subst h
    rfl
  | cons call calls ih =>
    simp only [runCalls] at h
    cases hcall : call.run C s with
    | none => rw [hcall] at h; cases h
    | some s1 =>
      rw [hcall] at h
      simp only [List.map_cons, runCallsAt]
      rw [call_onBuffer C s s1 call hcall]
      exact ih s1 h

/-- C37: the observe-mode state-machine invariant.  From the start-up state
(all flags false, no discovery session started), after every sequence of calls
of `handleObserveMode`, `handleObserveModeTechCommand`,
`handleGetObserveModeStatus`, `resetDiscovery` and
`handleObserveModeRfStateRspNtf`, with any hardware at each call and any frame,
of any length, in any buffer, at most one of the two pending-response tokens
is set, the change-in-progress (recovery pending) flag is set only while no
discovery session has been started, and no token is set before the first
session.  A frame shorter than the bytes a function reads is included: the
read gives whatever byte the buffer holds there (first part).  The same holds
after every sequence of calls on frames given as lists, in which every read
falls within its frame (second part).  In the model the session mark is
written by `resetDiscovery` alone. -/
theorem C37_state_machine_invariant (C : ObserveConstants) :
    (∀ calls : List ObserveCallAt,
      ¬ ((runCallsAt C ObserveState.init calls).gWaitingForRfDeActivateRsp = true ∧
        (runCallsAt C ObserveState.init calls).gWaitingForDiscRsp = true) ∧
      ((runCallsAt C ObserveState.init calls).bIsObserveChangeInProgress = true →
        (runCallsAt C ObserveState.init calls).builder.rfDiscoveryReceived = false) ∧
      ((runCallsAt C ObserveState.init calls).builder.rfDiscoveryReceived = false →
        (runCallsAt C ObserveState.init calls).gWaitingForRfDeActivateRsp = false ∧
          (runCallsAt C ObserveState.init calls).gWaitingForDiscRsp = false)) ∧
    (∀ (calls : List ObserveCall) (s : ObserveState),
      runCalls C ObserveState.init calls = some s →
      ¬ (s.gWaitingForRfDeActivateRsp = true ∧ s.gWaitingForDiscRsp = true) ∧
      (s.bIsObserveChangeInProgress = true → s.builder.rfDiscoveryReceived = false) ∧
      (s.builder.rfDiscoveryReceived = false →
        s.gWaitingForRfDeActivateRsp = false ∧ s.gWaitingForDiscRsp = false)) :=
  ⟨fun calls => runCallsAt_invariant C calls ObserveState.init
      (by simp [ObserveInvariant, ObserveState.init]),
    fun calls s h => runCalls_invariant C calls ObserveState.init s h
      (by simp [ObserveInvariant, ObserveState.init])⟩

/-- Witness of C37: a tech command of four bytes, whose read of `p_data[4]`
falls past the frame and finds `0x07` in the buffer, with no session (recovery
pending), then `resetDiscovery` (awaiting the deactivate response), then the
deactivate response: the state awaits the discovery response alone. -/
theorem C37_state_machine_invariant_witness :
    runCallsAt sampleObserveConstants ObserveState.init
        [ObserveCallAt.handleObserveModeTechCommand (sampleObserveEnv (fun _ => 0)) 4
           (bufferOf [0x2F, 0x0C, 0x01, 0x05, 0x07]),
         ObserveCallAt.resetDiscovery,
         ObserveCallAt.handleObserveModeRfStateRspNtf (sampleObserveEnv (fun _ => 0)) 4
           (bufferOf [0x41, 0x06, 0x01, 0x00])] =
      { gWaitingForDiscRsp := true
        gWaitingForRfDeActivateRsp := false
        bIsObserveModeEnabled := true
        bIsObserveChangeInProgress := false
        builder := { rfDiscoveryReceived := true, currentObserveModeTechValue := 0x07 } } ∧
    ¬ ((runCallsAt sampleObserveConstants ObserveState.init
        [ObserveCallAt.handleObserveModeTechCommand (sampleObserveEnv (fun _ => 0)) 4
           (bufferOf [0x2F, 0x0C, 0x01, 0x05, 0x07]),
         ObserveCallAt.resetDiscovery,
         ObserveCallAt.handleObserveModeRfStateRspNtf (sampleObserveEnv (fun _ => 0)) 4
           (bufferOf [0x41, 0x06, 0x01, 0x00])]).gWaitingForRfDeActivateRsp = true ∧
      (runCallsAt sampleObserveConstants ObserveState.init
        [ObserveCallAt.handleObserveModeTechCommand (sampleObserveEnv (fun _ => 0)) 4
           (bufferOf [0x2F, 0x0C, 0x01, 0x05, 0x07]),
         ObserveCallAt.resetDiscovery,
         ObserveCallAt.handleObserveModeRfStateRspNtf (sampleObserveEnv (fun _ => 0)) 4
           (bufferOf [0x41, 0x06, 0x01, 0x00])]).gWaitingForDiscRsp = true) ∧
    (runCalls sampleObserveConstants ObserveState.init
        [ObserveCall.handleObserveModeTechCommand (sampleObserveEnv (fun _ => 0))
           [0x2F, 0x0C, 0x02, 0x05, 0x07],
         ObserveCall.resetDiscovery,
         ObserveCall.handleObserveModeRfStateRspNtf (sampleObserveEnv (fun _ => 0))
           [0x41, 0x06, 0x01, 0x00]] =
      some
        { gWaitingForDiscRsp := true
          gWaitingForRfDeActivateRsp := false
          bIsObserveModeEnabled := true
          bIsObserveChangeInProgress := false
          builder := { rfDiscoveryReceived := true, currentObserveModeTechValue := 0x07 } }) :=
  ⟨by decide,
    ((C37_state_machine_invariant sampleObserveConstants).1
      [ObserveCallAt.handleObserveModeTechCommand (sampleObserveEnv (fun _ => 0)) 4
         (bufferOf [0x2F, 0x0C, 0x01, 0x05, 0x07]),
       ObserveCallAt.resetDiscovery,
       ObserveCallAt.handleObserveModeRfStateRspNtf (sampleObserveEnv (fun _ => 0)) 4
         (bufferOf [0x41, 0x06, 0x01, 0x00])]).1,
    by decide⟩

end ObserveModeModel
